import Mathlib

/-!
Air-Quality-8051: sensor acquisition, decoding, filtering and validation.

Shallow embedding of the numeric core of the firmware (Keil C51 target:
`unsigned char` is 8 bits, `int` / `unsigned int` are 16 bits, `long` /
`unsigned long` are 32 bits).  Machine integers are `Nat` / `Int` with the
wrap-around of every C operation written out explicitly.

Embedded source functions:
* `AHT10_Read`      (src/drivers/aht10.c)    the part after the six bytes are read
* `GP2Y1014_Read`   (src/drivers/gp2y1014.c) the part after the ADC code is read
* `MQ2_Read`        (src/drivers/mq2.c)      the part after the ADC code is read
* `Gas_Filter`      (src/main.c)
* `main_cycle`      (src/main.c)             acquisition part of one `while (1)` iteration
* `I2C_Init`, `I2C_Start`, `I2C_Stop`, `I2C_WriteByte`, `I2C_ReadByte` (src/drivers/i2c.c)
  on a state holding the two port latches, `i2c_error`, the levels the data
  line shows at successive samplings, and a record of what was done
* `AHT10_Init`, `AHT10_Read_bus` (src/drivers/aht10.c) and `ADS1115_ReadChannel`,
  `ADS1115_StartContinuous`, `ADS1115_ReadContinuous` (src/drivers/ads1115.c) on that state
* `main_cycle_bus`  (src/main.c)             the acquisition part with its reads on the bus
* `delay_ms`, `WDT_Feed` (src/drivers/delay.c, src/core/watchdog.c) as `Timing.delay_ms`,
  on a record of the stores to the watchdog register
* `uint_to_str`, `int_x10_to_str` (src/core/utils.c) on a pointer into an array of cells,
  with the scratch array `temp[6]`
* `UART_SendString`, `Send_DataToESP32_WithErrors` (src/core/uart.c, src/core/uart_protocol.c)
* `Get_AirQuality_Status`, `Display_Update_Mode` (src/core/display.c) with the two line
  buffers, the `static` counter and the record of calls to the LCD driver
-/

namespace AirQuality

/-! ## Machine integer conversions -/

/-- Conversion of a mathematical integer to `unsigned char` (8 bits). -/
def toU8 (x : Int) : Nat := (x % 256).toNat

/-- Conversion of a mathematical integer to `unsigned int` (16 bits). -/
def toU16 (x : Int) : Nat := (x % 65536).toNat

/-- Conversion of a mathematical integer to `unsigned long` (32 bits). -/
def toU32 (x : Int) : Nat := (x % 4294967296).toNat

/-- Conversion of a mathematical integer to `int` (16 bits, two's complement). -/
def toI16 (x : Int) : Int := (x + 32768) % 65536 - 32768

/-- Conversion of a mathematical integer to `long` (32 bits, two's complement). -/
def toI32 (x : Int) : Int := (x + 2147483648) % 4294967296 - 2147483648

/-! ## AHT10 humidity / temperature decoder (src/drivers/aht10.c) -/

/-- Step 4 of `AHT10_Read`:
`humidity_raw = ((unsigned long)data1 << 12) | ((unsigned long)data2 << 4) | (data3 >> 4);` -/
def AHT10_humidity_raw (data1 data2 data3 : Nat) : Nat :=
  toU32 (((toU32 ((data1 <<< 12 : Nat) : Int) ||| toU32 ((data2 <<< 4 : Nat) : Int))
    ||| (data3 >>> 4) : Nat) : Int)

/-- Step 5 of `AHT10_Read`:
`temperature_raw = (((unsigned long)data3 & 0x0F) << 16) | ((unsigned long)data4 << 8) | data5;` -/
def AHT10_temperature_raw (data3 data4 data5 : Nat) : Nat :=
  toU32 (((toU32 (((data3 &&& 0x0F) <<< 16 : Nat) : Int) ||| toU32 ((data4 <<< 8 : Nat) : Int))
    ||| data5 : Nat) : Int)

/-- Step 6 of `AHT10_Read`, humidity:
`*humid_x10 = (int)((humidity_raw * 1000UL) / 1048576UL);` -/
def AHT10_humid_x10 (humidity_raw : Nat) : Int :=
  toI16 ((toU32 ((humidity_raw : Int) * 1000) / 1048576 : Nat) : Int)

/-- Step 6 of `AHT10_Read`, temperature:
`*temp_x10 = (int)((temperature_raw * 2000UL) / 1048576UL) - 500;` -/
def AHT10_temp_x10 (temperature_raw : Nat) : Int :=
  toI16 (toI16 ((toU32 ((temperature_raw : Int) * 2000) / 1048576 : Nat) : Int) - 500)

/-- The six bytes `data0 .. data5` read from the sensor by `AHT10_Read`. -/
structure Capture where
  data0 : Nat
  data1 : Nat
  data2 : Nat
  data3 : Nat
  data4 : Nat
  data5 : Nat
deriving DecidableEq, Repr

/-- Every member of the capture is an `unsigned char`. -/
def Capture.valid (c : Capture) : Prop :=
  c.data0 < 256 ∧ c.data1 < 256 ∧ c.data2 < 256 ∧ c.data3 < 256 ∧ c.data4 < 256 ∧ c.data5 < 256

instance (c : Capture) : Decidable c.valid := by
  unfold Capture.valid; infer_instance

/-- `AHT10_Read` from the point where the six bytes have been read off the
bus: returns `(temp_x10, humid_x10)`. -/
def AHT10_Read (c : Capture) : Int × Int :=
  let humidity_raw := AHT10_humidity_raw c.data1 c.data2 c.data3
  let temperature_raw := AHT10_temperature_raw c.data3 c.data4 c.data5
  let humid_x10 := AHT10_humid_x10 humidity_raw
  let temp_x10 := AHT10_temp_x10 temperature_raw
  (temp_x10, humid_x10)

/-- Bytes 1..5 of the layout documented above `AHT10_Read`
(`data1 = Humidity[19:12]`, `data2 = Humidity[11:4]`, `data3[7:4] = Humidity[3:0]`,
`data3[3:0] = Temperature[19:16]`, `data4 = Temperature[15:8]`,
`data5 = Temperature[7:0]`) for two given 20-bit fields. -/
def AHT10_pack (humidity_raw temperature_raw : Nat) : Nat × Nat × Nat × Nat × Nat :=
  (humidity_raw / 4096 % 256,
   humidity_raw / 16 % 256,
   humidity_raw % 16 * 16 + temperature_raw / 65536 % 16,
   temperature_raw / 256 % 256,
   temperature_raw % 256)

/-! ## GP2Y1014 particulate sensor (src/drivers/gp2y1014.c) -/

/-- Clean-air baseline voltage in millivolts: `#define GP2Y_ZERO_VOLTAGE 600`. -/
def GP2Y_ZERO_VOLTAGE : Int := 600

/-- `GP2Y1014_Read` from the point where `ADS1115_ReadChannel(1)` has
returned `adc`: returns `(pm25_ugm3, pm25_raw)`.  `voltage_mV` is a `long`,
the C division truncates toward zero. -/
def GP2Y1014_Read (adc : Int) : Nat × Nat :=
  let adc_signed : Int := if adc < 0 then 0 else adc
  let voltage_mV : Int := toI32 (Int.tdiv (toI32 (toI32 adc_signed * 6144)) 32768)
  let pm25_ugm3 : Nat :=
    if voltage_mV > GP2Y_ZERO_VOLTAGE then
      toU16 (toI32 (Int.tdiv (toI32 (voltage_mV - GP2Y_ZERO_VOLTAGE)) 6))
    else 0
  let pm25_ugm3 : Nat := if pm25_ugm3 > 500 then 500 else pm25_ugm3
  let pm25_raw : Nat := toU16 adc_signed
  (pm25_ugm3, pm25_raw)

/-! ## MQ2 gas sensor (src/drivers/mq2.c) -/

/-- `MQ2_Read` from the point where `ADS1115_ReadChannel(0)` has returned
`adc`: returns `gas_raw`. -/
def MQ2_Read (adc : Int) : Nat :=
  let adc_signed : Int := adc
  if adc_signed < 0 then 0 else toU16 adc_signed

/-! ## Gas filter and acquisition cycle (src/main.c) -/

/-- Ring size: `#define GAS_FILTER_SIZE 4`. -/
def GAS_FILTER_SIZE : Nat := 4

/-- Validation bounds of `main.c`. -/
def AHT10_TEMP_MIN : Int := -400
/-- Upper plausible temperature, tenths of a degree. -/
def AHT10_TEMP_MAX : Int := 850
/-- Lower plausible humidity, tenths of a percent. -/
def AHT10_HUMID_MIN : Int := 0
/-- Upper plausible humidity, tenths of a percent. -/
def AHT10_HUMID_MAX : Int := 1000
/-- Zero threshold of the gas channel: `#define MQ2_ZERO_THRESHOLD 150`. -/
def MQ2_ZERO_THRESHOLD : Nat := 150

/-- The globals `gas_history[GAS_FILTER_SIZE]` and `gas_index`. -/
structure GasRing where
  gas_history : List Nat
  gas_index : Nat
deriving DecidableEq, Repr

/-- Reset value of the ring: `gas_history = {0, 0, 0, 0}`, `gas_index = 0`. -/
def GasRing.reset : GasRing := ⟨[0, 0, 0, 0], 0⟩

/-- The ring is a 4-element array of `unsigned int` and the index addresses it. -/
def GasRing.wf (r : GasRing) : Prop :=
  r.gas_history.length = 4 ∧ r.gas_index < 4 ∧ ∀ v ∈ r.gas_history, v < 65536

instance (r : GasRing) : Decidable r.wf := by
  unfold GasRing.wf; infer_instance

/-- Locals of the scan loop of `Gas_Filter`. -/
structure FilterAcc where
  sum : Nat
  max_val : Nat
  min_val : Nat
deriving DecidableEq, Repr

/-- One iteration of `for (i = 0; i < GAS_FILTER_SIZE; i++)` in `Gas_Filter`. -/
def Gas_Filter_step (gas_history : List Nat) (acc : FilterAcc) (i : Nat) : FilterAcc :=
  let v := gas_history.getD i 0
  let max_val := if v > acc.max_val then v else acc.max_val
  let min_val := if v < acc.min_val then v else acc.min_val
  let sum := toU32 ((acc.sum : Int) + (v : Int))
  ⟨sum, max_val, min_val⟩

/-- `Gas_Filter(new_value)`: returns the updated ring and the returned value. -/
def Gas_Filter (r : GasRing) (new_value : Nat) : GasRing × Nat :=
  let gas_history := r.gas_history.set r.gas_index new_value
  let gas_index := toU8 (((r.gas_index + 1) % GAS_FILTER_SIZE : Nat) : Int)
  let acc := (List.range GAS_FILTER_SIZE).foldl (Gas_Filter_step gas_history) ⟨0, 0, 65535⟩
  let sum := toU32 ((toU32 ((acc.sum : Int) - (acc.max_val : Int)) : Int) - (acc.min_val : Int))
  (⟨gas_history, gas_index⟩, toU16 ((sum / (GAS_FILTER_SIZE - 2) : Nat) : Int))

/-- Globals of `main.c` written by the acquisition part of the main loop. -/
structure State where
  temperature_x10 : Int
  humidity_x10 : Int
  pm25_ugm3 : Nat
  pm25_raw : Nat
  gas_raw : Nat
  gas_ppm : Nat
  err_aht10 : Nat
  err_pm25 : Nat
  err_gas : Nat
  ring : GasRing
deriving DecidableEq, Repr

/-- Reset values of the globals. -/
def State.reset : State := ⟨0, 0, 0, 0, 0, 0, 0, 0, 0, GasRing.reset⟩

/-- What the three sensor reads of one cycle obtain from the bus: the six
bytes of the AHT10 and the conversion results of ADC channels 1 and 0. -/
structure CycleInput where
  capture : Capture
  adc_ch1 : Int
  adc_ch0 : Int
deriving DecidableEq, Repr

/-- The inputs have their C types (`unsigned char`, 16-bit `int`). -/
def CycleInput.valid (i : CycleInput) : Prop :=
  i.capture.valid ∧ (-32768 ≤ i.adc_ch1 ∧ i.adc_ch1 ≤ 32767) ∧
    (-32768 ≤ i.adc_ch0 ∧ i.adc_ch0 ≤ 32767)

instance (i : CycleInput) : Decidable i.valid := by
  unfold CycleInput.valid; infer_instance

/-- Acquisition part of one iteration of `while (1)` in `main`: from
`AHT10_Read` down to the clamp `if (gas_ppm > 1000) gas_ppm = 1000;`. -/
def main_cycle (s : State) (i : CycleInput) : State :=
  let temperature_x10 := (AHT10_Read i.capture).1
  let humidity_x10 := (AHT10_Read i.capture).2
  let err_aht10 : Nat :=
    if temperature_x10 < AHT10_TEMP_MIN ∨ temperature_x10 > AHT10_TEMP_MAX ∨
        humidity_x10 < AHT10_HUMID_MIN ∨ humidity_x10 > AHT10_HUMID_MAX then 1 else 0
  let pm25_ugm3 := (GP2Y1014_Read i.adc_ch1).1
  let pm25_raw := (GP2Y1014_Read i.adc_ch1).2
  let err_pm25 : Nat := if pm25_raw = 0 ∨ pm25_raw > 60000 ∨ pm25_ugm3 > 500 then 1 else 0
  let gas_raw := MQ2_Read i.adc_ch0
  let err_gas : Nat := if gas_raw = 0 ∨ gas_raw > 60000 then 1 else 0
  let gas_raw := if gas_raw > 32767 then 32767 else gas_raw
  let filtered := Gas_Filter s.ring gas_raw
  let ring := filtered.1
  let gas_raw := filtered.2
  let gas_ppm : Nat :=
    if gas_raw > MQ2_ZERO_THRESHOLD then
      toU16 ((toU16 ((gas_raw : Int) - (MQ2_ZERO_THRESHOLD : Int)) / 33 : Nat) : Int)
    else 0
  let gas_ppm : Nat := if gas_ppm > 1000 then 1000 else gas_ppm
  { temperature_x10 := temperature_x10, humidity_x10 := humidity_x10,
    pm25_ugm3 := pm25_ugm3, pm25_raw := pm25_raw, gas_raw := gas_raw, gas_ppm := gas_ppm,
    err_aht10 := err_aht10, err_pm25 := err_pm25, err_gas := err_gas, ring := ring }

/-- Pre-filter `gas_raw` of a cycle: the value `MQ2_Read` stores, tested by the
gas validation. -/
def gas_raw_read (i : CycleInput) : Nat := MQ2_Read i.adc_ch0

/-- Value handed to `Gas_Filter` in a cycle: `if (gas_raw > 32767) gas_raw = 32767;`. -/
def gas_raw_clamped (i : CycleInput) : Nat :=
  if gas_raw_read i > 32767 then 32767 else gas_raw_read i

/-- The four ring values in ascending order. -/
def sorted4 (l : List Nat) : List Nat := l.insertionSort (· ≤ ·)

/-! ## Two-wire bus engine (src/drivers/i2c.c) -/

/-- Timeout of the acknowledgement wait: `#define I2C_TIMEOUT 200`. -/
def I2C_TIMEOUT : Nat := 200

/-- The calls into the bus engine. -/
inductive Call where
  | init
  | start
  | stop
  | write (dat : Nat)
  | read (ack : Bool)
deriving DecidableEq, Repr

/-- What the firmware does on the bus, in program order: entering a bus
function, writing the `SDA` or `SCL` port latch, sampling `SDA`, the two
busy waits, and writing the `DUST_LED` pin. -/
inductive Ev where
  | call (c : Call)
  | sda (level : Bool)
  | scl (level : Bool)
  | sample (level : Bool)
  | delay_us (us : Nat)
  | delay_ms (ms : Nat)
  | dust_led (level : Bool)
deriving DecidableEq, Repr

/-- State of the bus engine: the two port latches `SDA` and `SCL`, the global
`i2c_error`, the level the data line shows at each successive sampling of
`SDA` (`line k` is what the `k`-th sampling reads), the number of samplings
made so far, and the record of what has been done. -/
structure Bus where
  sda : Bool
  scl : Bool
  i2c_error : Nat
  line : Nat → Bool
  reads : Nat
  trace : List Ev

/-- Entry into a bus function (recorded only). -/
def enter (c : Call) (s : Bus) : Bus := { s with trace := s.trace ++ [Ev.call c] }

/-- `SDA = v;` -/
def set_SDA (v : Bool) (s : Bus) : Bus := { s with sda := v, trace := s.trace ++ [Ev.sda v] }

/-- `SCL = v;` -/
def set_SCL (v : Bool) (s : Bus) : Bus := { s with scl := v, trace := s.trace ++ [Ev.scl v] }

/-- One evaluation of `SDA` as a value: the level shown by the line. -/
def read_SDA (s : Bus) : Bool × Bus :=
  (s.line s.reads,
   { s with reads := s.reads + 1, trace := s.trace ++ [Ev.sample (s.line s.reads)] })

/-- `delay_us(us);` (recorded only). -/
def delay_us (us : Nat) (s : Bus) : Bus := { s with trace := s.trace ++ [Ev.delay_us us] }

/-- `delay_ms(ms);` (recorded only). -/
def delay_ms (ms : Nat) (s : Bus) : Bus := { s with trace := s.trace ++ [Ev.delay_ms ms] }

/-- `DUST_LED = v;` (recorded only). -/
def set_DUST_LED (v : Bool) (s : Bus) : Bus := { s with trace := s.trace ++ [Ev.dust_led v] }

/-- `I2C_Init`. -/
def I2C_Init (s : Bus) : Bus :=
  let s := enter Call.init s
  let s := set_SDA true s
  set_SCL true s

/-- `I2C_Start`. -/
def I2C_Start (s : Bus) : Bus :=
  let s := enter Call.start s
  let s := set_SDA true s
  let s := set_SCL true s
  let s := delay_us 5 s
  let s := set_SDA false s
  let s := delay_us 5 s
  set_SCL false s

/-- `I2C_Stop`. -/
def I2C_Stop (s : Bus) : Bus :=
  let s := enter Call.stop s
  let s := set_SDA false s
  let s := set_SCL true s
  let s := delay_us 5 s
  let s := set_SDA true s
  delay_us 5 s

/-- One iteration of the data loop of `I2C_WriteByte` on `(dat, bus)`. -/
def I2C_WriteByte_bit (st : Nat × Bus) (_i : Nat) : Nat × Bus :=
  let s := set_SDA (st.1 &&& 0x80 != 0) st.2
  let s := delay_us 2 s
  let s := set_SCL true s
  let s := delay_us 5 s
  let s := set_SCL false s
  let dat := toU8 ((st.1 <<< 1 : Nat) : Int)
  (dat, s)

/-- Step 1 of `I2C_WriteByte`: `for (i = 0; i < 8; i++) { ... }`. -/
def I2C_WriteByte_data (dat : Nat) (s : Bus) : Nat × Bus :=
  (List.range 8).foldl I2C_WriteByte_bit (dat, s)

/-- The loop `while (SDA && --timeout) { }` of `I2C_WriteByte`; returns the
final `timeout`.  `fuel` bounds the number of iterations of the model; an
`unsigned char` counter reaches 0 within 256 decrements. -/
def ack_wait : Nat → Nat → Bus → Nat × Bus
  | 0, timeout, s => (timeout, s)
  | fuel + 1, timeout, s =>
    let r := read_SDA s
    if r.1 then
      let timeout := toU8 ((timeout : Int) - 1)
      if timeout != 0 then ack_wait fuel timeout r.2 else (timeout, r.2)
    else (timeout, r.2)

/-- Step 2 of `I2C_WriteByte`: release `SDA`, raise `SCL`, wait for the
acknowledgement, sample it, lower `SCL`, latch the fault; returns `ack`. -/
def I2C_WriteByte_ack (s : Bus) : Bool × Bus :=
  let s := set_SDA true s
  let s := delay_us 2 s
  let s := set_SCL true s
  let w := ack_wait 256 I2C_TIMEOUT s
  let timeout := w.1
  let r := read_SDA w.2
  let ack := r.1
  let s := delay_us 5 r.2
  let s := set_SCL false s
  let s := if timeout = 0 then { s with i2c_error := 1 } else s
  (ack, s)

/-- `I2C_WriteByte(dat)`: returns the `ack` bit. -/
def I2C_WriteByte (dat : Nat) (s : Bus) : Bool × Bus :=
  let s := enter (Call.write dat) s
  let d := I2C_WriteByte_data dat s
  I2C_WriteByte_ack d.2

/-- One iteration of the data loop of `I2C_ReadByte` on `(dat, bus)`. -/
def I2C_ReadByte_bit (st : Nat × Bus) (_i : Nat) : Nat × Bus :=
  let s := delay_us 2 st.2
  let s := set_SCL true s
  let dat := toU8 ((st.1 <<< 1 : Nat) : Int)
  let r := read_SDA s
  let dat := if r.1 then toU8 ((dat ||| 0x01 : Nat) : Int) else dat
  let s := delay_us 5 r.2
  let s := set_SCL false s
  (dat, s)

/-- `I2C_ReadByte(ack)`: returns the byte received. -/
def I2C_ReadByte (ack : Bool) (s : Bus) : Nat × Bus :=
  let s := enter (Call.read ack) s
  let s := set_SDA true s
  let d := (List.range 8).foldl I2C_ReadByte_bit (0, s)
  let dat := d.1
  let s := set_SDA ack d.2
  let s := delay_us 2 s
  let s := set_SCL true s
  let s := delay_us 5 s
  let s := set_SCL false s
  let s := set_SDA true s
  (dat, s)

/-! ## Sensor transactions on the bus (src/drivers/aht10.c, src/drivers/ads1115.c) -/

/-- Bus address of the AHT10: `#define AHT10_ADDR 0x38`. -/
def AHT10_ADDR : Nat := 0x38

/-- Bus address of the ADS1115: `#define ADS1115_ADDR 0x48`. -/
def ADS1115_ADDR : Nat := 0x48

/-- `AHT10_Init`. -/
def AHT10_Init (s : Bus) : Bus :=
  let s := delay_ms 40 s
  let s := I2C_Start s
  let s := (I2C_WriteByte (AHT10_ADDR <<< 1) s).2
  let s := (I2C_WriteByte 0xE1 s).2
  let s := (I2C_WriteByte 0x08 s).2
  let s := (I2C_WriteByte 0x00 s).2
  let s := I2C_Stop s
  delay_ms 10 s

/-- Steps 1 to 3 of `AHT10_Read`: the trigger transaction, the wait and the
read transaction; returns the six bytes read. -/
def AHT10_Read_capture (s : Bus) : Capture × Bus :=
  let s := I2C_Start s
  let s := (I2C_WriteByte (AHT10_ADDR <<< 1) s).2
  let s := (I2C_WriteByte 0xAC s).2
  let s := (I2C_WriteByte 0x33 s).2
  let s := (I2C_WriteByte 0x00 s).2
  let s := I2C_Stop s
  let s := delay_ms 80 s
  let s := I2C_Start s
  let s := (I2C_WriteByte ((AHT10_ADDR <<< 1) ||| 0x01) s).2
  let r0 := I2C_ReadByte false s
  let r1 := I2C_ReadByte false r0.2
  let r2 := I2C_ReadByte false r1.2
  let r3 := I2C_ReadByte false r2.2
  let r4 := I2C_ReadByte false r3.2
  let r5 := I2C_ReadByte true r4.2
  let s := I2C_Stop r5.2
  (⟨r0.1, r1.1, r2.1, r3.1, r4.1, r5.1⟩, s)

/-- `AHT10_Read` on the bus: the transactions followed by the decoding;
returns `(temp_x10, humid_x10)`. -/
def AHT10_Read_bus (s : Bus) : (Int × Int) × Bus :=
  let c := AHT10_Read_capture s
  (AHT10_Read c.1, c.2)

/-- `config_high = 0xC0 | (channel << 4) | 0x02;` in `ADS1115_ReadChannel`. -/
def ADS1115_ReadChannel_config_high (channel : Nat) : Nat :=
  toU8 ((0xC0 ||| (channel <<< 4) ||| 0x02 : Nat) : Int)

/-- `config_low = 0x83;` in `ADS1115_ReadChannel`. -/
def ADS1115_ReadChannel_config_low : Nat := 0x83

/-- `config_high = 0xC0 | (channel << 4) | 0x02;` in `ADS1115_StartContinuous`. -/
def ADS1115_StartContinuous_config_high (channel : Nat) : Nat :=
  toU8 ((0xC0 ||| (channel <<< 4) ||| 0x02 : Nat) : Int)

/-- `config_low = 0x03;` in `ADS1115_StartContinuous`. -/
def ADS1115_StartContinuous_config_low : Nat := 0x03

/-- `result = (int)hi << 8; result |= lo;` for the two bytes read from the
conversion register (16-bit `int`). -/
def ADS1115_result (hi lo : Nat) : Int :=
  let result : Int := toI16 ((hi <<< 8 : Nat) : Int)
  toI16 ((toU16 result ||| lo : Nat) : Int)

/-- The read part shared by `ADS1115_ReadChannel` and `ADS1115_ReadContinuous`:
point at the conversion register, then read two bytes. -/
def ADS1115_read_conversion (s : Bus) : Int × Bus :=
  let s := I2C_Start s
  let s := (I2C_WriteByte (ADS1115_ADDR <<< 1) s).2
  let s := (I2C_WriteByte 0x00 s).2
  let s := I2C_Stop s
  let s := I2C_Start s
  let s := (I2C_WriteByte ((ADS1115_ADDR <<< 1) ||| 0x01) s).2
  let hi := I2C_ReadByte false s
  let lo := I2C_ReadByte true hi.2
  let result := ADS1115_result hi.1 lo.1
  let s := I2C_Stop lo.2
  (result, s)

/-- `ADS1115_ReadChannel(channel)`. -/
def ADS1115_ReadChannel (channel : Nat) (s : Bus) : Int × Bus :=
  let config_high := ADS1115_ReadChannel_config_high channel
  let config_low := ADS1115_ReadChannel_config_low
  let s := I2C_Start s
  let s := (I2C_WriteByte (ADS1115_ADDR <<< 1) s).2
  let s := (I2C_WriteByte 0x01 s).2
  let s := (I2C_WriteByte config_high s).2
  let s := (I2C_WriteByte config_low s).2
  let s := I2C_Stop s
  let s := delay_ms 10 s
  ADS1115_read_conversion s

/-- `ADS1115_StartContinuous(channel)`. -/
def ADS1115_StartContinuous (channel : Nat) (s : Bus) : Bus :=
  let config_high := ADS1115_StartContinuous_config_high channel
  let config_low := ADS1115_StartContinuous_config_low
  let s := I2C_Start s
  let s := (I2C_WriteByte (ADS1115_ADDR <<< 1) s).2
  let s := (I2C_WriteByte 0x01 s).2
  let s := (I2C_WriteByte config_high s).2
  let s := (I2C_WriteByte config_low s).2
  let s := I2C_Stop s
  delay_ms 10 s

/-- `ADS1115_ReadContinuous()`. -/
def ADS1115_ReadContinuous (s : Bus) : Int × Bus :=
  ADS1115_read_conversion s

/-- `GP2Y1014_Read` on the bus: excitation, settle time, conversion of channel 1,
then the computation of `GP2Y1014_Read`; returns `(pm25_ugm3, pm25_raw)`. -/
def GP2Y1014_Read_bus (s : Bus) : (Nat × Nat) × Bus :=
  let s := set_DUST_LED false s
  let s := delay_us 280 s
  let r := ADS1115_ReadChannel 1 s
  let s := set_DUST_LED true r.2
  (GP2Y1014_Read r.1, s)

/-- `MQ2_Read` on the bus: conversion of channel 0, then the computation of
`MQ2_Read`; returns `gas_raw`. -/
def MQ2_Read_bus (s : Bus) : Nat × Bus :=
  let r := ADS1115_ReadChannel 0 s
  (MQ2_Read r.1, r.2)

/-! ## Observations on a record of bus activity -/

/-- Record of one clock pulse carrying the level `v`: the level is put on
`SDA`, then `SCL` is raised and lowered. -/
def pulse (v : Bool) : List Ev :=
  [Ev.sda v, Ev.delay_us 2, Ev.scl true, Ev.delay_us 5, Ev.scl false]

/-- Record of eight clock pulses carrying bit 7, bit 6, ..., bit 0 of `dat`. -/
def dataPhase (dat : Nat) : List Ev :=
  pulse (dat.testBit 7) ++ pulse (dat.testBit 6) ++ pulse (dat.testBit 5) ++
    pulse (dat.testBit 4) ++ pulse (dat.testBit 3) ++ pulse (dat.testBit 2) ++
    pulse (dat.testBit 1) ++ pulse (dat.testBit 0)

/-- Record of the samplings number `r`, `r + 1`, ..., `r + n - 1` of the line. -/
def samples (line : Nat → Bool) (r n : Nat) : List Ev :=
  (List.range n).map fun k => Ev.sample (line (r + k))

/-- The calls into the bus engine, in order. -/
def callsOf : List Ev → List Call
  | [] => []
  | Ev.call c :: es => c :: callsOf es
  | _ :: es => callsOf es

/-- The bytes handed to `I2C_WriteByte`, in order. -/
def bytesWritten : List Call → List Nat
  | [] => []
  | Call.write dat :: cs => dat :: bytesWritten cs
  | _ :: cs => bytesWritten cs

/-- Start/Stop bracketing of a sequence of calls, from a bus that is held
(`true`) or idle (`false`): Start only when idle, Stop and byte transfers only
when held, idle at the end. -/
def bracketed : Bool → List Call → Bool
  | held, [] => !held
  | held, Call.start :: cs => !held && bracketed true cs
  | held, Call.stop :: cs => held && bracketed false cs
  | held, Call.write _ :: cs => held && bracketed held cs
  | held, Call.read _ :: cs => held && bracketed held cs
  | held, Call.init :: cs => !held && bracketed held cs

/-- The levels of the `SDA` latch at the rising edges of `SCL`, from the given
latch levels. -/
def clockedLevels : Bool → Bool → List Ev → List Bool
  | _, _, [] => []
  | _, scl, Ev.sda v :: es => clockedLevels v scl es
  | sda, scl, Ev.scl v :: es =>
    if v && !scl then sda :: clockedLevels sda v es else clockedLevels sda v es
  | sda, scl, _ :: es => clockedLevels sda scl es

/-- Number of writes to the `SDA` latch made while the `SCL` latch is high. -/
def sdaWritesWhileHigh : Bool → List Ev → Nat
  | _, [] => 0
  | scl, Ev.sda _ :: es => (if scl then 1 else 0) + sdaWritesWhileHigh scl es
  | _, Ev.scl v :: es => sdaWritesWhileHigh v es
  | scl, _ :: es => sdaWritesWhileHigh scl es

/-- Number of START conditions in a record: falling edges of the `SDA` latch
while the `SCL` latch is high. -/
def startConditions : Bool → Bool → List Ev → Nat
  | _, _, [] => 0
  | sda, scl, Ev.sda v :: es =>
    (if scl && sda && !v then 1 else 0) + startConditions v scl es
  | sda, _, Ev.scl v :: es => startConditions sda v es
  | sda, scl, _ :: es => startConditions sda scl es

/-- Number of STOP conditions in a record: rising edges of the `SDA` latch
while the `SCL` latch is high. -/
def stopConditions : Bool → Bool → List Ev → Nat
  | _, _, [] => 0
  | sda, scl, Ev.sda v :: es =>
    (if scl && !sda && v then 1 else 0) + stopConditions v scl es
  | sda, _, Ev.scl v :: es => stopConditions sda v es
  | sda, scl, _ :: es => stopConditions sda scl es

/-- Number of samplings of `SDA` in a record. -/
def samplesIn : List Ev → Nat
  | [] => 0
  | Ev.sample _ :: es => 1 + samplesIn es
  | _ :: es => samplesIn es

/-- Value of a bit as a number. -/
def bitVal (b : Bool) : Nat := if b then 1 else 0

/-- The byte shown by the line in the eight samplings from the `n`-th on, the
first of them being the most significant bit. -/
def byteAt (line : Nat → Bool) (n : Nat) : Nat :=
  128 * bitVal (line n) + 64 * bitVal (line (n + 1)) + 32 * bitVal (line (n + 2)) +
    16 * bitVal (line (n + 3)) + 8 * bitVal (line (n + 4)) + 4 * bitVal (line (n + 5)) +
    2 * bitVal (line (n + 6)) + 1 * bitVal (line (n + 7))

/-- All of the `n` samplings from the `r`-th on read high. -/
def allHigh (line : Nat → Bool) (r n : Nat) : Bool := (List.range n).all fun k => line (r + k)

/-- The number whose binary digits, most significant first, are the given levels. -/
def bitsToByte (l : List Bool) : Nat := l.foldl (fun acc b => 2 * acc + bitVal b) 0

/-- A bus in its power-on state (both latches high, no fault) facing the given line. -/
def Bus.idle (line : Nat → Bool) : Bus := ⟨true, true, 0, line, 0, []⟩

/-- Execution of one call, dropping its result. -/
def exec (c : Call) (s : Bus) : Bus :=
  match c with
  | Call.init => I2C_Init s
  | Call.start => I2C_Start s
  | Call.stop => I2C_Stop s
  | Call.write dat => (I2C_WriteByte dat s).2
  | Call.read ack => (I2C_ReadByte ack s).2

/-- Execution of a sequence of calls. -/
def run (cs : List Call) (s : Bus) : Bus := cs.foldl (fun s c => exec c s) s

/-! ## Acquisition cycle on the bus (src/main.c) -/

/-- Acquisition part of one iteration of `while (1)` in `main`, with the three
sensor reads performed on the bus: from `AHT10_Read` down to the clamp
`if (gas_ppm > 1000) gas_ppm = 1000;`.  The global `i2c_error` (a field of the
bus state) is not mentioned by `main`. -/
def main_cycle_bus (s : State) (b : Bus) : State × Bus :=
  let a := AHT10_Read_bus b
  let temperature_x10 := a.1.1
  let humidity_x10 := a.1.2
  let err_aht10 : Nat :=
    if temperature_x10 < AHT10_TEMP_MIN ∨ temperature_x10 > AHT10_TEMP_MAX ∨
        humidity_x10 < AHT10_HUMID_MIN ∨ humidity_x10 > AHT10_HUMID_MAX then 1 else 0
  let p := GP2Y1014_Read_bus a.2
  let pm25_ugm3 := p.1.1
  let pm25_raw := p.1.2
  let err_pm25 : Nat := if pm25_raw = 0 ∨ pm25_raw > 60000 ∨ pm25_ugm3 > 500 then 1 else 0
  let g := MQ2_Read_bus p.2
  let gas_raw := g.1
  let err_gas : Nat := if gas_raw = 0 ∨ gas_raw > 60000 then 1 else 0
  let gas_raw := if gas_raw > 32767 then 32767 else gas_raw
  let filtered := Gas_Filter s.ring gas_raw
  let ring := filtered.1
  let gas_raw := filtered.2
  let gas_ppm : Nat :=
    if gas_raw > MQ2_ZERO_THRESHOLD then
      toU16 ((toU16 ((gas_raw : Int) - (MQ2_ZERO_THRESHOLD : Int)) / 33 : Nat) : Int)
    else 0
  let gas_ppm : Nat := if gas_ppm > 1000 then 1000 else gas_ppm
  ({ temperature_x10 := temperature_x10, humidity_x10 := humidity_x10,
     pm25_ugm3 := pm25_ugm3, pm25_raw := pm25_raw, gas_raw := gas_raw, gas_ppm := gas_ppm,
     err_aht10 := err_aht10, err_pm25 := err_pm25, err_gas := err_gas, ring := ring }, g.2)

/-- What the three sensor reads of one cycle obtain from a bus: the six bytes
of the AHT10 transaction, then the conversion results of channel 1 (inside the
excitation pulse of the dust sensor) and of channel 0. -/
def cycle_inputs (b : Bus) : CycleInput :=
  let a := AHT10_Read_capture b
  let r1 := ADS1115_ReadChannel 1 (delay_us 280 (set_DUST_LED false a.2))
  let r0 := ADS1115_ReadChannel 0 (set_DUST_LED true r1.2)
  ⟨a.1, r1.1, r0.1⟩

/-- The bus state with another value of the fault indicator `i2c_error`. -/
def Bus.withError (e : Nat) (s : Bus) : Bus := { s with i2c_error := e }

/-- A bus on which the first address byte of the AHT10 transaction is not
acknowledged within the timeout (samples 0 to 200 are high), every later byte
is acknowledged, and the six bytes read back are 00 00 00 08 00 00. -/
def faultyLine (k : Nat) : Bool := decide (k < 201) || decide (k = 237)

/-! ## Delay loop and watchdog refresh (src/drivers/delay.c, src/core/watchdog.c) -/

/-- What a delay does that matters outside it: a store to the watchdog reset
register `WDTRST`, or a completed run of the empty inner loop. -/
inductive TimeEv where
  | wdtrst (v : Nat)
  | spin (j : Nat)
deriving DecidableEq, Repr

/-- `WDT_Feed`: `WDTRST = 0x1E; WDTRST = 0xE1;`. -/
def WDT_Feed (t : List TimeEv) : List TimeEv := t ++ [TimeEv.wdtrst 0x1E, TimeEv.wdtrst 0xE1]

/-- Inner loop of `delay_ms`: `for (j = 0; j < 120; j++) {}` with a 16-bit `j`;
returns `j` at exit.  The first argument bounds the number of iterations. -/
def delay_ms_inner : Nat → Nat → Nat
  | 0, j => j
  | fuel + 1, j => if j < 120 then delay_ms_inner fuel (toU16 ((j : Int) + 1)) else j

/-- Outer loop of `delay_ms`: `for (i = 0; i < ms; i++) { WDT_Feed(); ... }` with
a 16-bit `i`; returns `i` at exit and the record.  The first argument bounds the
number of iterations. -/
def delay_ms_loop : Nat → Nat → Nat → List TimeEv → Nat × List TimeEv
  | 0, i, _, t => (i, t)
  | fuel + 1, i, ms, t =>
    if i < ms then
      let t := WDT_Feed t
      let j := delay_ms_inner 120 0
      delay_ms_loop fuel (toU16 ((i : Int) + 1)) ms (t ++ [TimeEv.spin j])
    else (i, t)

/-- `delay_ms(ms)` with its watchdog refreshes: the loop counter cannot pass
65535, which bounds the iterations. -/
def Timing.delay_ms (ms : Nat) (t : List TimeEv) : Nat × List TimeEv :=
  delay_ms_loop 65536 0 ms t

/-- Number of watchdog refreshes (the pair of stores `0x1E`, `0xE1`) in a record. -/
def feeds : List TimeEv → Nat
  | TimeEv.wdtrst 0x1E :: TimeEv.wdtrst 0xE1 :: rest => feeds rest + 1
  | _ :: rest => feeds rest
  | [] => 0

/-- One iteration of `delay_ms` as it appears in the record: the refresh, then
the 120 turns of the inner loop. -/
def msIteration : List TimeEv := [TimeEv.wdtrst 0x1E, TimeEv.wdtrst 0xE1, TimeEv.spin 120]

/-! ## Number formatting (src/core/utils.c) -/

/-- Cells of a `char` array; `none` is a cell that has not been stored to. -/
abbrev Cells := List (Option Nat)

/-- Code of a character constant. -/
abbrev ch (c : Char) : Nat := c.toNat

/-- A `char *` walking in a `char` array: the array, the index pointed at, and
two flags that record an access the array does not allow: `fault` for a store
outside the array pointed into, `temp_fault` for an index outside `temp[6]` (or
a read of a cell of `temp` that was not stored). -/
structure Wr where
  cells : Cells
  p : Nat
  fault : Bool
  temp_fault : Bool
deriving DecidableEq, Repr

/-- A pointer to the start of an array of `n` cells not yet stored to. -/
def Wr.fresh (n : Nat) : Wr := ⟨List.replicate n none, 0, false, false⟩

/-- `*p++ = c;`. -/
def Wr.put (c : Nat) (w : Wr) : Wr :=
  { w with cells := w.cells.set w.p (some c), p := w.p + 1,
           fault := w.fault || decide (w.cells.length ≤ w.p) }

/-- `*p = '\0';`. -/
def Wr.nul (w : Wr) : Wr :=
  { w with cells := w.cells.set w.p (some 0),
           fault := w.fault || decide (w.cells.length ≤ w.p) }

/-- The local `char temp[6]` with its index `unsigned char i`. -/
structure Scratch where
  temp : Cells
  i : Nat
  fault : Bool
deriving DecidableEq, Repr

/-- `char temp[6]; unsigned char i = 0;`. -/
def Scratch.fresh : Scratch := ⟨List.replicate 6 none, 0, false⟩

/-- `while (val > 0) { temp[i++] = '0' + (val % 10); val /= 10; }`; returns `val`
at exit and the scratch array.  The first argument bounds the number of
iterations (`val` decreases in each one). -/
def digits_loop : Nat → Nat → Scratch → Nat × Scratch
  | 0, val, t => (val, t)
  | fuel + 1, val, t =>
    if val > 0 then
      digits_loop fuel (val / 10)
        { temp := t.temp.set t.i (some (toU8 ((ch '0' + val % 10 : Nat) : Int))),
          i := toU8 ((t.i : Int) + 1),
          fault := t.fault || decide (t.temp.length ≤ t.i) }
    else (val, t)

/-- `while (i > 0) { *buf++ = temp[--i]; }`.  The first argument bounds the
number of iterations (`i` decreases in each one). -/
def copy_loop : Nat → Scratch → Wr → Scratch × Wr
  | 0, t, buf => (t, buf)
  | fuel + 1, t, buf =>
    if t.i > 0 then
      let i := toU8 ((t.i : Int) - 1)
      let c := t.temp.getD i none
      copy_loop fuel { t with i := i, fault := t.fault || c.isNone } (buf.put (c.getD 0))
    else (t, buf)

/-- The two loops that `uint_to_str` and `int_x10_to_str` both contain: the
digits of `val` into `temp`, lowest first, then `temp` copied out backwards. -/
def write_digits (val : Nat) (buf : Wr) : Wr :=
  let t := (digits_loop val val Scratch.fresh).2
  let r := copy_loop t.i t buf
  { r.2 with temp_fault := r.2.temp_fault || r.1.fault }

/-- `uint_to_str(val, buf)`; the result is the returned pointer. -/
def uint_to_str (val : Nat) (buf : Wr) : Wr :=
  let buf := if val = 0 then buf.put (ch '0') else write_digits val buf
  buf.nul

/-- `int_x10_to_str(val_x10, buf)`; the result is the returned pointer. -/
def int_x10_to_str (val_x10 : Int) (buf : Wr) : Wr :=
  let abs_val : Nat := if val_x10 < 0 then toU16 (toI16 (-val_x10)) else toU16 val_x10
  let buf := if val_x10 < 0 then buf.put (ch '-') else buf
  let buf :=
    if abs_val / 10 = 0 then buf.put (ch '0')
    else
      let int_part := abs_val / 10
      write_digits int_part buf
  let buf := buf.put (ch '.')
  let buf := buf.put (toU8 ((ch '0' + abs_val % 10 : Nat) : Int))
  buf.nul

/-- Characters stored one after the other through a pointer. -/
def puts (cs : List Nat) (w : Wr) : Wr := cs.foldl (fun w c => w.put c) w

/-- The decimal representation of `n`, most significant digit first, as
character codes (`Nat.digits` lists the digits least significant first). -/
def decimal (n : Nat) : List Nat :=
  if n = 0 then [ch '0'] else (Nat.digits 10 n).reverse.map fun d => ch '0' + d

/-- The text of `v / 10` with one decimal: a minus sign for negative `v`, the
decimal representation of `|v| div 10`, a point, the digit `|v| mod 10`. -/
def fixed1 (v : Int) : List Nat :=
  (if v < 0 then [ch '-'] else []) ++ decimal (v.natAbs / 10) ++
    [ch '.', ch '0' + v.natAbs % 10]

/-- The number a run of decimal digit characters denotes. -/
def readDecimal (cs : List Nat) : Nat := cs.foldl (fun acc c => 10 * acc + (c - ch '0')) 0

/-- Ten times the number denoted by a text of the form `[-]digits.digit`: the
digits with the point removed, negated after a minus sign. -/
def readX10 (cs : List Nat) : Int :=
  if cs.head? = some (ch '-') then -(readDecimal ((cs.drop 1).filter (· ≠ ch '.')) : Int)
  else (readDecimal (cs.filter (· ≠ ch '.')) : Int)

/-! ## Serial report (src/core/uart.c, src/core/uart_protocol.c) -/

/-- `UART_SendString(str)`: `while (*str) { UART_SendChar(*str++); }` on the cells
from `str` on; returns the bytes sent and whether the loop ran off the array or
onto a cell not stored to. -/
def UART_SendString : Cells → List Nat × Bool
  | [] => ([], true)
  | none :: _ => ([], true)
  | some c :: rest =>
    if c = 0 then ([], false)
    else ((c :: (UART_SendString rest).1), (UART_SendString rest).2)

/-- The buffer of `Send_DataToESP32_WithErrors` when it is handed to
`UART_SendString`. -/
def Send_DataToESP32_WithErrors_buffer (temp_x10 humid_x10 : Int) (pm25 gas : Nat)
    (e1 e2 e3 : Nat) : Wr :=
  let p := Wr.fresh 60
  let err_combined : Nat :=
    (if e1 ≠ 0 then 1 else 0) ||| (if e2 ≠ 0 then 2 else 0) ||| (if e3 ≠ 0 then 4 else 0)
  let p := p.put 123
  let p := p.put 34
  let p := p.put (ch 'T')
  let p := p.put 34
  let p := p.put (ch ':')
  let p := int_x10_to_str temp_x10 p
  let p := p.put (ch ',')
  let p := p.put 34
  let p := p.put (ch 'H')
  let p := p.put 34
  let p := p.put (ch ':')
  let p := int_x10_to_str humid_x10 p
  let p := p.put (ch ',')
  let p := p.put 34
  let p := p.put (ch 'P')
  let p := p.put 34
  let p := p.put (ch ':')
  let p := uint_to_str pm25 p
  let p := p.put (ch ',')
  let p := p.put 34
  let p := p.put (ch 'G')
  let p := p.put 34
  let p := p.put (ch ':')
  let p := uint_to_str gas p
  let p := p.put (ch ',')
  let p := p.put 34
  let p := p.put (ch 'E')
  let p := p.put 34
  let p := p.put (ch ':')
  let p := p.put (toU8 ((ch '0' + err_combined : Nat) : Int))
  let p := p.put 125
  let p := p.put 10
  p.nul

/-- `Send_DataToESP32_WithErrors`: the bytes handed to the UART, and whether
any access left the 60-byte buffer or the scratch arrays. -/
def Send_DataToESP32_WithErrors (temp_x10 humid_x10 : Int) (pm25 gas : Nat)
    (e1 e2 e3 : Nat) : List Nat × Bool :=
  let p := Send_DataToESP32_WithErrors_buffer temp_x10 humid_x10 pm25 gas e1 e2 e3
  let r := UART_SendString p.cells
  (r.1, r.2 || p.fault || p.temp_fault)

/-- The report text for given field texts and error digit. -/
def reportText (t h p g : List Nat) (e : Nat) : List Nat :=
  [123, 34, ch 'T', 34, ch ':'] ++ t ++ [ch ',', 34, ch 'H', 34, ch ':'] ++ h ++
    [ch ',', 34, ch 'P', 34, ch ':'] ++ p ++ [ch ',', 34, ch 'G', 34, ch ':'] ++ g ++
    [ch ',', 34, ch 'E', 34, ch ':', ch '0' + e, 125, 10]

/-- The error digit of the report as a sum. -/
def errorDigit (e1 e2 e3 : Nat) : Nat :=
  (if e1 ≠ 0 then 1 else 0) + (if e2 ≠ 0 then 2 else 0) + (if e3 ≠ 0 then 4 else 0)

/-! ## Display formatting (src/core/display.c) -/

/-- Calls made to the LCD driver, with the string `LCD_Print` walks over (up to
the terminator). -/
inductive LcdEv where
  | command (cmd : Nat)
  | delay_ms (ms : Nat)
  | set_cursor (row col : Nat)
  | print (str : List Nat)
deriving DecidableEq, Repr

/-- The `static` variables of `display.c`, the record of LCD driver calls, and
a flag for an access outside a line buffer (or outside `temp[6]`). -/
structure Display where
  screen_counter : Nat
  last_mode : Nat
  lcd : List LcdEv
  fault : Bool
deriving DecidableEq, Repr

/-- Reset values: `screen_counter = 0`, `last_mode = 0xFF`. -/
def Display.reset : Display := ⟨0, 0xFF, [], false⟩

/-- `Get_AirQuality_Status(pm25)`: the characters of the string returned. -/
def Get_AirQuality_Status (pm25 : Nat) : List Nat :=
  if pm25 ≤ 10 then "Excellent".toList.map ch
  else if pm25 ≤ 25 then "Good".toList.map ch
  else if pm25 ≤ 50 then "Moderate".toList.map ch
  else if pm25 ≤ 70 then "Poor".toList.map ch
  else if pm25 ≤ 150 then "Bad".toList.map ch
  else "Hazardous".toList.map ch

/-- Step 1 of `Display_Update_Mode`: the screen to show (`actual_mode`) and the
new `screen_counter`. -/
def Display_Update_Mode_select (mode : Nat) (d : Display) : Nat × Display :=
  if mode = 3 then
    let screen_counter := toU8 ((d.screen_counter : Int) + 1)
    let screen_counter := if screen_counter ≥ 12 then 0 else screen_counter
    (screen_counter / 4, { d with screen_counter := screen_counter })
  else
    (mode, { d with screen_counter := 0 })

/-- Step 2 of `Display_Update_Mode`: clear the screen when the screen shown
changes. -/
def Display_Update_Mode_clear (actual_mode : Nat) (d : Display) : Display :=
  if actual_mode ≠ d.last_mode then
    { d with lcd := d.lcd ++ [LcdEv.command 0x01, LcdEv.delay_ms 2], last_mode := actual_mode }
  else d

/-- Step 3 of `Display_Update_Mode`, first line: the pointer `p` after the
closing `*p = 0` of `line1`. -/
def Display_Update_Mode_line1 (actual_mode : Nat) (temp_x10 humid_x10 : Int) (pm25 gas : Nat)
    (err_aht10 err_pm25 err_gas : Nat) : Wr :=
  let p := Wr.fresh 17
  if actual_mode = 0 then
    let p := (p.put (ch 'T')).put (ch ':')
    let p :=
      if err_aht10 ≠ 0 then ((p.put (ch 'E')).put (ch 'R')).put (ch 'R')
      else (int_x10_to_str temp_x10 p).put (ch 'C')
    let p := p.put (ch ' ')
    let p :=
      if ¬ err_aht10 ≠ 0 then
        if temp_x10 > 350 then ((p.put (ch 'H')).put (ch 'O')).put (ch 'T')
        else if temp_x10 < 100 then (((p.put (ch 'C')).put (ch 'O')).put (ch 'L')).put (ch 'D')
        else (p.put (ch 'O')).put (ch 'K')
      else p
    p.nul
  else if actual_mode = 1 then
    let p := puts [ch 'P', ch 'M', ch '2', ch '.', ch '5', ch ':', ch ' '] p
    let p :=
      if err_pm25 ≠ 0 then ((p.put (ch 'E')).put (ch 'R')).put (ch 'R')
      else puts [ch ' ', ch 'u', ch 'g', ch '/', ch 'm', ch '3'] (uint_to_str pm25 p)
    p.nul
  else if actual_mode = 2 then
    let p := puts [ch 'G', ch 'a', ch 's', ch ':', ch ' '] p
    let p :=
      if err_gas ≠ 0 then ((p.put (ch 'E')).put (ch 'R')).put (ch 'R')
      else puts [ch ' ', ch 'p', ch 'p', ch 'm'] (uint_to_str gas p)
    p.nul
  else
    let p := (p.put (ch 'T')).put (ch ':')
    let p :=
      if err_aht10 ≠ 0 then ((p.put (ch 'E')).put (ch 'R')).put (ch 'R')
      else int_x10_to_str temp_x10 p
    let p := ((p.put (ch ' ')).put (ch 'H')).put (ch ':')
    let p :=
      if err_aht10 ≠ 0 then ((p.put (ch 'E')).put (ch 'R')).put (ch 'R')
      else int_x10_to_str humid_x10 p
    p.nul

/-- Step 3 of `Display_Update_Mode`, second line: the pointer `p` after the
closing `*p = 0` of `line2`. -/
def Display_Update_Mode_line2 (actual_mode : Nat) (humid_x10 : Int) (pm25 gas : Nat)
    (err_aht10 err_pm25 err_gas : Nat) : Wr :=
  let p := Wr.fresh 17
  if actual_mode = 0 then
    let p := (p.put (ch 'H')).put (ch ':')
    let p :=
      if err_aht10 ≠ 0 then ((p.put (ch 'E')).put (ch 'R')).put (ch 'R')
      else (int_x10_to_str humid_x10 p).put (ch '%')
    let p := p.put (ch ' ')
    let p :=
      if ¬ err_aht10 ≠ 0 then
        if humid_x10 > 800 then ((p.put (ch 'W')).put (ch 'E')).put (ch 'T')
        else if humid_x10 < 300 then ((p.put (ch 'D')).put (ch 'R')).put (ch 'Y')
        else (p.put (ch 'O')).put (ch 'K')
      else p
    p.nul
  else if actual_mode = 1 then
    let p :=
      if err_pm25 ≠ 0 then puts ("SENSOR ERROR".toList.map ch) p
      else puts (Get_AirQuality_Status pm25) p
    p.nul
  else if actual_mode = 2 then
    let p :=
      if err_gas ≠ 0 then puts ("SENSOR ERROR".toList.map ch) p
      else if gas > 700 then puts ("DANGER!".toList.map ch) p
      else if gas > 400 then puts ("Warning".toList.map ch) p
      else if gas > 200 then puts ("Caution".toList.map ch) p
      else puts ("Safe".toList.map ch) p
    p.nul
  else
    let p := (p.put (ch 'P')).put (ch ':')
    let p :=
      if err_pm25 ≠ 0 then ((p.put (ch 'E')).put (ch 'R')).put (ch 'R')
      else uint_to_str pm25 p
    let p := ((p.put (ch ' ')).put (ch 'G')).put (ch ':')
    let p :=
      if err_gas ≠ 0 then ((p.put (ch 'E')).put (ch 'R')).put (ch 'R')
      else uint_to_str gas p
    p.nul

/-- `ptr = line; while (*ptr) { len++; ptr++; }` on the cells from `ptr` on, with
`unsigned char len`; returns `len` at exit and whether the loop ran off the
array or onto a cell not stored to. -/
def Display_Update_Mode_strlen : Cells → Nat → Nat × Bool
  | [], len => (len, true)
  | none :: _, len => (len, true)
  | some c :: rest, len =>
    if c = 0 then (len, false) else Display_Update_Mode_strlen rest (toU8 ((len : Int) + 1))

/-- `while (len < 16) { line[len++] = ' '; }`; returns the cells, `len` at exit
and whether a store fell outside the array.  The first argument bounds the
number of iterations. -/
def Display_Update_Mode_fill : Nat → Cells → Nat → Bool → Cells × Nat × Bool
  | 0, line, len, f => (line, len, f)
  | fuel + 1, line, len, f =>
    if len < 16 then
      Display_Update_Mode_fill fuel (line.set len (some (ch ' '))) (toU8 ((len : Int) + 1))
        (f || decide (line.length ≤ len))
    else (line, len, f)

/-- Step 4 of `Display_Update_Mode` for one line: measure, pad with spaces up to
16, store the terminator at index 16.  Returns the cells and whether any
access was outside the array. -/
def Display_Update_Mode_pad (line : Cells) : Cells × Bool :=
  let m := Display_Update_Mode_strlen line 0
  let r := Display_Update_Mode_fill 16 line m.1 m.2
  (r.1.set 16 (some 0), r.2.2 || decide (r.1.length ≤ 16))

/-- `LCD_Print(str)`: `while (*str) { LCD_WriteData(*str++); }`, the same walk
over a string as in `UART_SendString`; the characters handed to the LCD and
whether the loop ran off the array or onto a cell not stored to. -/
def LCD_Print (str : Cells) : List Nat × Bool := UART_SendString str

/-- `Display_Update_Mode`. -/
def Display_Update_Mode (temp_x10 humid_x10 : Int) (pm25 gas mode : Nat)
    (err_aht10 err_pm25 err_gas : Nat) (d : Display) : Display :=
  let sel := Display_Update_Mode_select mode d
  let actual_mode := sel.1
  let d := Display_Update_Mode_clear actual_mode sel.2
  let line1 := Display_Update_Mode_line1 actual_mode temp_x10 humid_x10 pm25 gas
    err_aht10 err_pm25 err_gas
  let line2 := Display_Update_Mode_line2 actual_mode humid_x10 pm25 gas
    err_aht10 err_pm25 err_gas
  let pad1 := Display_Update_Mode_pad line1.cells
  let pad2 := Display_Update_Mode_pad line2.cells
  let out1 := LCD_Print pad1.1
  let out2 := LCD_Print pad2.1
  { d with
    lcd := d.lcd ++ [LcdEv.set_cursor 0 0, LcdEv.print out1.1, LcdEv.set_cursor 1 0,
      LcdEv.print out2.1],
    fault := d.fault || line1.fault || line1.temp_fault || line2.fault || line2.temp_fault ||
      pad1.2 || pad2.2 || out1.2 || out2.2 }

/-- The screens shown (`last_mode` after the call) by `n` successive calls of
`Display_Update_Mode` with `mode = 3` and the same readings. -/
def autoScreens (temp_x10 humid_x10 : Int) (pm25 gas : Nat) (err_aht10 err_pm25 err_gas : Nat) :
    Nat → Display → List Nat
  | 0, _ => []
  | n + 1, d =>
    (Display_Update_Mode temp_x10 humid_x10 pm25 gas 3 err_aht10 err_pm25 err_gas d).last_mode ::
      autoScreens temp_x10 humid_x10 pm25 gas err_aht10 err_pm25 err_gas n
        (Display_Update_Mode temp_x10 humid_x10 pm25 gas 3 err_aht10 err_pm25 err_gas d)

/-! ## Successive calls of the gas filter (src/main.c) -/

/-- The ring after successive calls `Gas_Filter(v)` for the values of a list,
first to last. -/
def Gas_Filter_run (r : GasRing) (vs : List Nat) : GasRing :=
  vs.foldl (fun r v => (Gas_Filter r v).1) r


/-! ## Writes to the data latch while the clock latch is high -/

/-- The writes to the `SDA` latch made while the `SCL` latch is high, in
order: for each of them the bus function that makes it (the last one entered),
the level of the latch before the write and the level written.  The record is
replayed from the given function and latch levels. -/
def sdaWritesHigh : Option Call → Bool → Bool → List Ev → List (Option Call × Bool × Bool)
  | _, _, _, [] => []
  | _, sda, scl, Ev.call c :: es => sdaWritesHigh (some c) sda scl es
  | fn, sda, scl, Ev.sda v :: es =>
    if scl then (fn, sda, v) :: sdaWritesHigh fn v scl es else sdaWritesHigh fn v scl es
  | fn, sda, _, Ev.scl v :: es => sdaWritesHigh fn sda v es
  | fn, sda, scl, _ :: es => sdaWritesHigh fn sda scl es

/-- A byte transfer inside a transaction: `I2C_WriteByte` of an `unsigned char`
or `I2C_ReadByte`. -/
def Call.isByte : Call → Bool
  | Call.write dat => decide (dat < 256)
  | Call.read _ => true
  | _ => false

/-- The calls of one bus transaction: Start, the byte transfers, Stop. -/
def transaction (bytes : List Call) : List Call := Call.start :: bytes ++ [Call.stop]

/-! ## Conversion lemmas -/

theorem toU32_of_lt (n : Nat) (h : n < 4294967296) : toU32 (n : Int) = n := by
  unfold toU32; omega

theorem toU16_of_lt (n : Nat) (h : n < 65536) : toU16 (n : Int) = n := by
  unfold toU16; omega

theorem toI16_of_range (x : Int) (h1 : -32768 ≤ x) (h2 : x ≤ 32767) : toI16 x = x := by
  unfold toI16; omega

theorem toI32_of_range (x : Int) (h1 : -2147483648 ≤ x) (h2 : x ≤ 2147483647) :
    toI32 x = x := by
  unfold toI32; omega

/-- The humidity field written with multiplication and division. -/
theorem AHT10_humidity_raw_eq (d1 d2 d3 : Nat) (h1 : d1 < 256) (h2 : d2 < 256)
    (h3 : d3 < 256) :
    AHT10_humidity_raw d1 d2 d3 = d1 * 4096 + d2 * 16 + d3 / 16 := by
  unfold AHT10_humidity_raw
  have e1 : d1 <<< 12 = 2 ^ 12 * d1 := by rw [Nat.shiftLeft_eq, Nat.mul_comm]
  have e2 : d2 <<< 4 = d2 * 16 := by rw [Nat.shiftLeft_eq]
  have e3 : d3 >>> 4 = d3 / 16 := by rw [Nat.shiftRight_eq_div_pow]
  have u1 : toU32 ((2 ^ 12 * d1 : Nat) : Int) = 2 ^ 12 * d1 := toU32_of_lt _ (by omega)
  have u2 : toU32 ((d2 * 16 : Nat) : Int) = d2 * 16 := toU32_of_lt _ (by omega)
  have o1 : 2 ^ 12 * d1 ||| d2 * 16 = 2 ^ 4 * (d1 * 256 + d2) := by
    rw [← Nat.mul_add_lt_is_or (by omega : d2 * 16 < 2 ^ 12) d1]; omega
  have o2 : 2 ^ 4 * (d1 * 256 + d2) ||| d3 / 16 = d1 * 4096 + d2 * 16 + d3 / 16 := by
    rw [← Nat.mul_add_lt_is_or (by omega : d3 / 16 < 2 ^ 4) (d1 * 256 + d2)]; omega
  rw [e1, e2, e3, u1, u2, o1, o2]
  exact toU32_of_lt _ (by omega)

/-- The temperature field written with multiplication and remainder. -/
theorem AHT10_temperature_raw_eq (d3 d4 d5 : Nat) (h4 : d4 < 256) (h5 : d5 < 256) :
    AHT10_temperature_raw d3 d4 d5 = d3 % 16 * 65536 + d4 * 256 + d5 := by
  unfold AHT10_temperature_raw
  have e0 : d3 &&& 0x0F = d3 % 16 := Nat.and_pow_two_sub_one_eq_mod d3 4
  have e1 : (d3 % 16) <<< 16 = 2 ^ 16 * (d3 % 16) := by rw [Nat.shiftLeft_eq, Nat.mul_comm]
  have e2 : d4 <<< 8 = d4 * 256 := by rw [Nat.shiftLeft_eq]
  have u1 : toU32 ((2 ^ 16 * (d3 % 16) : Nat) : Int) = 2 ^ 16 * (d3 % 16) :=
    toU32_of_lt _ (by omega)
  have u2 : toU32 ((d4 * 256 : Nat) : Int) = d4 * 256 := toU32_of_lt _ (by omega)
  have o1 : 2 ^ 16 * (d3 % 16) ||| d4 * 256 = 2 ^ 8 * (d3 % 16 * 256 + d4) := by
    rw [← Nat.mul_add_lt_is_or (by omega : d4 * 256 < 2 ^ 16) (d3 % 16)]; omega
  have o2 : 2 ^ 8 * (d3 % 16 * 256 + d4) ||| d5 = d3 % 16 * 65536 + d4 * 256 + d5 := by
    rw [← Nat.mul_add_lt_is_or (by omega : d5 < 2 ^ 8) (d3 % 16 * 256 + d4)]; omega
  rw [e0, e1, e2, u1, u2, o1, o2]
  exact toU32_of_lt _ (by omega)

/-! ## AHT10 decoder: claims C1 to C4 -/

/-- C1: for 20-bit raw fields the conversion of `AHT10_Read` gives
`humid_x10 = floor(humidity_raw * 1000 / 2^20)` and
`temp_x10 = floor(temperature_raw * 2000 / 2^20) - 500` without wraparound:
both 32-bit products stay below `2^32` (the `unsigned long` conversion leaves
them unchanged) and both results lie in the 16-bit `int` range. -/
theorem AHT10_conversion_exact (humidity_raw temperature_raw : Nat)
    (hh : humidity_raw < 2 ^ 20) (ht : temperature_raw < 2 ^ 20) :
    AHT10_humid_x10 humidity_raw = ((humidity_raw * 1000 / 2 ^ 20 : Nat) : Int) ∧
    AHT10_temp_x10 temperature_raw = ((temperature_raw * 2000 / 2 ^ 20 : Nat) : Int) - 500 ∧
    humidity_raw * 1000 < 2 ^ 32 ∧ temperature_raw * 2000 < 2 ^ 32 ∧
    toU32 ((humidity_raw : Int) * 1000) = humidity_raw * 1000 ∧
    toU32 ((temperature_raw : Int) * 2000) = temperature_raw * 2000 ∧
    (-32768 ≤ AHT10_humid_x10 humidity_raw ∧ AHT10_humid_x10 humidity_raw ≤ 32767) ∧
    (-32768 ≤ AHT10_temp_x10 temperature_raw ∧ AHT10_temp_x10 temperature_raw ≤ 32767) := by
  have p20 : (2 : Nat) ^ 20 = 1048576 := by norm_num
  have p32 : (2 : Nat) ^ 32 = 4294967296 := by norm_num
  rw [p20] at hh ht
  rw [p20, p32]
  have uh : toU32 ((humidity_raw : Int) * 1000) = humidity_raw * 1000 := by
    unfold toU32; omega
  have ut : toU32 ((temperature_raw : Int) * 2000) = temperature_raw * 2000 := by
    unfold toU32; omega
  have eh : AHT10_humid_x10 humidity_raw = ((humidity_raw * 1000 / 1048576 : Nat) : Int) := by
    unfold AHT10_humid_x10
    rw [uh]
    exact toI16_of_range _ (by omega) (by omega)
  have et : AHT10_temp_x10 temperature_raw
      = ((temperature_raw * 2000 / 1048576 : Nat) : Int) - 500 := by
    unfold AHT10_temp_x10
    rw [ut]
    have e1 : toI16 ((temperature_raw * 2000 / 1048576 : Nat) : Int)
        = ((temperature_raw * 2000 / 1048576 : Nat) : Int) :=
      toI16_of_range _ (by omega) (by omega)
    rw [e1]
    exact toI16_of_range _ (by omega) (by omega)
  refine ⟨eh, et, by omega, by omega, uh, ut, ?_, ?_⟩
  · rw [eh]; omega
  · rw [et]; omega

/-- Witness for C1 at the largest 20-bit fields. -/
theorem AHT10_conversion_exact_witness :
    AHT10_humid_x10 1048575 = 999 ∧ AHT10_temp_x10 1048575 = 1499 := by
  have h := AHT10_conversion_exact 1048575 1048575 (by norm_num) (by norm_num)
  exact ⟨by rw [h.1]; norm_num, by rw [h.2.1]; norm_num⟩

/-- C2: for every 6-byte capture, `AHT10_Read` extracts
`humidity_raw = d1*2^12 + d2*2^4 + d3 div 16` and
`temperature_raw = (d3 mod 16)*2^16 + d4*2^8 + d5`, the top and the bottom 20
bits of the 40-bit big-endian word `d1..d5`; both are below `2^20`. -/
theorem AHT10_extraction (c : Capture) (hc : c.valid) :
    AHT10_humidity_raw c.data1 c.data2 c.data3
      = c.data1 * 2 ^ 12 + c.data2 * 2 ^ 4 + c.data3 / 16 ∧
    AHT10_temperature_raw c.data3 c.data4 c.data5
      = c.data3 % 16 * 2 ^ 16 + c.data4 * 2 ^ 8 + c.data5 ∧
    AHT10_humidity_raw c.data1 c.data2 c.data3
      = (c.data1 * 2 ^ 32 + c.data2 * 2 ^ 24 + c.data3 * 2 ^ 16 + c.data4 * 2 ^ 8 + c.data5)
          / 2 ^ 20 ∧
    AHT10_temperature_raw c.data3 c.data4 c.data5
      = (c.data1 * 2 ^ 32 + c.data2 * 2 ^ 24 + c.data3 * 2 ^ 16 + c.data4 * 2 ^ 8 + c.data5)
          % 2 ^ 20 ∧
    AHT10_humidity_raw c.data1 c.data2 c.data3 < 2 ^ 20 ∧
    AHT10_temperature_raw c.data3 c.data4 c.data5 < 2 ^ 20 := by
  obtain ⟨_, h1, h2, h3, h4, h5⟩ := hc
  rw [AHT10_humidity_raw_eq _ _ _ h1 h2 h3, AHT10_temperature_raw_eq _ _ _ h4 h5]
  norm_num
  omega

/-- Witness for C2 at the capture `00 B3 33 3B 33 33`. -/
theorem AHT10_extraction_witness :
    AHT10_humidity_raw 0xB3 0x33 0x3B = 734003 ∧
    AHT10_temperature_raw 0x3B 0x33 0x33 = 734003 := by
  have h := AHT10_extraction ⟨0, 0xB3, 0x33, 0x3B, 0x33, 0x33⟩ (by decide)
  exact ⟨h.1, h.2.1⟩

/-- C3: round trip on the bitfield packing.  Packing the two fields extracted
from a capture gives back bytes 1..5 of the capture (hence extracting again
gives the same fields), and for any two 20-bit values the packed bytes are
bytes from which the extraction returns these two values: the extraction is a
bijection between 5-byte payloads and pairs of 20-bit values. -/
theorem AHT10_pack_roundtrip (c : Capture) (hc : c.valid) (h t : Nat)
    (hh : h < 2 ^ 20) (ht : t < 2 ^ 20) :
    AHT10_pack (AHT10_humidity_raw c.data1 c.data2 c.data3)
        (AHT10_temperature_raw c.data3 c.data4 c.data5)
      = (c.data1, c.data2, c.data3, c.data4, c.data5) ∧
    ((AHT10_pack h t).1 < 256 ∧ (AHT10_pack h t).2.1 < 256 ∧ (AHT10_pack h t).2.2.1 < 256 ∧
      (AHT10_pack h t).2.2.2.1 < 256 ∧ (AHT10_pack h t).2.2.2.2 < 256) ∧
    AHT10_humidity_raw (AHT10_pack h t).1 (AHT10_pack h t).2.1 (AHT10_pack h t).2.2.1 = h ∧
    AHT10_temperature_raw (AHT10_pack h t).2.2.1 (AHT10_pack h t).2.2.2.1
      (AHT10_pack h t).2.2.2.2 = t := by
  obtain ⟨_, h1, h2, h3, h4, h5⟩ := hc
  have p20 : (2 : Nat) ^ 20 = 1048576 := by norm_num
  rw [p20] at hh ht
  refine ⟨?_, ?_, ?_, ?_⟩
  · rw [AHT10_humidity_raw_eq _ _ _ h1 h2 h3, AHT10_temperature_raw_eq _ _ _ h4 h5]
    simp only [AHT10_pack, Prod.mk.injEq]
    omega
  · simp only [AHT10_pack]
    omega
  · rw [AHT10_humidity_raw_eq _ _ _ (by simp only [AHT10_pack]; omega)
      (by simp only [AHT10_pack]; omega) (by simp only [AHT10_pack]; omega)]
    simp only [AHT10_pack]
    omega
  · rw [AHT10_temperature_raw_eq _ _ _ (by simp only [AHT10_pack]; omega)
      (by simp only [AHT10_pack]; omega)]
    simp only [AHT10_pack]
    omega

/-- Witness for C3 at the capture `00 B3 33 3B 33 33` and the fields 1, 2. -/
theorem AHT10_pack_roundtrip_witness :
    AHT10_pack (AHT10_humidity_raw 0xB3 0x33 0x3B) (AHT10_temperature_raw 0x3B 0x33 0x33)
      = (0xB3, 0x33, 0x3B, 0x33, 0x33) ∧
    AHT10_humidity_raw (AHT10_pack 1 2).1 (AHT10_pack 1 2).2.1 (AHT10_pack 1 2).2.2.1 = 1 :=
  have h := AHT10_pack_roundtrip ⟨0, 0xB3, 0x33, 0x3B, 0x33, 0x33⟩ (by decide) 1 2
    (by norm_num) (by norm_num)
  ⟨h.1, h.2.2.1⟩

/-- C4 as stated fails: for the capture whose two raw fields are 734003 the
conversion of `AHT10_Read` does not give 700 and 900. -/
theorem AHT10_scenario_not_700_900 :
    AHT10_humidity_raw 0xB3 0x33 0x3B = 734003 ∧
    AHT10_temperature_raw 0x3B 0x33 0x33 = 734003 ∧
    ¬ (AHT10_humid_x10 734003 = 700 ∧ AHT10_temp_x10 734003 = 900) ∧
    AHT10_Read ⟨0, 0xB3, 0x33, 0x3B, 0x33, 0x33⟩ ≠ (900, 700) := by
  decide

/-- C4 amended: for the capture whose raw humidity field is 734003 and whose
raw temperature field is 734003 the conversion of `AHT10_Read` produces
`humidity_tenths = 699` and `temperature_tenths = 899` (the division
truncates: `734003 * 1000 = 699.9998 * 2^20`). -/
theorem AHT10_scenario_699_899 :
    AHT10_humidity_raw 0xB3 0x33 0x3B = 734003 ∧
    AHT10_temperature_raw 0x3B 0x33 0x33 = 734003 ∧
    AHT10_humid_x10 734003 = 699 ∧ AHT10_temp_x10 734003 = 899 ∧
    AHT10_Read ⟨0, 0xB3, 0x33, 0x3B, 0x33, 0x33⟩ = (899, 699) := by
  decide

/-! ## Gas filter: claims C5 and C6 -/

/-- The scan loop of `Gas_Filter` over a ring of four `unsigned int` values
leaves their sum, their maximum and their minimum in the three locals. -/
theorem Gas_Filter_scan (a b c d : Nat) (ha : a < 65536) (hb : b < 65536)
    (hc : c < 65536) (hd : d < 65536) :
    (List.range GAS_FILTER_SIZE).foldl (Gas_Filter_step [a, b, c, d]) ⟨0, 0, 65535⟩
      = ⟨a + b + c + d, max (max (max a b) c) d, min (min (min a b) c) d⟩ := by
  have hr : List.range GAS_FILTER_SIZE = [0, 1, 2, 3] := by decide
  rw [hr]
  simp only [List.foldl, Gas_Filter_step, List.getD_cons_zero, List.getD_cons_succ, toU32]
  refine FilterAcc.mk.injEq _ _ _ _ _ _ ▸ ⟨?_, ?_, ?_⟩
  · omega
  · split_ifs <;> omega
  · split_ifs <;> omega

/-- A well-formed ring after the push is a list of four `unsigned int` values. -/
theorem GasRing.set_eq_four (r : GasRing) (v : Nat) (hr : r.wf) (hv : v < 65536) :
    ∃ a b c d, r.gas_history.set r.gas_index v = [a, b, c, d] ∧
      a < 65536 ∧ b < 65536 ∧ c < 65536 ∧ d < 65536 := by
  obtain ⟨l, i⟩ := r
  obtain ⟨hl, hi, hb⟩ := hr
  simp only at hl hi hb
  rcases l with _ | ⟨a, _ | ⟨b, _ | ⟨c, _ | ⟨d, _ | ⟨e, l⟩⟩⟩⟩⟩ <;> simp at hl
  have ha := hb a (by simp)
  have hb' := hb b (by simp)
  have hc := hb c (by simp)
  have hd := hb d (by simp)
  simp only
  interval_cases i
  · exact ⟨v, b, c, d, rfl, hv, hb', hc, hd⟩
  · exact ⟨a, v, c, d, rfl, ha, hv, hc, hd⟩
  · exact ⟨a, b, v, d, rfl, ha, hb', hv, hd⟩
  · exact ⟨a, b, c, v, rfl, ha, hb', hc, hv⟩

/-- The maximum of four values is one of them and bounds all four. -/
theorem max4_spec (a b c d : Nat) :
    (max (max (max a b) c) d = a ∨ max (max (max a b) c) d = b ∨
      max (max (max a b) c) d = c ∨ max (max (max a b) c) d = d) ∧
    a ≤ max (max (max a b) c) d ∧ b ≤ max (max (max a b) c) d ∧
    c ≤ max (max (max a b) c) d ∧ d ≤ max (max (max a b) c) d := by
  omega

/-- The minimum of four values is one of them and is below all four. -/
theorem min4_spec (a b c d : Nat) :
    (min (min (min a b) c) d = a ∨ min (min (min a b) c) d = b ∨
      min (min (min a b) c) d = c ∨ min (min (min a b) c) d = d) ∧
    min (min (min a b) c) d ≤ a ∧ min (min (min a b) c) d ≤ b ∧
    min (min (min a b) c) d ≤ c ∧ min (min (min a b) c) d ≤ d := by
  omega

/-- Unsigned 32-bit subtraction that does not borrow. -/
theorem toU32_sub (x y : Nat) (h : y ≤ x) (hx : x < 4294967296) :
    toU32 ((x : Int) - (y : Int)) = x - y := by
  unfold toU32; omega

/-- Value returned by `Gas_Filter` when the ring after the push is `[a, b, c, d]`. -/
theorem Gas_Filter_value (r : GasRing) (v a b c d : Nat)
    (h : r.gas_history.set r.gas_index v = [a, b, c, d])
    (ha : a < 65536) (hb : b < 65536) (hc : c < 65536) (hd : d < 65536) :
    (Gas_Filter r v).2
      = (a + b + c + d - max (max (max a b) c) d - min (min (min a b) c) d) / 2 := by
  have hs : GAS_FILTER_SIZE - 2 = 2 := rfl
  obtain ⟨hM, hMa, hMb, hMc, hMd⟩ := max4_spec a b c d
  obtain ⟨hm, hma, hmb, hmc, hmd⟩ := min4_spec a b c d
  have hmax : max (max (max a b) c) d ≤ a + b + c + d := by
    generalize max (max (max a b) c) d = M at hM; omega
  have hmin : min (min (min a b) c) d ≤ a + b + c + d - max (max (max a b) c) d := by
    generalize max (max (max a b) c) d = M at hM hMa hMb hMc hMd
    generalize min (min (min a b) c) d = m at hm hma hmb hmc hmd
    omega
  have hlt : (a + b + c + d - max (max (max a b) c) d - min (min (min a b) c) d) / 2
      < 65536 := by
    generalize max (max (max a b) c) d = M at hM hMa hMb hMc hMd
    generalize min (min (min a b) c) d = m at hm hma hmb hmc hmd
    omega
  unfold Gas_Filter
  simp only []
  rw [h, Gas_Filter_scan a b c d ha hb hc hd, hs]
  simp only []
  have hS : a + b + c + d < 4294967296 := by omega
  rw [toU32_sub _ _ hmax hS, toU32_sub _ _ hmin (lt_of_le_of_lt (Nat.sub_le _ _) hS)]
  exact toU16_of_lt _ hlt

/-- Insertion sort of four values yields four values whose middle two add up to
the sum less the maximum and the minimum. -/
theorem sorted4_mid (a b c d : Nat) :
    ∃ w x y z, List.insertionSort (· ≤ ·) [a, b, c, d] = [w, x, y, z] ∧
      x + y = a + b + c + d - max (max (max a b) c) d - min (min (min a b) c) d := by
  have hp : ([a, b, c, d].insertionSort (· ≤ ·)).Perm [a, b, c, d] := List.perm_insertionSort _ _
  have hs : ([a, b, c, d].insertionSort (· ≤ ·)).Sorted (· ≤ ·) := List.sorted_insertionSort _ _
  generalize [a, b, c, d].insertionSort (· ≤ ·) = s at hp hs
  have hl := hp.length_eq
  rcases s with _ | ⟨w, _ | ⟨x, _ | ⟨y, _ | ⟨z, _ | ⟨e, l⟩⟩⟩⟩⟩ <;> simp at hl
  refine ⟨w, x, y, z, rfl, ?_⟩
  have hsum := hp.sum_eq
  simp only [List.sum_cons, List.sum_nil, add_zero] at hsum
  have hwx : w ≤ x ∧ x ≤ y ∧ y ≤ z := by
    simp only [List.Sorted, List.pairwise_cons] at hs
    exact ⟨hs.1 x (by simp), hs.2.1 y (by simp), hs.2.2.1 z (by simp)⟩
  have le4 : ∀ t, (t = w ∨ t = x ∨ t = y ∨ t = z) → t ≤ z ∧ w ≤ t := by
    intro t ht; omega
  have az : a ≤ z ∧ w ≤ a :=
    le4 a (by have := hp.mem_iff.2 (by simp : a ∈ [a, b, c, d]); simpa using this)
  have bz : b ≤ z ∧ w ≤ b :=
    le4 b (by have := hp.mem_iff.2 (by simp : b ∈ [a, b, c, d]); simpa using this)
  have cz : c ≤ z ∧ w ≤ c :=
    le4 c (by have := hp.mem_iff.2 (by simp : c ∈ [a, b, c, d]); simpa using this)
  have dz : d ≤ z ∧ w ≤ d :=
    le4 d (by have := hp.mem_iff.2 (by simp : d ∈ [a, b, c, d]); simpa using this)
  have mw : w = a ∨ w = b ∨ w = c ∨ w = d := by
    have := hp.mem_iff.1 (by simp : w ∈ [w, x, y, z]); simpa using this
  have mz : z = a ∨ z = b ∨ z = c ∨ z = d := by
    have := hp.mem_iff.1 (by simp : z ∈ [w, x, y, z]); simpa using this
  clear le4
  have eM : max (max (max a b) c) d = z := by
    apply le_antisymm
    · exact max_le (max_le (max_le az.1 bz.1) cz.1) dz.1
    · rcases mz with h | h | h | h <;> rw [h]
      · exact le_trans (le_trans (le_max_left a b) (le_max_left _ c)) (le_max_left _ d)
      · exact le_trans (le_trans (le_max_right a b) (le_max_left _ c)) (le_max_left _ d)
      · exact le_trans (le_max_right _ c) (le_max_left _ d)
      · exact le_max_right _ d
  have em : min (min (min a b) c) d = w := by
    apply le_antisymm
    · rcases mw with h | h | h | h <;> rw [h]
      · exact le_trans (min_le_left _ d) (le_trans (min_le_left _ c) (min_le_left a b))
      · exact le_trans (min_le_left _ d) (le_trans (min_le_left _ c) (min_le_right a b))
      · exact le_trans (min_le_left _ d) (min_le_right _ c)
      · exact min_le_right _ d
    · exact le_min (le_min (le_min az.2 bz.2) cz.2) dz.2
  rw [eM, em]
  clear mw mz eM em hp hs
  omega

/-- The two middle order statistics of four values add up to the sum less the
maximum and the minimum. -/
theorem sorted4_middle (a b c d : Nat) :
    (sorted4 [a, b, c, d]).getD 1 0 + (sorted4 [a, b, c, d]).getD 2 0
      = a + b + c + d - max (max (max a b) c) d - min (min (min a b) c) d := by
  obtain ⟨w, x, y, z, hs, h⟩ := sorted4_mid a b c d
  unfold sorted4
  rw [hs]
  exact h

/-- A halved sum of four values less their maximum and minimum stays within any
interval that holds three of the four. -/
theorem trimmed_bounds (a b c d M m lo hi : Nat)
    (hM : M = a ∨ M = b ∨ M = c ∨ M = d) (hMa : a ≤ M) (hMb : b ≤ M) (hMc : c ≤ M)
    (hMd : d ≤ M) (hm : m = a ∨ m = b ∨ m = c ∨ m = d) (hma : m ≤ a) (hmb : m ≤ b)
    (hmc : m ≤ c) (hmd : m ≤ d)
    (h : (lo ≤ b ∧ b ≤ hi ∧ lo ≤ c ∧ c ≤ hi ∧ lo ≤ d ∧ d ≤ hi) ∨
         (lo ≤ a ∧ a ≤ hi ∧ lo ≤ c ∧ c ≤ hi ∧ lo ≤ d ∧ d ≤ hi) ∨
         (lo ≤ a ∧ a ≤ hi ∧ lo ≤ b ∧ b ≤ hi ∧ lo ≤ d ∧ d ≤ hi) ∨
         (lo ≤ a ∧ a ≤ hi ∧ lo ≤ b ∧ b ≤ hi ∧ lo ≤ c ∧ c ≤ hi)) :
    lo ≤ (a + b + c + d - M - m) / 2 ∧ (a + b + c + d - M - m) / 2 ≤ hi := by
  omega

/-- C5: `Gas_Filter` stores the new value in the ring slot at `gas_index`
(the other slots keep their values) and returns the floor of the mean of the
two middle order statistics of the four ring values (second smallest plus
second largest, halved); the ring `{100, 102, 101, 5000}` yields 101. -/
theorem Gas_Filter_trimmed_mean (r : GasRing) (new_value : Nat) (hr : r.wf)
    (hv : new_value < 65536) :
    (Gas_Filter r new_value).1.gas_history.length = 4 ∧
    (Gas_Filter r new_value).1.gas_history.getD r.gas_index 0 = new_value ∧
    (∀ j, j ≠ r.gas_index →
      (Gas_Filter r new_value).1.gas_history.getD j 0 = r.gas_history.getD j 0) ∧
    (Gas_Filter r new_value).2
      = ((sorted4 (Gas_Filter r new_value).1.gas_history).getD 1 0
          + (sorted4 (Gas_Filter r new_value).1.gas_history).getD 2 0) / 2 ∧
    (List.Sorted (· ≤ ·) (sorted4 (Gas_Filter r new_value).1.gas_history) ∧
      List.Perm (sorted4 (Gas_Filter r new_value).1.gas_history)
        (Gas_Filter r new_value).1.gas_history) ∧
    (Gas_Filter ⟨[100, 102, 101, 0], 3⟩ 5000).1.gas_history = [100, 102, 101, 5000] ∧
    (Gas_Filter ⟨[100, 102, 101, 0], 3⟩ 5000).2 = 101 := by
  obtain ⟨a, b, c, d, h, ha, hb, hc, hd⟩ := GasRing.set_eq_four r new_value hr hv
  have hval := Gas_Filter_value r new_value a b c d h ha hb hc hd
  have hhist : (Gas_Filter r new_value).1.gas_history
      = r.gas_history.set r.gas_index new_value := rfl
  refine ⟨?_, ?_, ?_, ?_, ⟨?_, ?_⟩, by decide, by decide⟩
  · rw [hhist, List.length_set]; exact hr.1
  · have hlt : r.gas_index < r.gas_history.length := by rw [hr.1]; exact hr.2.1
    rw [hhist, List.getD_eq_getElem?_getD, List.getElem?_set_self hlt]
    rfl
  · intro j hj
    rw [hhist, List.getD_eq_getElem?_getD, List.getD_eq_getElem?_getD,
      List.getElem?_set_ne (Ne.symm hj)]
  · rw [hval, hhist, h, sorted4_middle]
  · exact List.sorted_insertionSort _ _
  · exact List.perm_insertionSort _ _

/-- Witness for C5: the reset ring and the sample 300. -/
theorem Gas_Filter_trimmed_mean_witness :
    (Gas_Filter GasRing.reset 300).1.gas_history.getD 0 0 = 300 ∧
    (Gas_Filter GasRing.reset 300).2
      = ((sorted4 (Gas_Filter GasRing.reset 300).1.gas_history).getD 1 0
          + (sorted4 (Gas_Filter GasRing.reset 300).1.gas_history).getD 2 0) / 2 :=
  have h := Gas_Filter_trimmed_mean GasRing.reset 300 (by decide) (by decide)
  ⟨h.2.1, h.2.2.2.1⟩

/-- C6: single-outlier rejection.  If three of the four ring values after the
push lie in `[lo, hi]`, the value returned by `Gas_Filter` lies in `[lo, hi]`
whatever the fourth value is. -/
theorem Gas_Filter_outlier_rejection (r : GasRing) (new_value lo hi : Nat) (hr : r.wf)
    (hv : new_value < 65536)
    (h3 : ∃ j, j < 4 ∧ ∀ k, k < 4 → k ≠ j →
      lo ≤ (Gas_Filter r new_value).1.gas_history.getD k 0 ∧
      (Gas_Filter r new_value).1.gas_history.getD k 0 ≤ hi) :
    lo ≤ (Gas_Filter r new_value).2 ∧ (Gas_Filter r new_value).2 ≤ hi := by
  obtain ⟨a, b, c, d, h, ha, hb, hc, hd⟩ := GasRing.set_eq_four r new_value hr hv
  have hval := Gas_Filter_value r new_value a b c d h ha hb hc hd
  have hhist : (Gas_Filter r new_value).1.gas_history = [a, b, c, d] := h
  rw [hval]
  obtain ⟨j, hj, hk⟩ := h3
  rw [hhist] at hk
  have k0 := hk 0 (by omega)
  have k1 := hk 1 (by omega)
  have k2 := hk 2 (by omega)
  have k3 := hk 3 (by omega)
  simp only [List.getD_cons_zero, List.getD_cons_succ] at k0 k1 k2 k3
  obtain ⟨hM, hMa, hMb, hMc, hMd⟩ := max4_spec a b c d
  obtain ⟨hm, hma, hmb, hmc, hmd⟩ := min4_spec a b c d
  generalize max (max (max a b) c) d = M at hM hMa hMb hMc hMd ⊢
  generalize min (min (min a b) c) d = m at hm hma hmb hmc hmd ⊢
  refine trimmed_bounds a b c d M m lo hi hM hMa hMb hMc hMd hm hma hmb hmc hmd ?_
  interval_cases j
  · exact Or.inl ⟨(k1 (by decide)).1, (k1 (by decide)).2, (k2 (by decide)).1,
      (k2 (by decide)).2, (k3 (by decide)).1, (k3 (by decide)).2⟩
  · exact Or.inr (Or.inl ⟨(k0 (by decide)).1, (k0 (by decide)).2, (k2 (by decide)).1,
      (k2 (by decide)).2, (k3 (by decide)).1, (k3 (by decide)).2⟩)
  · exact Or.inr (Or.inr (Or.inl ⟨(k0 (by decide)).1, (k0 (by decide)).2,
      (k1 (by decide)).1, (k1 (by decide)).2, (k3 (by decide)).1, (k3 (by decide)).2⟩))
  · exact Or.inr (Or.inr (Or.inr ⟨(k0 (by decide)).1, (k0 (by decide)).2,
      (k1 (by decide)).1, (k1 (by decide)).2, (k2 (by decide)).1, (k2 (by decide)).2⟩))

/-- Witness for C6: a spike of 5000 among 100, 102, 101. -/
theorem Gas_Filter_outlier_rejection_witness :
    100 ≤ (Gas_Filter ⟨[100, 102, 101, 0], 3⟩ 5000).2 ∧
    (Gas_Filter ⟨[100, 102, 101, 0], 3⟩ 5000).2 ≤ 102 :=
  Gas_Filter_outlier_rejection ⟨[100, 102, 101, 0], 3⟩ 5000 100 102 (by decide) (by decide)
    ⟨3, by decide, by decide⟩

/-! ## Particulate conversion: claim C7 -/

/-- The clamp `if (x > n) x = n;` leaves a value that is at most `n`. -/
theorem clamp_le (x n : Nat) : (if x > n then n else x) ≤ n := by
  split_ifs <;> omega

/-- The concentration reported by `GP2Y1014_Read` is clamped to 500. -/
theorem GP2Y1014_Read_le (adc : Int) : (GP2Y1014_Read adc).1 ≤ 500 := by
  unfold GP2Y1014_Read
  exact clamp_le _ 500

/-- The millivolt value computed by `GP2Y1014_Read` from a non-negative code. -/
theorem GP2Y_voltage (n : Nat) (hn : n ≤ 32767) :
    toI32 (Int.tdiv (toI32 (toI32 ((n : Nat) : Int) * 6144)) 32768)
      = ((n * 6144 / 32768 : Nat) : Int) := by
  have e1 : toI32 ((n : Nat) : Int) = n := toI32_of_range _ (by omega) (by omega)
  have e2 : toI32 (((n : Nat) : Int) * 6144) = ((n * 6144 : Nat) : Int) := by
    rw [toI32_of_range _ (by omega) (by omega)]; push_cast; rfl
  have e3 : Int.tdiv ((n * 6144 : Nat) : Int) 32768 = ((n * 6144 / 32768 : Nat) : Int) := by
    rw [Int.tdiv_eq_ediv (by omega) (by omega)]; push_cast; rfl
  rw [e1, e2, e3]
  exact toI32_of_range _ (by omega) (by omega)

/-- The unclamped concentration computed by `GP2Y1014_Read` from the millivolt value. -/
theorem GP2Y_pm (mV : Nat) (hmV : mV ≤ 6143) :
    (if (mV : Int) > 600 then toU16 (toI32 (Int.tdiv (toI32 ((mV : Int) - 600)) 6)) else 0)
      = if mV ≤ 600 then 0 else (mV - 600) / 6 := by
  by_cases hv : mV ≤ 600
  · have hv2 : ¬ ((mV : Int) > 600) := by omega
    rw [if_neg hv2, if_pos hv]
  · have hv2 : (mV : Int) > 600 := by omega
    have e5 : toI32 ((mV : Int) - 600) = ((mV - 600 : Nat) : Int) := by
      rw [toI32_of_range _ (by omega) (by omega)]; omega
    have e6 : Int.tdiv ((mV - 600 : Nat) : Int) 6 = (((mV - 600) / 6 : Nat) : Int) := by
      rw [Int.tdiv_eq_ediv (by omega) (by omega)]; push_cast; rfl
    have e7 : toI32 (((mV - 600) / 6 : Nat) : Int) = (((mV - 600) / 6 : Nat) : Int) :=
      toI32_of_range _ (by omega) (by omega)
    have e8 : toU16 (((mV - 600) / 6 : Nat) : Int) = (mV - 600) / 6 :=
      toU16_of_lt _ (by omega)
    rw [if_pos hv2, if_neg hv, e5, e6, e7, e8]

/-- C7: for every signed 16-bit ADC code `c`, `GP2Y1014_Read` reports
`pm25_raw = max(c, 0)` and, with `mV = floor(max(c,0) * 6144 / 32768)`, the
concentration 0 when `mV <= 600` and `min(floor((mV - 600) / 6), 500)` when
`mV > 600`; the concentration never exceeds 500. -/
theorem GP2Y1014_conversion (c : Int) (h1 : -32768 ≤ c) (h2 : c ≤ 32767) :
    (GP2Y1014_Read c).2 = (max c 0).toNat ∧
    (GP2Y1014_Read c).1
      = (if (max c 0).toNat * 6144 / 32768 ≤ 600 then 0
         else min (((max c 0).toNat * 6144 / 32768 - 600) / 6) 500) ∧
    (GP2Y1014_Read c).1 ≤ 500 := by
  refine ⟨?_, ?_, GP2Y1014_Read_le c⟩
  · have e : (GP2Y1014_Read c).2 = toU16 (if c < 0 then 0 else c) := rfl
    rw [e]
    unfold toU16
    split_ifs <;> omega
  · have hadc : (if c < 0 then 0 else c) = (((max c 0).toNat : Nat) : Int) := by
      split_ifs <;> omega
    have hn : (max c 0).toNat ≤ 32767 := by omega
    have hmV : (max c 0).toNat * 6144 / 32768 ≤ 6143 := by omega
    unfold GP2Y1014_Read
    simp only [hadc, GP2Y_ZERO_VOLTAGE]
    rw [GP2Y_voltage _ hn, GP2Y_pm _ hmV]
    generalize (max c 0).toNat * 6144 / 32768 = mV
    by_cases hv : mV ≤ 600
    · rw [if_pos hv, if_neg (by omega : ¬ (0 > 500)), if_pos hv]
    · rw [if_neg hv]
      generalize (mV - 600) / 6 = q
      split_ifs <;> omega

/-- Witness for C7: the code 4000 gives 750 mV and 25 ug/m3. -/
theorem GP2Y1014_conversion_witness :
    (GP2Y1014_Read 4000).2 = 4000 ∧ (GP2Y1014_Read 4000).1 = 25 := by
  have h := GP2Y1014_conversion 4000 (by norm_num) (by norm_num)
  exact ⟨h.1, h.2.1⟩

/-! ## Main loop: claims C8 to C10 -/

/-- Every `unsigned int` conversion result is below `2^16`. -/
theorem toU16_lt (x : Int) : toU16 x < 65536 := by
  unfold toU16; omega

/-- The value returned by `Gas_Filter` is an `unsigned int`. -/
theorem Gas_Filter_lt (r : GasRing) (v : Nat) : (Gas_Filter r v).2 < 65536 := by
  unfold Gas_Filter
  simp only []
  exact toU16_lt _

/-- The gas concentration computed by the main loop from a 16-bit filtered value. -/
theorem gas_ppm_eq (f : Nat) (hf : f < 65536) :
    (if (if f > MQ2_ZERO_THRESHOLD then
          toU16 ((toU16 ((f : Int) - (MQ2_ZERO_THRESHOLD : Int)) / 33 : Nat) : Int)
        else 0) > 1000 then 1000
      else (if f > MQ2_ZERO_THRESHOLD then
          toU16 ((toU16 ((f : Int) - (MQ2_ZERO_THRESHOLD : Int)) / 33 : Nat) : Int)
        else 0))
      = if f ≤ 150 then 0 else min ((f - 150) / 33) 1000 := by
  have hz : MQ2_ZERO_THRESHOLD = 150 := rfl
  rw [hz]
  by_cases h : f ≤ 150
  · rw [if_neg (by omega : ¬ (f > 150)), if_pos h, if_neg (by omega : ¬ (0 > 1000))]
  · have e1 : toU16 ((f : Int) - ((150 : Nat) : Int)) = f - 150 := by
      unfold toU16; omega
    have e2 : toU16 (((f - 150) / 33 : Nat) : Int) = (f - 150) / 33 :=
      toU16_of_lt _ (by omega)
    rw [if_pos (by omega : f > 150), if_neg h, e1, e2]
    generalize (f - 150) / 33 = q
    split_ifs <;> omega

/-- C8: the main loop stores the value returned by `Gas_Filter` in `gas_raw`
and, for that filtered value `f`, sets `gas_ppm = 0` when `f <= 150` and
`gas_ppm = min(floor((f - 150) / 33), 1000)` when `f > 150`. -/
theorem main_cycle_gas_ppm (s : State) (i : CycleInput) :
    (main_cycle s i).gas_raw = (Gas_Filter s.ring (gas_raw_clamped i)).2 ∧
    (main_cycle s i).gas_raw < 65536 ∧
    (main_cycle s i).gas_ppm
      = if (main_cycle s i).gas_raw ≤ 150 then 0
        else min (((main_cycle s i).gas_raw - 150) / 33) 1000 := by
  have e : (main_cycle s i).gas_raw = (Gas_Filter s.ring (gas_raw_clamped i)).2 := rfl
  refine ⟨e, ?_, ?_⟩
  · rw [e]; exact Gas_Filter_lt _ _
  · rw [e]
    exact gas_ppm_eq _ (Gas_Filter_lt _ _)

/-- C9: after an acquisition cycle `err_aht10` is 1 exactly when the decoded
`temperature_x10` is below -400 or above 850 or the decoded `humidity_x10` is
below 0 or above 1000, and is 0 otherwise. -/
theorem main_cycle_err_aht10 (s : State) (i : CycleInput) :
    (main_cycle s i).temperature_x10 = (AHT10_Read i.capture).1 ∧
    (main_cycle s i).humidity_x10 = (AHT10_Read i.capture).2 ∧
    ((main_cycle s i).err_aht10 = 1 ↔
      ((main_cycle s i).temperature_x10 < -400 ∨ (main_cycle s i).temperature_x10 > 850 ∨
       (main_cycle s i).humidity_x10 < 0 ∨ (main_cycle s i).humidity_x10 > 1000)) ∧
    ((main_cycle s i).err_aht10 = 0 ↔
      ¬ ((main_cycle s i).temperature_x10 < -400 ∨ (main_cycle s i).temperature_x10 > 850 ∨
         (main_cycle s i).humidity_x10 < 0 ∨ (main_cycle s i).humidity_x10 > 1000)) := by
  have ht : (main_cycle s i).temperature_x10 = (AHT10_Read i.capture).1 := rfl
  have hh : (main_cycle s i).humidity_x10 = (AHT10_Read i.capture).2 := rfl
  have e : (main_cycle s i).err_aht10
      = if ((AHT10_Read i.capture).1 < AHT10_TEMP_MIN ∨
            (AHT10_Read i.capture).1 > AHT10_TEMP_MAX ∨
            (AHT10_Read i.capture).2 < AHT10_HUMID_MIN ∨
            (AHT10_Read i.capture).2 > AHT10_HUMID_MAX)
        then 1 else 0 := by
    unfold main_cycle
    simp only []
  have c1 : AHT10_TEMP_MIN = -400 := rfl
  have c2 : AHT10_TEMP_MAX = 850 := rfl
  have c3 : AHT10_HUMID_MIN = 0 := rfl
  have c4 : AHT10_HUMID_MAX = 1000 := rfl
  rw [c1, c2, c3, c4] at e
  rw [ht, hh, e]
  refine ⟨rfl, rfl, ?_, ?_⟩
  · split_ifs with h
    · exact ⟨fun _ => h, fun _ => rfl⟩
    · exact ⟨fun h0 => absurd h0 (by decide), fun h1 => absurd h1 h⟩
  · split_ifs with h
    · exact ⟨fun h0 => absurd h0 (by decide), fun h1 => absurd h h1⟩
    · exact ⟨fun _ => h, fun _ => rfl⟩

/-- C10: after an acquisition cycle `err_pm25` is 1 exactly when `pm25_raw` is 0
or exceeds 60000 (the test `pm25_ugm3 > 500` never adds a case, the
concentration being at most 500), and `err_gas` is 1 exactly when the
pre-filter `gas_raw` is 0 or exceeds 60000; each flag is 0 otherwise. -/
theorem main_cycle_err_analog (s : State) (i : CycleInput) :
    (main_cycle s i).pm25_raw = (GP2Y1014_Read i.adc_ch1).2 ∧
    (main_cycle s i).pm25_ugm3 = (GP2Y1014_Read i.adc_ch1).1 ∧
    ¬ ((main_cycle s i).pm25_ugm3 > 500) ∧
    ((main_cycle s i).err_pm25 = 1 ↔
      ((main_cycle s i).pm25_raw = 0 ∨ (main_cycle s i).pm25_raw > 60000)) ∧
    ((main_cycle s i).err_pm25 = 0 ↔
      ¬ ((main_cycle s i).pm25_raw = 0 ∨ (main_cycle s i).pm25_raw > 60000)) ∧
    ((main_cycle s i).err_gas = 1 ↔ (gas_raw_read i = 0 ∨ gas_raw_read i > 60000)) ∧
    ((main_cycle s i).err_gas = 0 ↔ ¬ (gas_raw_read i = 0 ∨ gas_raw_read i > 60000)) := by
  have hr : (main_cycle s i).pm25_raw = (GP2Y1014_Read i.adc_ch1).2 := rfl
  have hu : (main_cycle s i).pm25_ugm3 = (GP2Y1014_Read i.adc_ch1).1 := rfl
  have hle : (GP2Y1014_Read i.adc_ch1).1 ≤ 500 := GP2Y1014_Read_le i.adc_ch1
  have ep : (main_cycle s i).err_pm25
      = if ((GP2Y1014_Read i.adc_ch1).2 = 0 ∨ (GP2Y1014_Read i.adc_ch1).2 > 60000 ∨
            (GP2Y1014_Read i.adc_ch1).1 > 500) then 1 else 0 := rfl
  have eg : (main_cycle s i).err_gas
      = if (MQ2_Read i.adc_ch0 = 0 ∨ MQ2_Read i.adc_ch0 > 60000) then 1 else 0 := rfl
  have hg : gas_raw_read i = MQ2_Read i.adc_ch0 := rfl
  rw [hr, hu, ep, eg, hg]
  refine ⟨rfl, rfl, by omega, ?_, ?_, ?_, ?_⟩
  · split_ifs with h
    · exact ⟨fun _ => by omega, fun _ => rfl⟩
    · exact ⟨fun h0 => absurd h0 (by decide), fun h1 => absurd (by omega) h⟩
  · split_ifs with h
    · exact ⟨fun h0 => absurd h0 (by decide), fun h1 => absurd (by omega) h1⟩
    · exact ⟨fun _ => by omega, fun _ => rfl⟩
  · split_ifs with h
    · exact ⟨fun _ => h, fun _ => rfl⟩
    · exact ⟨fun h0 => absurd h0 (by decide), fun h1 => absurd h1 h⟩
  · split_ifs with h
    · exact ⟨fun h0 => absurd h0 (by decide), fun h1 => absurd h h1⟩
    · exact ⟨fun _ => h, fun _ => rfl⟩

/-! ## Bus engine: frame lemmas -/

theorem callsOf_append (a b : List Ev) : callsOf (a ++ b) = callsOf a ++ callsOf b := by
  induction a with
  | nil => rfl
  | cons e es ih => cases e <;> simp [callsOf, ih]

/-- Closed form of `I2C_Start`. -/
theorem I2C_Start_eq (s : Bus) :
    I2C_Start s = { s with
      sda := false, scl := false,
      trace := s.trace ++ [Ev.call Call.start, Ev.sda true, Ev.scl true, Ev.delay_us 5,
        Ev.sda false, Ev.delay_us 5, Ev.scl false] } := by
  simp [I2C_Start, enter, set_SDA, set_SCL, delay_us]

/-- Closed form of `I2C_Stop`. -/
theorem I2C_Stop_eq (s : Bus) :
    I2C_Stop s = { s with
      sda := true, scl := true,
      trace := s.trace ++ [Ev.call Call.stop, Ev.sda false, Ev.scl true, Ev.delay_us 5,
        Ev.sda true, Ev.delay_us 5] } := by
  simp [I2C_Stop, enter, set_SDA, set_SCL, delay_us]

/-- Closed form of one iteration of the data loop of `I2C_WriteByte`. -/
theorem I2C_WriteByte_bit_eq (dat : Nat) (s : Bus) (i : Nat) :
    I2C_WriteByte_bit (dat, s) i = (toU8 ((dat <<< 1 : Nat) : Int), { s with
      sda := (dat &&& 0x80 != 0), scl := false,
      trace := s.trace ++ [Ev.sda (dat &&& 0x80 != 0), Ev.delay_us 2, Ev.scl true,
        Ev.delay_us 5, Ev.scl false] }) := by
  simp [I2C_WriteByte_bit, set_SDA, set_SCL, delay_us]

/-- Closed form of one iteration of the data loop of `I2C_ReadByte`. -/
theorem I2C_ReadByte_bit_eq (dat : Nat) (s : Bus) (i : Nat) :
    I2C_ReadByte_bit (dat, s) i =
      ((if s.line s.reads then toU8 ((toU8 ((dat <<< 1 : Nat) : Int) ||| 0x01 : Nat) : Int)
        else toU8 ((dat <<< 1 : Nat) : Int)), { s with
      scl := false, reads := s.reads + 1,
      trace := s.trace ++ [Ev.delay_us 2, Ev.scl true, Ev.sample (s.line s.reads),
        Ev.delay_us 5, Ev.scl false] }) := by
  simp [I2C_ReadByte_bit, set_SCL, delay_us, read_SDA]

set_option maxRecDepth 100000 in
/-- The bit put on `SDA` in iteration `k` of the data loop of `I2C_WriteByte`
is bit `7 - k` of the byte, and the loop leaves `dat` at 0. -/
theorem I2C_WriteByte_sent_bits : ∀ dat, dat < 256 →
    ((dat &&& 0x80 != 0) = dat.testBit 7 ∧
     (toU8 ((dat <<< 1 : Nat) : Int) &&& 0x80 != 0) = dat.testBit 6 ∧
     (toU8 ((toU8 ((dat <<< 1 : Nat) : Int) <<< 1 : Nat) : Int) &&& 0x80 != 0) = dat.testBit 5 ∧
     (toU8 ((toU8 ((toU8 ((dat <<< 1 : Nat) : Int) <<< 1 : Nat) : Int) <<< 1 : Nat) : Int) &&& 0x80 != 0) = dat.testBit 4 ∧
     (toU8 ((toU8 ((toU8 ((toU8 ((dat <<< 1 : Nat) : Int) <<< 1 : Nat) : Int) <<< 1 : Nat) : Int) <<< 1 : Nat) : Int) &&& 0x80 != 0) = dat.testBit 3 ∧
     (toU8 ((toU8 ((toU8 ((toU8 ((toU8 ((dat <<< 1 : Nat) : Int) <<< 1 : Nat) : Int) <<< 1 : Nat) : Int) <<< 1 : Nat) : Int) <<< 1 : Nat) : Int) &&& 0x80 != 0) = dat.testBit 2 ∧
     (toU8 ((toU8 ((toU8 ((toU8 ((toU8 ((toU8 ((dat <<< 1 : Nat) : Int) <<< 1 : Nat) : Int) <<< 1 : Nat) : Int) <<< 1 : Nat) : Int) <<< 1 : Nat) : Int) <<< 1 : Nat) : Int) &&& 0x80 != 0) = dat.testBit 1 ∧
     (toU8 ((toU8 ((toU8 ((toU8 ((toU8 ((toU8 ((toU8 ((dat <<< 1 : Nat) : Int) <<< 1 : Nat) : Int) <<< 1 : Nat) : Int) <<< 1 : Nat) : Int) <<< 1 : Nat) : Int) <<< 1 : Nat) : Int) <<< 1 : Nat) : Int) &&& 0x80 != 0) = dat.testBit 0 ∧
     toU8 ((toU8 ((toU8 ((toU8 ((toU8 ((toU8 ((toU8 ((toU8 ((dat <<< 1 : Nat) : Int) <<< 1 : Nat) : Int) <<< 1 : Nat) : Int) <<< 1 : Nat) : Int) <<< 1 : Nat) : Int) <<< 1 : Nat) : Int) <<< 1 : Nat) : Int) <<< 1 : Nat) : Int) = 0) := by
  decide

/-- Closed form of step 1 of `I2C_WriteByte`: the eight iterations of the data loop. -/
theorem I2C_WriteByte_data_eq (dat : Nat) (hd : dat < 256) (s : Bus) :
    I2C_WriteByte_data dat s = (0, { s with
      sda := dat.testBit 0, scl := false,
      trace := s.trace ++ [Ev.sda (dat.testBit 7), Ev.delay_us 2, Ev.scl true, Ev.delay_us 5, Ev.scl false,
        Ev.sda (dat.testBit 6), Ev.delay_us 2, Ev.scl true, Ev.delay_us 5, Ev.scl false,
        Ev.sda (dat.testBit 5), Ev.delay_us 2, Ev.scl true, Ev.delay_us 5, Ev.scl false,
        Ev.sda (dat.testBit 4), Ev.delay_us 2, Ev.scl true, Ev.delay_us 5, Ev.scl false,
        Ev.sda (dat.testBit 3), Ev.delay_us 2, Ev.scl true, Ev.delay_us 5, Ev.scl false,
        Ev.sda (dat.testBit 2), Ev.delay_us 2, Ev.scl true, Ev.delay_us 5, Ev.scl false,
        Ev.sda (dat.testBit 1), Ev.delay_us 2, Ev.scl true, Ev.delay_us 5, Ev.scl false,
        Ev.sda (dat.testBit 0), Ev.delay_us 2, Ev.scl true, Ev.delay_us 5, Ev.scl false] }) := by
  obtain ⟨b7, b6, b5, b4, b3, b2, b1, b0, hz⟩ := I2C_WriteByte_sent_bits dat hd
  have hr : List.range 8 = [0, 1, 2, 3, 4, 5, 6, 7] := by decide
  unfold I2C_WriteByte_data
  rw [hr]
  simp only [List.foldl, I2C_WriteByte_bit_eq, b7, b6, b5, b4, b3, b2, b1, b0, hz,
    List.append_assoc, List.cons_append, List.nil_append]

set_option maxRecDepth 100000 in
/-- The byte assembled by the data loop of `I2C_ReadByte` from eight sampled
levels: the first level sampled is the most significant bit. -/
theorem I2C_ReadByte_assembled : ∀ b0 b1 b2 b3 b4 b5 b6 b7 : Bool,
    (if b7 = true then toU8 ((toU8 (((if b6 = true then toU8 ((toU8 (((if b5 = true then toU8 ((toU8 (((if b4 = true then toU8 ((toU8 (((if b3 = true then toU8 ((toU8 (((if b2 = true then toU8 ((toU8 (((if b1 = true then toU8 ((toU8 (((if b0 = true then toU8 ((toU8 ((0 <<< 1 : Nat) : Int) ||| 0x01 : Nat) : Int) else toU8 ((0 <<< 1 : Nat) : Int)) <<< 1 : Nat) : Int) ||| 0x01 : Nat) : Int) else toU8 (((if b0 = true then toU8 ((toU8 ((0 <<< 1 : Nat) : Int) ||| 0x01 : Nat) : Int) else toU8 ((0 <<< 1 : Nat) : Int)) <<< 1 : Nat) : Int)) <<< 1 : Nat) : Int) ||| 0x01 : Nat) : Int) else toU8 (((if b1 = true then toU8 ((toU8 (((if b0 = true then toU8 ((toU8 ((0 <<< 1 : Nat) : Int) ||| 0x01 : Nat) : Int) else toU8 ((0 <<< 1 : Nat) : Int)) <<< 1 : Nat) : Int) ||| 0x01 : Nat) : Int) else toU8 (((if b0 = true then toU8 ((toU8 ((0 <<< 1 : Nat) : Int) ||| 0x01 : Nat) : Int) else toU8 ((0 <<< 1 : Nat) : Int)) <<< 1 : Nat) : Int)) <<< 1 : Nat) : Int)) <<< 1 : Nat) : Int) ||| 0x01 : Nat) : Int) else toU8 (((if b2 = true then toU8 ((toU8 (((if b1 = true then toU8 ((toU8 (((if b0 = true then toU8 ((toU8 ((0 <<< 1 : Nat) : Int) ||| 0x01 : Nat) : Int) else toU8 ((0 <<< 1 : Nat) : Int)) <<< 1 : Nat) : Int) ||| 0x01 : Nat) : Int) else toU8 (((if b0 = true then toU8 ((toU8 ((0 <<< 1 : Nat) : Int) ||| 0x01 : Nat) : Int) else toU8 ((0 <<< 1 : Nat) : Int)) <<< 1 : Nat) : Int)) <<< 1 : Nat) : Int) ||| 0x01 : Nat) : Int) else toU8 (((if b1 = true then toU8 ((toU8 (((if b0 = true then toU8 ((toU8 ((0 <<< 1 : Nat) : Int) ||| 0x01 : Nat) : Int) else toU8 ((0 <<< 1 : Nat) : Int)) <<< 1 : Nat) : Int) ||| 0x01 : Nat) : Int) else toU8 (((if b0 = true then toU8 ((toU8 ((0 <<< 1 : Nat) : Int) ||| 0x01 : Nat) : Int) else toU8 ((0 <<< 1 : Nat) : Int)) <<< 1 : Nat) : Int)) <<< 1 : Nat) : Int)) <<< 1 : Nat) : Int)) <<< 1 : Nat) : Int) ||| 0x01 : Nat) : Int) else toU8 (((if b3 = true then toU8 ((toU8 (((if b2 = true then toU8 ((toU8 (((if b1 = true then toU8 ((toU8 (((if b0 = true then toU8 ((toU8 ((0 <<< 1 : Nat) : Int) ||| 0x01 : Nat) : Int) else toU8 ((0 <<< 1 : Nat) : Int)) <<< 1 : Nat) : Int) ||| 0x01 : Nat) : Int) else toU8 (((if b0 = true then toU8 ((toU8 ((0 <<< 1 : Nat) : Int) ||| 0x01 : Nat) : Int) else toU8 ((0 <<< 1 : Nat) : Int)) <<< 1 : Nat) : Int)) <<< 1 : Nat) : Int) ||| 0x01 : Nat) : Int) else toU8 (((if b1 = true then toU8 ((toU8 (((if b0 = true then toU8 ((toU8 ((0 <<< 1 : Nat) : Int) ||| 0x01 : Nat) : Int) else toU8 ((0 <<< 1 : Nat) : Int)) <<< 1 : Nat) : Int) ||| 0x01 : Nat) : Int) else toU8 (((if b0 = true then toU8 ((toU8 ((0 <<< 1 : Nat) : Int) ||| 0x01 : Nat) : Int) else toU8 ((0 <<< 1 : Nat) : Int)) <<< 1 : Nat) : Int)) <<< 1 : Nat) : Int)) <<< 1 : Nat) : Int) ||| 0x01 : Nat) : Int) else toU8 (((if b2 = true then toU8 ((toU8 (((if b1 = true then toU8 ((toU8 (((if b0 = true then toU8 ((toU8 ((0 <<< 1 : Nat) : Int) ||| 0x01 : Nat) : Int) else toU8 ((0 <<< 1 : Nat) : Int)) <<< 1 : Nat) : Int) ||| 0x01 : Nat) : Int) else toU8 (((if b0 = true then toU8 ((toU8 ((0 <<< 1 : Nat) : Int) ||| 0x01 : Nat) : Int) else toU8 ((0 <<< 1 : Nat) : Int)) <<< 1 : Nat) : Int)) <<< 1 : Nat) : Int) ||| 0x01 : Nat) : Int) else toU8 (((if b1 = true then toU8 ((toU8 (((if b0 = true then toU8 ((toU8 ((0 <<< 1 : Nat) : Int) ||| 0x01 : Nat) : Int) else toU8 ((0 <<< 1 : Nat) : Int)) <<< 1 : Nat) : Int) ||| 0x01 : Nat) : Int) else toU8 (((if b0 = true then toU8 ((toU8 ((0 <<< 1 : Nat) : Int) ||| 0x01 : Nat) : Int) else toU8 ((0 <<< 1 : Nat) : Int)) <<< 1 : Nat) : Int)) <<< 1 : Nat) : Int)) <<< 1 : Nat) : Int)) <<< 1 : Nat) : Int)) <<< 1 : Nat) : Int) ||| 0x01 : Nat) : Int) else toU8 (((if b4 = true then toU8 ((toU8 (((if b3 = true then toU8 ((toU8 (((if b2 = true then toU8 ((toU8 (((if b1 = true then toU8 ((toU8 (((if b0 = true then toU8 ((toU8 ((0 <<< 1 : Nat) : Int) ||| 0x01 : Nat) : Int) else toU8 ((0 <<< 1 : Nat) : Int)) <<< 1 : Nat) : Int) ||| 0x01 : Nat) : Int) else toU8 (((if b0 = true then toU8 ((toU8 ((0 <<< 1 : Nat) : Int) ||| 0x01 : Nat) : Int) else toU8 ((0 <<< 1 : Nat) : Int)) <<< 1 : Nat) : Int)) <<< 1 : Nat) : Int) ||| 0x01 : Nat) : Int) else toU8 (((if b1 = true then toU8 ((toU8 (((if b0 = true then toU8 ((toU8 ((0 <<< 1 : Nat) : Int) ||| 0x01 : Nat) : Int) else toU8 ((0 <<< 1 : Nat) : Int)) <<< 1 : Nat) : Int) ||| 0x01 : Nat) : Int) else toU8 (((if b0 = true then toU8 ((toU8 ((0 <<< 1 : Nat) : Int) ||| 0x01 : Nat) : Int) else toU8 ((0 <<< 1 : Nat) : Int)) <<< 1 : Nat) : Int)) <<< 1 : Nat) : Int)) <<< 1 : Nat) : Int) ||| 0x01 : Nat) : Int) else toU8 (((if b2 = true then toU8 ((toU8 (((if b1 = true then toU8 ((toU8 (((if b0 = true then toU8 ((toU8 ((0 <<< 1 : Nat) : Int) ||| 0x01 : Nat) : Int) else toU8 ((0 <<< 1 : Nat) : Int)) <<< 1 : Nat) : Int) ||| 0x01 : Nat) : Int) else toU8 (((if b0 = true then toU8 ((toU8 ((0 <<< 1 : Nat) : Int) ||| 0x01 : Nat) : Int) else toU8 ((0 <<< 1 : Nat) : Int)) <<< 1 : Nat) : Int)) <<< 1 : Nat) : Int) ||| 0x01 : Nat) : Int) else toU8 (((if b1 = true then toU8 ((toU8 (((if b0 = true then toU8 ((toU8 ((0 <<< 1 : Nat) : Int) ||| 0x01 : Nat) : Int) else toU8 ((0 <<< 1 : Nat) : Int)) <<< 1 : Nat) : Int) ||| 0x01 : Nat) : Int) else toU8 (((if b0 = true then toU8 ((toU8 ((0 <<< 1 : Nat) : Int) ||| 0x01 : Nat) : Int) else toU8 ((0 <<< 1 : Nat) : Int)) <<< 1 : Nat) : Int)) <<< 1 : Nat) : Int)) <<< 1 : Nat) : Int)) <<< 1 : Nat) : Int) ||| 0x01 : Nat) : Int) else toU8 (((if b3 = true then toU8 ((toU8 (((if b2 = true then toU8 ((toU8 (((if b1 = true then toU8 ((toU8 (((if b0 = true then toU8 ((toU8 ((0 <<< 1 : Nat) : Int) ||| 0x01 : Nat) : Int) else toU8 ((0 <<< 1 : Nat) : Int)) <<< 1 : Nat) : Int) ||| 0x01 : Nat) : Int) else toU8 (((if b0 = true then toU8 ((toU8 ((0 <<< 1 : Nat) : Int) ||| 0x01 : Nat) : Int) else toU8 ((0 <<< 1 : Nat) : Int)) <<< 1 : Nat) : Int)) <<< 1 : Nat) : Int) ||| 0x01 : Nat) : Int) else toU8 (((if b1 = true then toU8 ((toU8 (((if b0 = true then toU8 ((toU8 ((0 <<< 1 : Nat) : Int) ||| 0x01 : Nat) : Int) else toU8 ((0 <<< 1 : Nat) : Int)) <<< 1 : Nat) : Int) ||| 0x01 : Nat) : Int) else toU8 (((if b0 = true then toU8 ((toU8 ((0 <<< 1 : Nat) : Int) ||| 0x01 : Nat) : Int) else toU8 ((0 <<< 1 : Nat) : Int)) <<< 1 : Nat) : Int)) <<< 1 : Nat) : Int)) <<< 1 : Nat) : Int) ||| 0x01 : Nat) : Int) else toU8 (((if b2 = true then toU8 ((toU8 (((if b1 = true then toU8 ((toU8 (((if b0 = true then toU8 ((toU8 ((0 <<< 1 : Nat) : Int) ||| 0x01 : Nat) : Int) else toU8 ((0 <<< 1 : Nat) : Int)) <<< 1 : Nat) : Int) ||| 0x01 : Nat) : Int) else toU8 (((if b0 = true then toU8 ((toU8 ((0 <<< 1 : Nat) : Int) ||| 0x01 : Nat) : Int) else toU8 ((0 <<< 1 : Nat) : Int)) <<< 1 : Nat) : Int)) <<< 1 : Nat) : Int) ||| 0x01 : Nat) : Int) else toU8 (((if b1 = true then toU8 ((toU8 (((if b0 = true then toU8 ((toU8 ((0 <<< 1 : Nat) : Int) ||| 0x01 : Nat) : Int) else toU8 ((0 <<< 1 : Nat) : Int)) <<< 1 : Nat) : Int) ||| 0x01 : Nat) : Int) else toU8 (((if b0 = true then toU8 ((toU8 ((0 <<< 1 : Nat) : Int) ||| 0x01 : Nat) : Int) else toU8 ((0 <<< 1 : Nat) : Int)) <<< 1 : Nat) : Int)) <<< 1 : Nat) : Int)) <<< 1 : Nat) : Int)) <<< 1 : Nat) : Int)) <<< 1 : Nat) : Int)) <<< 1 : Nat) : Int) ||| 0x01 : Nat) : Int) else toU8 (((if b5 = true then toU8 ((toU8 (((if b4 = true then toU8 ((toU8 (((if b3 = true then toU8 ((toU8 (((if b2 = true then toU8 ((toU8 (((if b1 = true then toU8 ((toU8 (((if b0 = true then toU8 ((toU8 ((0 <<< 1 : Nat) : Int) ||| 0x01 : Nat) : Int) else toU8 ((0 <<< 1 : Nat) : Int)) <<< 1 : Nat) : Int) ||| 0x01 : Nat) : Int) else toU8 (((if b0 = true then toU8 ((toU8 ((0 <<< 1 : Nat) : Int) ||| 0x01 : Nat) : Int) else toU8 ((0 <<< 1 : Nat) : Int)) <<< 1 : Nat) : Int)) <<< 1 : Nat) : Int) ||| 0x01 : Nat) : Int) else toU8 (((if b1 = true then toU8 ((toU8 (((if b0 = true then toU8 ((toU8 ((0 <<< 1 : Nat) : Int) ||| 0x01 : Nat) : Int) else toU8 ((0 <<< 1 : Nat) : Int)) <<< 1 : Nat) : Int) ||| 0x01 : Nat) : Int) else toU8 (((if b0 = true then toU8 ((toU8 ((0 <<< 1 : Nat) : Int) ||| 0x01 : Nat) : Int) else toU8 ((0 <<< 1 : Nat) : Int)) <<< 1 : Nat) : Int)) <<< 1 : Nat) : Int)) <<< 1 : Nat) : Int) ||| 0x01 : Nat) : Int) else toU8 (((if b2 = true then toU8 ((toU8 (((if b1 = true then toU8 ((toU8 (((if b0 = true then toU8 ((toU8 ((0 <<< 1 : Nat) : Int) ||| 0x01 : Nat) : Int) else toU8 ((0 <<< 1 : Nat) : Int)) <<< 1 : Nat) : Int) ||| 0x01 : Nat) : Int) else toU8 (((if b0 = true then toU8 ((toU8 ((0 <<< 1 : Nat) : Int) ||| 0x01 : Nat) : Int) else toU8 ((0 <<< 1 : Nat) : Int)) <<< 1 : Nat) : Int)) <<< 1 : Nat) : Int) ||| 0x01 : Nat) : Int) else toU8 (((if b1 = true then toU8 ((toU8 (((if b0 = true then toU8 ((toU8 ((0 <<< 1 : Nat) : Int) ||| 0x01 : Nat) : Int) else toU8 ((0 <<< 1 : Nat) : Int)) <<< 1 : Nat) : Int) ||| 0x01 : Nat) : Int) else toU8 (((if b0 = true then toU8 ((toU8 ((0 <<< 1 : Nat) : Int) ||| 0x01 : Nat) : Int) else toU8 ((0 <<< 1 : Nat) : Int)) <<< 1 : Nat) : Int)) <<< 1 : Nat) : Int)) <<< 1 : Nat) : Int)) <<< 1 : Nat) : Int) ||| 0x01 : Nat) : Int) else toU8 (((if b3 = true then toU8 ((toU8 (((if b2 = true then toU8 ((toU8 (((if b1 = true then toU8 ((toU8 (((if b0 = true then toU8 ((toU8 ((0 <<< 1 : Nat) : Int) ||| 0x01 : Nat) : Int) else toU8 ((0 <<< 1 : Nat) : Int)) <<< 1 : Nat) : Int) ||| 0x01 : Nat) : Int) else toU8 (((if b0 = true then toU8 ((toU8 ((0 <<< 1 : Nat) : Int) ||| 0x01 : Nat) : Int) else toU8 ((0 <<< 1 : Nat) : Int)) <<< 1 : Nat) : Int)) <<< 1 : Nat) : Int) ||| 0x01 : Nat) : Int) else toU8 (((if b1 = true then toU8 ((toU8 (((if b0 = true then toU8 ((toU8 ((0 <<< 1 : Nat) : Int) ||| 0x01 : Nat) : Int) else toU8 ((0 <<< 1 : Nat) : Int)) <<< 1 : Nat) : Int) ||| 0x01 : Nat) : Int) else toU8 (((if b0 = true then toU8 ((toU8 ((0 <<< 1 : Nat) : Int) ||| 0x01 : Nat) : Int) else toU8 ((0 <<< 1 : Nat) : Int)) <<< 1 : Nat) : Int)) <<< 1 : Nat) : Int)) <<< 1 : Nat) : Int) ||| 0x01 : Nat) : Int) else toU8 (((if b2 = true then toU8 ((toU8 (((if b1 = true then toU8 ((toU8 (((if b0 = true then toU8 ((toU8 ((0 <<< 1 : Nat) : Int) ||| 0x01 : Nat) : Int) else toU8 ((0 <<< 1 : Nat) : Int)) <<< 1 : Nat) : Int) ||| 0x01 : Nat) : Int) else toU8 (((if b0 = true then toU8 ((toU8 ((0 <<< 1 : Nat) : Int) ||| 0x01 : Nat) : Int) else toU8 ((0 <<< 1 : Nat) : Int)) <<< 1 : Nat) : Int)) <<< 1 : Nat) : Int) ||| 0x01 : Nat) : Int) else toU8 (((if b1 = true then toU8 ((toU8 (((if b0 = true then toU8 ((toU8 ((0 <<< 1 : Nat) : Int) ||| 0x01 : Nat) : Int) else toU8 ((0 <<< 1 : Nat) : Int)) <<< 1 : Nat) : Int) ||| 0x01 : Nat) : Int) else toU8 (((if b0 = true then toU8 ((toU8 ((0 <<< 1 : Nat) : Int) ||| 0x01 : Nat) : Int) else toU8 ((0 <<< 1 : Nat) : Int)) <<< 1 : Nat) : Int)) <<< 1 : Nat) : Int)) <<< 1 : Nat) : Int)) <<< 1 : Nat) : Int)) <<< 1 : Nat) : Int) ||| 0x01 : Nat) : Int) else toU8 (((if b4 = true then toU8 ((toU8 (((if b3 = true then toU8 ((toU8 (((if b2 = true then toU8 ((toU8 (((if b1 = true then toU8 ((toU8 (((if b0 = true then toU8 ((toU8 ((0 <<< 1 : Nat) : Int) ||| 0x01 : Nat) : Int) else toU8 ((0 <<< 1 : Nat) : Int)) <<< 1 : Nat) : Int) ||| 0x01 : Nat) : Int) else toU8 (((if b0 = true then toU8 ((toU8 ((0 <<< 1 : Nat) : Int) ||| 0x01 : Nat) : Int) else toU8 ((0 <<< 1 : Nat) : Int)) <<< 1 : Nat) : Int)) <<< 1 : Nat) : Int) ||| 0x01 : Nat) : Int) else toU8 (((if b1 = true then toU8 ((toU8 (((if b0 = true then toU8 ((toU8 ((0 <<< 1 : Nat) : Int) ||| 0x01 : Nat) : Int) else toU8 ((0 <<< 1 : Nat) : Int)) <<< 1 : Nat) : Int) ||| 0x01 : Nat) : Int) else toU8 (((if b0 = true then toU8 ((toU8 ((0 <<< 1 : Nat) : Int) ||| 0x01 : Nat) : Int) else toU8 ((0 <<< 1 : Nat) : Int)) <<< 1 : Nat) : Int)) <<< 1 : Nat) : Int)) <<< 1 : Nat) : Int) ||| 0x01 : Nat) : Int) else toU8 (((if b2 = true then toU8 ((toU8 (((if b1 = true then toU8 ((toU8 (((if b0 = true then toU8 ((toU8 ((0 <<< 1 : Nat) : Int) ||| 0x01 : Nat) : Int) else toU8 ((0 <<< 1 : Nat) : Int)) <<< 1 : Nat) : Int) ||| 0x01 : Nat) : Int) else toU8 (((if b0 = true then toU8 ((toU8 ((0 <<< 1 : Nat) : Int) ||| 0x01 : Nat) : Int) else toU8 ((0 <<< 1 : Nat) : Int)) <<< 1 : Nat) : Int)) <<< 1 : Nat) : Int) ||| 0x01 : Nat) : Int) else toU8 (((if b1 = true then toU8 ((toU8 (((if b0 = true then toU8 ((toU8 ((0 <<< 1 : Nat) : Int) ||| 0x01 : Nat) : Int) else toU8 ((0 <<< 1 : Nat) : Int)) <<< 1 : Nat) : Int) ||| 0x01 : Nat) : Int) else toU8 (((if b0 = true then toU8 ((toU8 ((0 <<< 1 : Nat) : Int) ||| 0x01 : Nat) : Int) else toU8 ((0 <<< 1 : Nat) : Int)) <<< 1 : Nat) : Int)) <<< 1 : Nat) : Int)) <<< 1 : Nat) : Int)) <<< 1 : Nat) : Int) ||| 0x01 : Nat) : Int) else toU8 (((if b3 = true then toU8 ((toU8 (((if b2 = true then toU8 ((toU8 (((if b1 = true then toU8 ((toU8 (((if b0 = true then toU8 ((toU8 ((0 <<< 1 : Nat) : Int) ||| 0x01 : Nat) : Int) else toU8 ((0 <<< 1 : Nat) : Int)) <<< 1 : Nat) : Int) ||| 0x01 : Nat) : Int) else toU8 (((if b0 = true then toU8 ((toU8 ((0 <<< 1 : Nat) : Int) ||| 0x01 : Nat) : Int) else toU8 ((0 <<< 1 : Nat) : Int)) <<< 1 : Nat) : Int)) <<< 1 : Nat) : Int) ||| 0x01 : Nat) : Int) else toU8 (((if b1 = true then toU8 ((toU8 (((if b0 = true then toU8 ((toU8 ((0 <<< 1 : Nat) : Int) ||| 0x01 : Nat) : Int) else toU8 ((0 <<< 1 : Nat) : Int)) <<< 1 : Nat) : Int) ||| 0x01 : Nat) : Int) else toU8 (((if b0 = true then toU8 ((toU8 ((0 <<< 1 : Nat) : Int) ||| 0x01 : Nat) : Int) else toU8 ((0 <<< 1 : Nat) : Int)) <<< 1 : Nat) : Int)) <<< 1 : Nat) : Int)) <<< 1 : Nat) : Int) ||| 0x01 : Nat) : Int) else toU8 (((if b2 = true then toU8 ((toU8 (((if b1 = true then toU8 ((toU8 (((if b0 = true then toU8 ((toU8 ((0 <<< 1 : Nat) : Int) ||| 0x01 : Nat) : Int) else toU8 ((0 <<< 1 : Nat) : Int)) <<< 1 : Nat) : Int) ||| 0x01 : Nat) : Int) else toU8 (((if b0 = true then toU8 ((toU8 ((0 <<< 1 : Nat) : Int) ||| 0x01 : Nat) : Int) else toU8 ((0 <<< 1 : Nat) : Int)) <<< 1 : Nat) : Int)) <<< 1 : Nat) : Int) ||| 0x01 : Nat) : Int) else toU8 (((if b1 = true then toU8 ((toU8 (((if b0 = true then toU8 ((toU8 ((0 <<< 1 : Nat) : Int) ||| 0x01 : Nat) : Int) else toU8 ((0 <<< 1 : Nat) : Int)) <<< 1 : Nat) : Int) ||| 0x01 : Nat) : Int) else toU8 (((if b0 = true then toU8 ((toU8 ((0 <<< 1 : Nat) : Int) ||| 0x01 : Nat) : Int) else toU8 ((0 <<< 1 : Nat) : Int)) <<< 1 : Nat) : Int)) <<< 1 : Nat) : Int)) <<< 1 : Nat) : Int)) <<< 1 : Nat) : Int)) <<< 1 : Nat) : Int)) <<< 1 : Nat) : Int)) <<< 1 : Nat) : Int) ||| 0x01 : Nat) : Int) else toU8 (((if b6 = true then toU8 ((toU8 (((if b5 = true then toU8 ((toU8 (((if b4 = true then toU8 ((toU8 (((if b3 = true then toU8 ((toU8 (((if b2 = true then toU8 ((toU8 (((if b1 = true then toU8 ((toU8 (((if b0 = true then toU8 ((toU8 ((0 <<< 1 : Nat) : Int) ||| 0x01 : Nat) : Int) else toU8 ((0 <<< 1 : Nat) : Int)) <<< 1 : Nat) : Int) ||| 0x01 : Nat) : Int) else toU8 (((if b0 = true then toU8 ((toU8 ((0 <<< 1 : Nat) : Int) ||| 0x01 : Nat) : Int) else toU8 ((0 <<< 1 : Nat) : Int)) <<< 1 : Nat) : Int)) <<< 1 : Nat) : Int) ||| 0x01 : Nat) : Int) else toU8 (((if b1 = true then toU8 ((toU8 (((if b0 = true then toU8 ((toU8 ((0 <<< 1 : Nat) : Int) ||| 0x01 : Nat) : Int) else toU8 ((0 <<< 1 : Nat) : Int)) <<< 1 : Nat) : Int) ||| 0x01 : Nat) : Int) else toU8 (((if b0 = true then toU8 ((toU8 ((0 <<< 1 : Nat) : Int) ||| 0x01 : Nat) : Int) else toU8 ((0 <<< 1 : Nat) : Int)) <<< 1 : Nat) : Int)) <<< 1 : Nat) : Int)) <<< 1 : Nat) : Int) ||| 0x01 : Nat) : Int) else toU8 (((if b2 = true then toU8 ((toU8 (((if b1 = true then toU8 ((toU8 (((if b0 = true then toU8 ((toU8 ((0 <<< 1 : Nat) : Int) ||| 0x01 : Nat) : Int) else toU8 ((0 <<< 1 : Nat) : Int)) <<< 1 : Nat) : Int) ||| 0x01 : Nat) : Int) else toU8 (((if b0 = true then toU8 ((toU8 ((0 <<< 1 : Nat) : Int) ||| 0x01 : Nat) : Int) else toU8 ((0 <<< 1 : Nat) : Int)) <<< 1 : Nat) : Int)) <<< 1 : Nat) : Int) ||| 0x01 : Nat) : Int) else toU8 (((if b1 = true then toU8 ((toU8 (((if b0 = true then toU8 ((toU8 ((0 <<< 1 : Nat) : Int) ||| 0x01 : Nat) : Int) else toU8 ((0 <<< 1 : Nat) : Int)) <<< 1 : Nat) : Int) ||| 0x01 : Nat) : Int) else toU8 (((if b0 = true then toU8 ((toU8 ((0 <<< 1 : Nat) : Int) ||| 0x01 : Nat) : Int) else toU8 ((0 <<< 1 : Nat) : Int)) <<< 1 : Nat) : Int)) <<< 1 : Nat) : Int)) <<< 1 : Nat) : Int)) <<< 1 : Nat) : Int) ||| 0x01 : Nat) : Int) else toU8 (((if b3 = true then toU8 ((toU8 (((if b2 = true then toU8 ((toU8 (((if b1 = true then toU8 ((toU8 (((if b0 = true then toU8 ((toU8 ((0 <<< 1 : Nat) : Int) ||| 0x01 : Nat) : Int) else toU8 ((0 <<< 1 : Nat) : Int)) <<< 1 : Nat) : Int) ||| 0x01 : Nat) : Int) else toU8 (((if b0 = true then toU8 ((toU8 ((0 <<< 1 : Nat) : Int) ||| 0x01 : Nat) : Int) else toU8 ((0 <<< 1 : Nat) : Int)) <<< 1 : Nat) : Int)) <<< 1 : Nat) : Int) ||| 0x01 : Nat) : Int) else toU8 (((if b1 = true then toU8 ((toU8 (((if b0 = true then toU8 ((toU8 ((0 <<< 1 : Nat) : Int) ||| 0x01 : Nat) : Int) else toU8 ((0 <<< 1 : Nat) : Int)) <<< 1 : Nat) : Int) ||| 0x01 : Nat) : Int) else toU8 (((if b0 = true then toU8 ((toU8 ((0 <<< 1 : Nat) : Int) ||| 0x01 : Nat) : Int) else toU8 ((0 <<< 1 : Nat) : Int)) <<< 1 : Nat) : Int)) <<< 1 : Nat) : Int)) <<< 1 : Nat) : Int) ||| 0x01 : Nat) : Int) else toU8 (((if b2 = true then toU8 ((toU8 (((if b1 = true then toU8 ((toU8 (((if b0 = true then toU8 ((toU8 ((0 <<< 1 : Nat) : Int) ||| 0x01 : Nat) : Int) else toU8 ((0 <<< 1 : Nat) : Int)) <<< 1 : Nat) : Int) ||| 0x01 : Nat) : Int) else toU8 (((if b0 = true then toU8 ((toU8 ((0 <<< 1 : Nat) : Int) ||| 0x01 : Nat) : Int) else toU8 ((0 <<< 1 : Nat) : Int)) <<< 1 : Nat) : Int)) <<< 1 : Nat) : Int) ||| 0x01 : Nat) : Int) else toU8 (((if b1 = true then toU8 ((toU8 (((if b0 = true then toU8 ((toU8 ((0 <<< 1 : Nat) : Int) ||| 0x01 : Nat) : Int) else toU8 ((0 <<< 1 : Nat) : Int)) <<< 1 : Nat) : Int) ||| 0x01 : Nat) : Int) else toU8 (((if b0 = true then toU8 ((toU8 ((0 <<< 1 : Nat) : Int) ||| 0x01 : Nat) : Int) else toU8 ((0 <<< 1 : Nat) : Int)) <<< 1 : Nat) : Int)) <<< 1 : Nat) : Int)) <<< 1 : Nat) : Int)) <<< 1 : Nat) : Int)) <<< 1 : Nat) : Int) ||| 0x01 : Nat) : Int) else toU8 (((if b4 = true then toU8 ((toU8 (((if b3 = true then toU8 ((toU8 (((if b2 = true then toU8 ((toU8 (((if b1 = true then toU8 ((toU8 (((if b0 = true then toU8 ((toU8 ((0 <<< 1 : Nat) : Int) ||| 0x01 : Nat) : Int) else toU8 ((0 <<< 1 : Nat) : Int)) <<< 1 : Nat) : Int) ||| 0x01 : Nat) : Int) else toU8 (((if b0 = true then toU8 ((toU8 ((0 <<< 1 : Nat) : Int) ||| 0x01 : Nat) : Int) else toU8 ((0 <<< 1 : Nat) : Int)) <<< 1 : Nat) : Int)) <<< 1 : Nat) : Int) ||| 0x01 : Nat) : Int) else toU8 (((if b1 = true then toU8 ((toU8 (((if b0 = true then toU8 ((toU8 ((0 <<< 1 : Nat) : Int) ||| 0x01 : Nat) : Int) else toU8 ((0 <<< 1 : Nat) : Int)) <<< 1 : Nat) : Int) ||| 0x01 : Nat) : Int) else toU8 (((if b0 = true then toU8 ((toU8 ((0 <<< 1 : Nat) : Int) ||| 0x01 : Nat) : Int) else toU8 ((0 <<< 1 : Nat) : Int)) <<< 1 : Nat) : Int)) <<< 1 : Nat) : Int)) <<< 1 : Nat) : Int) ||| 0x01 : Nat) : Int) else toU8 (((if b2 = true then toU8 ((toU8 (((if b1 = true then toU8 ((toU8 (((if b0 = true then toU8 ((toU8 ((0 <<< 1 : Nat) : Int) ||| 0x01 : Nat) : Int) else toU8 ((0 <<< 1 : Nat) : Int)) <<< 1 : Nat) : Int) ||| 0x01 : Nat) : Int) else toU8 (((if b0 = true then toU8 ((toU8 ((0 <<< 1 : Nat) : Int) ||| 0x01 : Nat) : Int) else toU8 ((0 <<< 1 : Nat) : Int)) <<< 1 : Nat) : Int)) <<< 1 : Nat) : Int) ||| 0x01 : Nat) : Int) else toU8 (((if b1 = true then toU8 ((toU8 (((if b0 = true then toU8 ((toU8 ((0 <<< 1 : Nat) : Int) ||| 0x01 : Nat) : Int) else toU8 ((0 <<< 1 : Nat) : Int)) <<< 1 : Nat) : Int) ||| 0x01 : Nat) : Int) else toU8 (((if b0 = true then toU8 ((toU8 ((0 <<< 1 : Nat) : Int) ||| 0x01 : Nat) : Int) else toU8 ((0 <<< 1 : Nat) : Int)) <<< 1 : Nat) : Int)) <<< 1 : Nat) : Int)) <<< 1 : Nat) : Int)) <<< 1 : Nat) : Int) ||| 0x01 : Nat) : Int) else toU8 (((if b3 = true then toU8 ((toU8 (((if b2 = true then toU8 ((toU8 (((if b1 = true then toU8 ((toU8 (((if b0 = true then toU8 ((toU8 ((0 <<< 1 : Nat) : Int) ||| 0x01 : Nat) : Int) else toU8 ((0 <<< 1 : Nat) : Int)) <<< 1 : Nat) : Int) ||| 0x01 : Nat) : Int) else toU8 (((if b0 = true then toU8 ((toU8 ((0 <<< 1 : Nat) : Int) ||| 0x01 : Nat) : Int) else toU8 ((0 <<< 1 : Nat) : Int)) <<< 1 : Nat) : Int)) <<< 1 : Nat) : Int) ||| 0x01 : Nat) : Int) else toU8 (((if b1 = true then toU8 ((toU8 (((if b0 = true then toU8 ((toU8 ((0 <<< 1 : Nat) : Int) ||| 0x01 : Nat) : Int) else toU8 ((0 <<< 1 : Nat) : Int)) <<< 1 : Nat) : Int) ||| 0x01 : Nat) : Int) else toU8 (((if b0 = true then toU8 ((toU8 ((0 <<< 1 : Nat) : Int) ||| 0x01 : Nat) : Int) else toU8 ((0 <<< 1 : Nat) : Int)) <<< 1 : Nat) : Int)) <<< 1 : Nat) : Int)) <<< 1 : Nat) : Int) ||| 0x01 : Nat) : Int) else toU8 (((if b2 = true then toU8 ((toU8 (((if b1 = true then toU8 ((toU8 (((if b0 = true then toU8 ((toU8 ((0 <<< 1 : Nat) : Int) ||| 0x01 : Nat) : Int) else toU8 ((0 <<< 1 : Nat) : Int)) <<< 1 : Nat) : Int) ||| 0x01 : Nat) : Int) else toU8 (((if b0 = true then toU8 ((toU8 ((0 <<< 1 : Nat) : Int) ||| 0x01 : Nat) : Int) else toU8 ((0 <<< 1 : Nat) : Int)) <<< 1 : Nat) : Int)) <<< 1 : Nat) : Int) ||| 0x01 : Nat) : Int) else toU8 (((if b1 = true then toU8 ((toU8 (((if b0 = true then toU8 ((toU8 ((0 <<< 1 : Nat) : Int) ||| 0x01 : Nat) : Int) else toU8 ((0 <<< 1 : Nat) : Int)) <<< 1 : Nat) : Int) ||| 0x01 : Nat) : Int) else toU8 (((if b0 = true then toU8 ((toU8 ((0 <<< 1 : Nat) : Int) ||| 0x01 : Nat) : Int) else toU8 ((0 <<< 1 : Nat) : Int)) <<< 1 : Nat) : Int)) <<< 1 : Nat) : Int)) <<< 1 : Nat) : Int)) <<< 1 : Nat) : Int)) <<< 1 : Nat) : Int)) <<< 1 : Nat) : Int) ||| 0x01 : Nat) : Int) else toU8 (((if b5 = true then toU8 ((toU8 (((if b4 = true then toU8 ((toU8 (((if b3 = true then toU8 ((toU8 (((if b2 = true then toU8 ((toU8 (((if b1 = true then toU8 ((toU8 (((if b0 = true then toU8 ((toU8 ((0 <<< 1 : Nat) : Int) ||| 0x01 : Nat) : Int) else toU8 ((0 <<< 1 : Nat) : Int)) <<< 1 : Nat) : Int) ||| 0x01 : Nat) : Int) else toU8 (((if b0 = true then toU8 ((toU8 ((0 <<< 1 : Nat) : Int) ||| 0x01 : Nat) : Int) else toU8 ((0 <<< 1 : Nat) : Int)) <<< 1 : Nat) : Int)) <<< 1 : Nat) : Int) ||| 0x01 : Nat) : Int) else toU8 (((if b1 = true then toU8 ((toU8 (((if b0 = true then toU8 ((toU8 ((0 <<< 1 : Nat) : Int) ||| 0x01 : Nat) : Int) else toU8 ((0 <<< 1 : Nat) : Int)) <<< 1 : Nat) : Int) ||| 0x01 : Nat) : Int) else toU8 (((if b0 = true then toU8 ((toU8 ((0 <<< 1 : Nat) : Int) ||| 0x01 : Nat) : Int) else toU8 ((0 <<< 1 : Nat) : Int)) <<< 1 : Nat) : Int)) <<< 1 : Nat) : Int)) <<< 1 : Nat) : Int) ||| 0x01 : Nat) : Int) else toU8 (((if b2 = true then toU8 ((toU8 (((if b1 = true then toU8 ((toU8 (((if b0 = true then toU8 ((toU8 ((0 <<< 1 : Nat) : Int) ||| 0x01 : Nat) : Int) else toU8 ((0 <<< 1 : Nat) : Int)) <<< 1 : Nat) : Int) ||| 0x01 : Nat) : Int) else toU8 (((if b0 = true then toU8 ((toU8 ((0 <<< 1 : Nat) : Int) ||| 0x01 : Nat) : Int) else toU8 ((0 <<< 1 : Nat) : Int)) <<< 1 : Nat) : Int)) <<< 1 : Nat) : Int) ||| 0x01 : Nat) : Int) else toU8 (((if b1 = true then toU8 ((toU8 (((if b0 = true then toU8 ((toU8 ((0 <<< 1 : Nat) : Int) ||| 0x01 : Nat) : Int) else toU8 ((0 <<< 1 : Nat) : Int)) <<< 1 : Nat) : Int) ||| 0x01 : Nat) : Int) else toU8 (((if b0 = true then toU8 ((toU8 ((0 <<< 1 : Nat) : Int) ||| 0x01 : Nat) : Int) else toU8 ((0 <<< 1 : Nat) : Int)) <<< 1 : Nat) : Int)) <<< 1 : Nat) : Int)) <<< 1 : Nat) : Int)) <<< 1 : Nat) : Int) ||| 0x01 : Nat) : Int) else toU8 (((if b3 = true then toU8 ((toU8 (((if b2 = true then toU8 ((toU8 (((if b1 = true then toU8 ((toU8 (((if b0 = true then toU8 ((toU8 ((0 <<< 1 : Nat) : Int) ||| 0x01 : Nat) : Int) else toU8 ((0 <<< 1 : Nat) : Int)) <<< 1 : Nat) : Int) ||| 0x01 : Nat) : Int) else toU8 (((if b0 = true then toU8 ((toU8 ((0 <<< 1 : Nat) : Int) ||| 0x01 : Nat) : Int) else toU8 ((0 <<< 1 : Nat) : Int)) <<< 1 : Nat) : Int)) <<< 1 : Nat) : Int) ||| 0x01 : Nat) : Int) else toU8 (((if b1 = true then toU8 ((toU8 (((if b0 = true then toU8 ((toU8 ((0 <<< 1 : Nat) : Int) ||| 0x01 : Nat) : Int) else toU8 ((0 <<< 1 : Nat) : Int)) <<< 1 : Nat) : Int) ||| 0x01 : Nat) : Int) else toU8 (((if b0 = true then toU8 ((toU8 ((0 <<< 1 : Nat) : Int) ||| 0x01 : Nat) : Int) else toU8 ((0 <<< 1 : Nat) : Int)) <<< 1 : Nat) : Int)) <<< 1 : Nat) : Int)) <<< 1 : Nat) : Int) ||| 0x01 : Nat) : Int) else toU8 (((if b2 = true then toU8 ((toU8 (((if b1 = true then toU8 ((toU8 (((if b0 = true then toU8 ((toU8 ((0 <<< 1 : Nat) : Int) ||| 0x01 : Nat) : Int) else toU8 ((0 <<< 1 : Nat) : Int)) <<< 1 : Nat) : Int) ||| 0x01 : Nat) : Int) else toU8 (((if b0 = true then toU8 ((toU8 ((0 <<< 1 : Nat) : Int) ||| 0x01 : Nat) : Int) else toU8 ((0 <<< 1 : Nat) : Int)) <<< 1 : Nat) : Int)) <<< 1 : Nat) : Int) ||| 0x01 : Nat) : Int) else toU8 (((if b1 = true then toU8 ((toU8 (((if b0 = true then toU8 ((toU8 ((0 <<< 1 : Nat) : Int) ||| 0x01 : Nat) : Int) else toU8 ((0 <<< 1 : Nat) : Int)) <<< 1 : Nat) : Int) ||| 0x01 : Nat) : Int) else toU8 (((if b0 = true then toU8 ((toU8 ((0 <<< 1 : Nat) : Int) ||| 0x01 : Nat) : Int) else toU8 ((0 <<< 1 : Nat) : Int)) <<< 1 : Nat) : Int)) <<< 1 : Nat) : Int)) <<< 1 : Nat) : Int)) <<< 1 : Nat) : Int)) <<< 1 : Nat) : Int) ||| 0x01 : Nat) : Int) else toU8 (((if b4 = true then toU8 ((toU8 (((if b3 = true then toU8 ((toU8 (((if b2 = true then toU8 ((toU8 (((if b1 = true then toU8 ((toU8 (((if b0 = true then toU8 ((toU8 ((0 <<< 1 : Nat) : Int) ||| 0x01 : Nat) : Int) else toU8 ((0 <<< 1 : Nat) : Int)) <<< 1 : Nat) : Int) ||| 0x01 : Nat) : Int) else toU8 (((if b0 = true then toU8 ((toU8 ((0 <<< 1 : Nat) : Int) ||| 0x01 : Nat) : Int) else toU8 ((0 <<< 1 : Nat) : Int)) <<< 1 : Nat) : Int)) <<< 1 : Nat) : Int) ||| 0x01 : Nat) : Int) else toU8 (((if b1 = true then toU8 ((toU8 (((if b0 = true then toU8 ((toU8 ((0 <<< 1 : Nat) : Int) ||| 0x01 : Nat) : Int) else toU8 ((0 <<< 1 : Nat) : Int)) <<< 1 : Nat) : Int) ||| 0x01 : Nat) : Int) else toU8 (((if b0 = true then toU8 ((toU8 ((0 <<< 1 : Nat) : Int) ||| 0x01 : Nat) : Int) else toU8 ((0 <<< 1 : Nat) : Int)) <<< 1 : Nat) : Int)) <<< 1 : Nat) : Int)) <<< 1 : Nat) : Int) ||| 0x01 : Nat) : Int) else toU8 (((if b2 = true then toU8 ((toU8 (((if b1 = true then toU8 ((toU8 (((if b0 = true then toU8 ((toU8 ((0 <<< 1 : Nat) : Int) ||| 0x01 : Nat) : Int) else toU8 ((0 <<< 1 : Nat) : Int)) <<< 1 : Nat) : Int) ||| 0x01 : Nat) : Int) else toU8 (((if b0 = true then toU8 ((toU8 ((0 <<< 1 : Nat) : Int) ||| 0x01 : Nat) : Int) else toU8 ((0 <<< 1 : Nat) : Int)) <<< 1 : Nat) : Int)) <<< 1 : Nat) : Int) ||| 0x01 : Nat) : Int) else toU8 (((if b1 = true then toU8 ((toU8 (((if b0 = true then toU8 ((toU8 ((0 <<< 1 : Nat) : Int) ||| 0x01 : Nat) : Int) else toU8 ((0 <<< 1 : Nat) : Int)) <<< 1 : Nat) : Int) ||| 0x01 : Nat) : Int) else toU8 (((if b0 = true then toU8 ((toU8 ((0 <<< 1 : Nat) : Int) ||| 0x01 : Nat) : Int) else toU8 ((0 <<< 1 : Nat) : Int)) <<< 1 : Nat) : Int)) <<< 1 : Nat) : Int)) <<< 1 : Nat) : Int)) <<< 1 : Nat) : Int) ||| 0x01 : Nat) : Int) else toU8 (((if b3 = true then toU8 ((toU8 (((if b2 = true then toU8 ((toU8 (((if b1 = true then toU8 ((toU8 (((if b0 = true then toU8 ((toU8 ((0 <<< 1 : Nat) : Int) ||| 0x01 : Nat) : Int) else toU8 ((0 <<< 1 : Nat) : Int)) <<< 1 : Nat) : Int) ||| 0x01 : Nat) : Int) else toU8 (((if b0 = true then toU8 ((toU8 ((0 <<< 1 : Nat) : Int) ||| 0x01 : Nat) : Int) else toU8 ((0 <<< 1 : Nat) : Int)) <<< 1 : Nat) : Int)) <<< 1 : Nat) : Int) ||| 0x01 : Nat) : Int) else toU8 (((if b1 = true then toU8 ((toU8 (((if b0 = true then toU8 ((toU8 ((0 <<< 1 : Nat) : Int) ||| 0x01 : Nat) : Int) else toU8 ((0 <<< 1 : Nat) : Int)) <<< 1 : Nat) : Int) ||| 0x01 : Nat) : Int) else toU8 (((if b0 = true then toU8 ((toU8 ((0 <<< 1 : Nat) : Int) ||| 0x01 : Nat) : Int) else toU8 ((0 <<< 1 : Nat) : Int)) <<< 1 : Nat) : Int)) <<< 1 : Nat) : Int)) <<< 1 : Nat) : Int) ||| 0x01 : Nat) : Int) else toU8 (((if b2 = true then toU8 ((toU8 (((if b1 = true then toU8 ((toU8 (((if b0 = true then toU8 ((toU8 ((0 <<< 1 : Nat) : Int) ||| 0x01 : Nat) : Int) else toU8 ((0 <<< 1 : Nat) : Int)) <<< 1 : Nat) : Int) ||| 0x01 : Nat) : Int) else toU8 (((if b0 = true then toU8 ((toU8 ((0 <<< 1 : Nat) : Int) ||| 0x01 : Nat) : Int) else toU8 ((0 <<< 1 : Nat) : Int)) <<< 1 : Nat) : Int)) <<< 1 : Nat) : Int) ||| 0x01 : Nat) : Int) else toU8 (((if b1 = true then toU8 ((toU8 (((if b0 = true then toU8 ((toU8 ((0 <<< 1 : Nat) : Int) ||| 0x01 : Nat) : Int) else toU8 ((0 <<< 1 : Nat) : Int)) <<< 1 : Nat) : Int) ||| 0x01 : Nat) : Int) else toU8 (((if b0 = true then toU8 ((toU8 ((0 <<< 1 : Nat) : Int) ||| 0x01 : Nat) : Int) else toU8 ((0 <<< 1 : Nat) : Int)) <<< 1 : Nat) : Int)) <<< 1 : Nat) : Int)) <<< 1 : Nat) : Int)) <<< 1 : Nat) : Int)) <<< 1 : Nat) : Int)) <<< 1 : Nat) : Int)) <<< 1 : Nat) : Int))
      = 128 * bitVal b0 + 64 * bitVal b1 + 32 * bitVal b2 + 16 * bitVal b3 + 8 * bitVal b4 + 4 * bitVal b5 + 2 * bitVal b6 + 1 * bitVal b7 := by
  decide

/-- Closed form of the data loop of `I2C_ReadByte`. -/
theorem I2C_ReadByte_data_eq (s : Bus) :
    (List.range 8).foldl I2C_ReadByte_bit (0, s) =
      (128 * bitVal (s.line s.reads) + 64 * bitVal (s.line (s.reads + 1)) + 32 * bitVal (s.line (s.reads + 2)) + 16 * bitVal (s.line (s.reads + 3)) + 8 * bitVal (s.line (s.reads + 4)) + 4 * bitVal (s.line (s.reads + 5)) + 2 * bitVal (s.line (s.reads + 6)) + 1 * bitVal (s.line (s.reads + 7)),
       { s with
      scl := false, reads := s.reads + 8,
      trace := s.trace ++ [Ev.delay_us 2, Ev.scl true, Ev.sample (s.line s.reads), Ev.delay_us 5, Ev.scl false,
        Ev.delay_us 2, Ev.scl true, Ev.sample (s.line (s.reads + 1)), Ev.delay_us 5, Ev.scl false,
        Ev.delay_us 2, Ev.scl true, Ev.sample (s.line (s.reads + 2)), Ev.delay_us 5, Ev.scl false,
        Ev.delay_us 2, Ev.scl true, Ev.sample (s.line (s.reads + 3)), Ev.delay_us 5, Ev.scl false,
        Ev.delay_us 2, Ev.scl true, Ev.sample (s.line (s.reads + 4)), Ev.delay_us 5, Ev.scl false,
        Ev.delay_us 2, Ev.scl true, Ev.sample (s.line (s.reads + 5)), Ev.delay_us 5, Ev.scl false,
        Ev.delay_us 2, Ev.scl true, Ev.sample (s.line (s.reads + 6)), Ev.delay_us 5, Ev.scl false,
        Ev.delay_us 2, Ev.scl true, Ev.sample (s.line (s.reads + 7)), Ev.delay_us 5, Ev.scl false] }) := by
  have hr : List.range 8 = [0, 1, 2, 3, 4, 5, 6, 7] := by decide
  rw [hr]
  simp only [List.foldl, I2C_ReadByte_bit_eq, List.append_assoc, List.cons_append,
    List.nil_append, Nat.add_assoc, Nat.reduceAdd]
  rw [I2C_ReadByte_assembled]
  simp only [Nat.add_assoc]

/-! ## Acknowledgement wait -/

/-- An `unsigned char` counter from 1 to 255 decrements without wrapping. -/
theorem toU8_pred (t : Nat) (h1 : 1 ≤ t) (h2 : t < 256) : toU8 ((t : Int) - 1) = t - 1 := by
  unfold toU8; omega

/-- One step of the acknowledgement wait when the line reads low. -/
theorem ack_wait_low (fuel t : Nat) (s : Bus) (h : s.line s.reads = false) :
    ack_wait (fuel + 1) t s = (t, (read_SDA s).2) := by
  simp [ack_wait, read_SDA, h]

/-- One step of the acknowledgement wait when the line reads high and the
counter is at 1: the counter reaches 0 and the loop ends. -/
theorem ack_wait_high_last (fuel : Nat) (s : Bus) (h : s.line s.reads = true) :
    ack_wait (fuel + 1) 1 s = (0, (read_SDA s).2) := by
  simp [ack_wait, read_SDA, h, toU8]

/-- One step of the acknowledgement wait when the line reads high and the
counter is above 1: the loop goes on with the counter decremented. -/
theorem ack_wait_high_more (fuel t : Nat) (s : Bus) (h : s.line s.reads = true)
    (h1 : 2 ≤ t) (h2 : t < 256) :
    ack_wait (fuel + 1) t s = ack_wait fuel (t - 1) (read_SDA s).2 := by
  have e : toU8 ((t : Int) - 1) = t - 1 := toU8_pred t (by omega) h2
  have hne : (t - 1 != 0) = true := by simp; omega
  simp only [ack_wait, read_SDA, h, e, hne, if_true]

/-- The acknowledgement wait only samples: latches, fault flag and line are
as before, and no call is recorded. -/
theorem ack_wait_frame (fuel : Nat) : ∀ (t : Nat) (s : Bus),
    (ack_wait fuel t s).2.sda = s.sda ∧ (ack_wait fuel t s).2.scl = s.scl ∧
    (ack_wait fuel t s).2.i2c_error = s.i2c_error ∧ (ack_wait fuel t s).2.line = s.line ∧
    callsOf (ack_wait fuel t s).2.trace = callsOf s.trace := by
  induction fuel with
  | zero => intro t s; simp [ack_wait]
  | succ n ih =>
    intro t s
    simp only [ack_wait]
    split_ifs with h1 h2
    · have := ih (toU8 ((t : Int) - 1)) (read_SDA s).2
      simpa [read_SDA, callsOf_append, callsOf] using this
    · simp [read_SDA, callsOf_append, callsOf]
    · simp [read_SDA, callsOf_append, callsOf]

/-- Outcome of the acknowledgement wait entered with a counter `t` in 1..255
and enough fuel: between 1 and `t` polls are made, every poll but the last
reads high, the counter ends at 0 exactly when all `t` polls read high, and
otherwise the last poll read low. -/
theorem ack_wait_spec (fuel : Nat) : ∀ (t : Nat) (s : Bus), 1 ≤ t → t ≤ fuel → t < 256 →
    (s.reads < (ack_wait fuel t s).2.reads ∧ (ack_wait fuel t s).2.reads ≤ s.reads + t) ∧
    ((ack_wait fuel t s).1 = 0 ↔ ∀ k, k < t → s.line (s.reads + k) = true) ∧
    (∀ k, s.reads + k + 1 < (ack_wait fuel t s).2.reads → s.line (s.reads + k) = true) ∧
    ((ack_wait fuel t s).1 ≠ 0 → s.line ((ack_wait fuel t s).2.reads - 1) = false) ∧
    ((ack_wait fuel t s).1 = 0 → (ack_wait fuel t s).2.reads = s.reads + t) := by
  induction fuel with
  | zero => intro t s h1 h2 _; omega
  | succ n ih =>
    intro t s h1 h2 h3
    cases hl : s.line s.reads with
    | false =>
      rw [ack_wait_low n t s hl]
      refine ⟨⟨by simp [read_SDA], by simp [read_SDA]; omega⟩, ?_, ?_, ?_, ?_⟩
      · constructor
        · intro h0; simp at h0; omega
        · intro hall
          have := hall 0 h1
          simp [hl] at this
      · intro k hk; simp [read_SDA] at hk
      · intro _; simpa [read_SDA] using hl
      · intro h0; simp at h0; omega
    | true =>
      by_cases ht : t = 1
      · subst ht
        rw [ack_wait_high_last n s hl]
        refine ⟨⟨by simp [read_SDA], by simp [read_SDA]⟩, ?_, ?_, ?_, ?_⟩
        · constructor
          · intro _ k hk
            have : k = 0 := by omega
            subst this; simpa using hl
          · intro _; rfl
        · intro k hk; simp [read_SDA] at hk
        · intro h0; simp at h0
        · intro _; simp [read_SDA]
      · rw [ack_wait_high_more n t s hl (by omega) h3]
        have hrd : (read_SDA s).2.reads = s.reads + 1 := rfl
        have hln : (read_SDA s).2.line = s.line := rfl
        obtain ⟨⟨a1, a2⟩, b, c, d, e⟩ := ih (t - 1) (read_SDA s).2 (by omega) (by omega) (by omega)
        rw [hrd] at a1 a2 c e
        rw [hrd, hln] at b
        rw [hln] at c d
        refine ⟨⟨by omega, by omega⟩, ?_, ?_, ?_, ?_⟩
        · rw [b]
          constructor
          · intro hall k hk
            rcases Nat.eq_zero_or_pos k with h0 | hpos
            · subst h0; simpa using hl
            · have := hall (k - 1) (by omega)
              have e2 : s.reads + 1 + (k - 1) = s.reads + k := by omega
              rwa [e2] at this
          · intro hall k hk
            have := hall (k + 1) (by omega)
            have e2 : s.reads + (k + 1) = s.reads + 1 + k := by omega
            rwa [e2] at this
        · intro k hk
          rcases Nat.eq_zero_or_pos k with h0 | hpos
          · subst h0; simpa using hl
          · have := c (k - 1) (by omega)
            have e2 : s.reads + 1 + (k - 1) = s.reads + k := by omega
            rwa [e2] at this
        · exact d
        · intro h0; have := e h0; omega

/-- The model's fuel does not cut the acknowledgement wait: any fuel of at
least the counter value gives the same outcome. -/
theorem ack_wait_fuel (fuel : Nat) : ∀ (fuel2 t : Nat) (s : Bus), 1 ≤ t → t ≤ fuel →
    t ≤ fuel2 → t < 256 → ack_wait fuel t s = ack_wait fuel2 t s := by
  induction fuel with
  | zero => intro f2 t s h1 h2 _ _; omega
  | succ n ih =>
    intro f2 t s h1 h2 h3 h4
    obtain ⟨m, rfl⟩ : ∃ m, f2 = m + 1 := ⟨f2 - 1, by omega⟩
    cases hl : s.line s.reads with
    | false => rw [ack_wait_low n t s hl, ack_wait_low m t s hl]
    | true =>
      by_cases ht : t = 1
      · subst ht
        rw [ack_wait_high_last n s hl, ack_wait_high_last m s hl]
      · rw [ack_wait_high_more n t s hl (by omega) h4,
          ack_wait_high_more m t s hl (by omega) h4]
        exact ih m (t - 1) (read_SDA s).2 (by omega) (by omega) (by omega) (by omega)

/-! ## `I2C_WriteByte` -/

/-- Step 1 of `I2C_WriteByte` leaves the clock low and touches neither the
fault flag nor the line, nor does it sample or record a call. -/
theorem I2C_WriteByte_data_frame (dat : Nat) (s : Bus) :
    (I2C_WriteByte_data dat s).2.scl = false ∧
    (I2C_WriteByte_data dat s).2.i2c_error = s.i2c_error ∧
    (I2C_WriteByte_data dat s).2.line = s.line ∧
    (I2C_WriteByte_data dat s).2.reads = s.reads ∧
    callsOf (I2C_WriteByte_data dat s).2.trace = callsOf s.trace := by
  have hr : List.range 8 = [0, 1, 2, 3, 4, 5, 6, 7] := by decide
  unfold I2C_WriteByte_data
  rw [hr]
  simp only [List.foldl, I2C_WriteByte_bit_eq]
  simp [callsOf_append, callsOf]

/-- Meaning of `allHigh`. -/
theorem allHigh_iff (line : Nat → Bool) (r n : Nat) :
    allHigh line r n = true ↔ ∀ k, k < n → line (r + k) = true := by
  simp [allHigh, List.all_eq_true]

/-- Outcome of step 2 of `I2C_WriteByte`. -/
theorem I2C_WriteByte_ack_spec (s : Bus) :
    (I2C_WriteByte_ack s).2.sda = true ∧ (I2C_WriteByte_ack s).2.scl = false ∧
    (I2C_WriteByte_ack s).2.line = s.line ∧
    callsOf (I2C_WriteByte_ack s).2.trace = callsOf s.trace ∧
    (s.reads + 2 ≤ (I2C_WriteByte_ack s).2.reads ∧
      (I2C_WriteByte_ack s).2.reads ≤ s.reads + 201) ∧
    (I2C_WriteByte_ack s).2.i2c_error
      = (if allHigh s.line s.reads 200 then 1 else s.i2c_error) ∧
    (I2C_WriteByte_ack s).1 = s.line ((I2C_WriteByte_ack s).2.reads - 1) ∧
    (∀ k, s.reads + k + 2 < (I2C_WriteByte_ack s).2.reads → s.line (s.reads + k) = true) ∧
    (allHigh s.line s.reads 200 = false →
      s.line ((I2C_WriteByte_ack s).2.reads - 2) = false) := by
  have hT : I2C_TIMEOUT = 200 := rfl
  generalize hs1 : set_SCL true (delay_us 2 (set_SDA true s)) = s1
  have h1r : s1.reads = s.reads := by rw [← hs1]; rfl
  have h1l : s1.line = s.line := by rw [← hs1]; rfl
  have h1e : s1.i2c_error = s.i2c_error := by rw [← hs1]; rfl
  have h1s : s1.sda = true := by rw [← hs1]; rfl
  have h1c : callsOf s1.trace = callsOf s.trace := by
    rw [← hs1]; simp [set_SCL, delay_us, set_SDA, callsOf_append, callsOf]
  obtain ⟨fs, fc, fe, fl, ft⟩ := ack_wait_frame 256 200 s1
  obtain ⟨⟨a1, a2⟩, b, c, d, e⟩ := ack_wait_spec 256 200 s1 (by omega) (by omega) (by omega)
  rw [h1r] at a1 a2 c e
  rw [h1r, h1l] at b
  rw [h1l] at c d
  generalize hw : ack_wait 256 200 s1 = w at fs fc fe fl ft a1 a2 b c d e
  have hres : I2C_WriteByte_ack s
      = (w.2.line w.2.reads,
         if w.1 = 0 then { set_SCL false (delay_us 5 (read_SDA w.2).2) with i2c_error := 1 }
         else set_SCL false (delay_us 5 (read_SDA w.2).2)) := by
    unfold I2C_WriteByte_ack
    simp only [hs1, hT, hw]
    rfl
  rw [hres]
  by_cases h0 : w.1 = 0
  · have hall : allHigh s.line s.reads 200 = true := (allHigh_iff _ _ _).2 (b.1 h0)
    have hrd := e h0
    rw [if_pos h0]
    refine ⟨by simp [set_SCL, delay_us, read_SDA, fs, h1s], rfl,
      by simp [set_SCL, delay_us, read_SDA, fl, h1l], ?_, ?_, ?_, ?_, ?_, ?_⟩
    · simp [set_SCL, delay_us, read_SDA, callsOf_append, callsOf, ft, h1c]
    · simp [set_SCL, delay_us, read_SDA]; omega
    · rw [hall]; rfl
    · simp [set_SCL, delay_us, read_SDA, fl, h1l]
    · intro k hk
      simp [set_SCL, delay_us, read_SDA] at hk
      exact c k (by omega)
    · intro hn; rw [hall] at hn; exact absurd hn (by decide)
  · have hnall : allHigh s.line s.reads 200 = false := by
      cases hh : allHigh s.line s.reads 200 with
      | false => rfl
      | true => exact absurd (b.2 ((allHigh_iff _ _ _).1 hh)) h0
    have hlow := d h0
    rw [if_neg h0]
    refine ⟨by simp [set_SCL, delay_us, read_SDA, fs, h1s], rfl,
      by simp [set_SCL, delay_us, read_SDA, fl, h1l], ?_, ?_, ?_, ?_, ?_, ?_⟩
    · simp [set_SCL, delay_us, read_SDA, callsOf_append, callsOf, ft, h1c]
    · simp [set_SCL, delay_us, read_SDA]; omega
    · rw [hnall]; simp [set_SCL, delay_us, read_SDA, fe, h1e]
    · simp [set_SCL, delay_us, read_SDA, fl, h1l]
    · intro k hk
      simp [set_SCL, delay_us, read_SDA] at hk
      exact c k (by omega)
    · intro _
      simpa [set_SCL, delay_us, read_SDA] using hlow

/-- Outcome of `I2C_WriteByte(dat)`: the data latch is left released and the
clock low, the call samples `SDA` between 2 and 201 times (1 to 200 polls and
one sample for `ack`), all polls but the last read high, `i2c_error` becomes 1
exactly when all 200 polls read high and is otherwise left as it was, and the
returned bit is the last sample. -/
theorem I2C_WriteByte_spec (dat : Nat) (s : Bus) :
    (I2C_WriteByte dat s).2.sda = true ∧ (I2C_WriteByte dat s).2.scl = false ∧
    (I2C_WriteByte dat s).2.line = s.line ∧
    callsOf (I2C_WriteByte dat s).2.trace = callsOf s.trace ++ [Call.write dat] ∧
    (s.reads + 2 ≤ (I2C_WriteByte dat s).2.reads ∧
      (I2C_WriteByte dat s).2.reads ≤ s.reads + 201) ∧
    (I2C_WriteByte dat s).2.i2c_error
      = (if allHigh s.line s.reads 200 then 1 else s.i2c_error) ∧
    (I2C_WriteByte dat s).1 = s.line ((I2C_WriteByte dat s).2.reads - 1) ∧
    (∀ k, s.reads + k + 2 < (I2C_WriteByte dat s).2.reads → s.line (s.reads + k) = true) ∧
    (allHigh s.line s.reads 200 = false →
      s.line ((I2C_WriteByte dat s).2.reads - 2) = false) := by
  have hdef : I2C_WriteByte dat s
      = I2C_WriteByte_ack (I2C_WriteByte_data dat (enter (Call.write dat) s)).2 := rfl
  obtain ⟨_, de, dl, dr, dc⟩ := I2C_WriteByte_data_frame dat (enter (Call.write dat) s)
  have hc : callsOf (enter (Call.write dat) s).trace = callsOf s.trace ++ [Call.write dat] := by
    simp [enter, callsOf_append, callsOf]
  have he : (enter (Call.write dat) s).i2c_error = s.i2c_error := rfl
  have hl : (enter (Call.write dat) s).line = s.line := rfl
  have hr : (enter (Call.write dat) s).reads = s.reads := rfl
  rw [he] at de
  rw [hl] at dl
  rw [hr] at dr
  rw [hc] at dc
  generalize (I2C_WriteByte_data dat (enter (Call.write dat) s)).2 = d at hdef de dl dr dc
  rw [hdef]
  have h := I2C_WriteByte_ack_spec d
  rw [de, dl, dr, dc] at h
  exact h

/-- Closed form of `I2C_ReadByte(ack)`. -/
theorem I2C_ReadByte_eq (ack : Bool) (s : Bus) :
    I2C_ReadByte ack s = (byteAt s.line s.reads, { s with
      sda := true, scl := false, reads := s.reads + 8,
      trace := s.trace ++ [Ev.call (Call.read ack), Ev.sda true,
        Ev.delay_us 2, Ev.scl true, Ev.sample (s.line s.reads), Ev.delay_us 5, Ev.scl false,
        Ev.delay_us 2, Ev.scl true, Ev.sample (s.line (s.reads + 1)), Ev.delay_us 5, Ev.scl false,
        Ev.delay_us 2, Ev.scl true, Ev.sample (s.line (s.reads + 2)), Ev.delay_us 5, Ev.scl false,
        Ev.delay_us 2, Ev.scl true, Ev.sample (s.line (s.reads + 3)), Ev.delay_us 5, Ev.scl false,
        Ev.delay_us 2, Ev.scl true, Ev.sample (s.line (s.reads + 4)), Ev.delay_us 5, Ev.scl false,
        Ev.delay_us 2, Ev.scl true, Ev.sample (s.line (s.reads + 5)), Ev.delay_us 5, Ev.scl false,
        Ev.delay_us 2, Ev.scl true, Ev.sample (s.line (s.reads + 6)), Ev.delay_us 5, Ev.scl false,
        Ev.delay_us 2, Ev.scl true, Ev.sample (s.line (s.reads + 7)), Ev.delay_us 5, Ev.scl false,
        Ev.sda ack, Ev.delay_us 2, Ev.scl true, Ev.delay_us 5, Ev.scl false, Ev.sda true] }) := by
  unfold I2C_ReadByte
  simp only [I2C_ReadByte_data_eq]
  simp [byteAt, enter, set_SDA, set_SCL, delay_us]

/-- The samplings from `r` on, `n + 1` of them, are the `r`-th followed by `n` from `r + 1` on. -/
theorem samples_succ (line : Nat → Bool) (r n : Nat) :
    samples line r (n + 1) = Ev.sample (line r) :: samples line (r + 1) n := by
  simp only [samples, List.range_succ_eq_map, List.map_cons, List.map_map, Nat.add_zero]
  congr 1
  apply List.map_congr_left
  intro k _
  simp only [Function.comp, Nat.succ_eq_add_one]
  congr 2
  omega

/-- The samplings from `r` on, `n + 1` of them, are `n` of them followed by the `(r + n)`-th. -/
theorem samples_snoc (line : Nat → Bool) (r n : Nat) :
    samples line r (n + 1) = samples line r n ++ [Ev.sample (line (r + n))] := by
  simp [samples, List.range_succ]

/-- The acknowledgement wait records its polls and nothing else. -/
theorem ack_wait_trace (fuel : Nat) : ∀ (t : Nat) (s : Bus),
    s.reads ≤ (ack_wait fuel t s).2.reads ∧
    (ack_wait fuel t s).2.trace
      = s.trace ++ samples s.line s.reads ((ack_wait fuel t s).2.reads - s.reads) := by
  induction fuel with
  | zero => intro t s; simp [ack_wait, samples]
  | succ n ih =>
    intro t s
    have one : samples s.line s.reads 1 = [Ev.sample (s.line s.reads)] := rfl
    simp only [ack_wait]
    split_ifs with h1 h2
    · obtain ⟨i1, i2⟩ := ih (toU8 ((t : Int) - 1)) (read_SDA s).2
      have hrd : (read_SDA s).2.reads = s.reads + 1 := rfl
      have hln : (read_SDA s).2.line = s.line := rfl
      have htr : (read_SDA s).2.trace = s.trace ++ [Ev.sample (s.line s.reads)] := rfl
      rw [hrd] at i1
      rw [hrd, hln, htr] at i2
      refine ⟨by omega, ?_⟩
      rw [i2]
      have e : (ack_wait n (toU8 ((t : Int) - 1)) (read_SDA s).2).2.reads - s.reads
          = ((ack_wait n (toU8 ((t : Int) - 1)) (read_SDA s).2).2.reads - (s.reads + 1)) + 1 := by
        omega
      rw [e, samples_succ, List.append_assoc]
      rfl
    · refine ⟨by simp [read_SDA], ?_⟩
      simp [read_SDA, one]
    · refine ⟨by simp [read_SDA], ?_⟩
      simp [read_SDA, one]

/-- Record of step 2 of `I2C_WriteByte`: the release of `SDA` and the rise of
`SCL`, then every sampling made, then the fall of `SCL`. -/
theorem I2C_WriteByte_ack_trace (d : Bus) :
    (I2C_WriteByte_ack d).2.trace
      = d.trace ++ ([Ev.sda true, Ev.delay_us 2, Ev.scl true]
          ++ samples d.line d.reads ((I2C_WriteByte_ack d).2.reads - d.reads)
          ++ [Ev.delay_us 5, Ev.scl false]) := by
  have hT : I2C_TIMEOUT = 200 := rfl
  generalize hs1 : set_SCL true (delay_us 2 (set_SDA true d)) = s1
  have h1r : s1.reads = d.reads := by rw [← hs1]; rfl
  have h1l : s1.line = d.line := by rw [← hs1]; rfl
  have h1t : s1.trace = d.trace ++ [Ev.sda true, Ev.delay_us 2, Ev.scl true] := by
    rw [← hs1]
    simp [set_SCL, delay_us, set_SDA]
  obtain ⟨w1, w2⟩ := ack_wait_trace 256 200 s1
  obtain ⟨_, _, _, fl, _⟩ := ack_wait_frame 256 200 s1
  rw [h1r] at w1
  rw [h1r, h1l, h1t] at w2
  rw [h1l] at fl
  generalize hw : ack_wait 256 200 s1 = w at w1 w2 fl
  have hres : (I2C_WriteByte_ack d).2.trace
      = w.2.trace ++ [Ev.sample (w.2.line w.2.reads), Ev.delay_us 5, Ev.scl false] ∧
      (I2C_WriteByte_ack d).2.reads = w.2.reads + 1 := by
    unfold I2C_WriteByte_ack
    simp only [hs1, hT, hw]
    constructor
    · split_ifs <;> simp [set_SCL, delay_us, read_SDA]
    · split_ifs <;> simp [set_SCL, delay_us, read_SDA]
  rw [hres.1, hres.2, w2, fl]
  have e : w.2.reads + 1 - d.reads = (w.2.reads - d.reads) + 1 := by omega
  have e2 : d.reads + (w.2.reads - d.reads) = w.2.reads := by omega
  rw [e, samples_snoc, e2]
  simp only [List.append_assoc, List.cons_append, List.nil_append]

/-- Complete record of `I2C_WriteByte(dat)`: the call, the eight data pulses,
the release of `SDA` and the rise of `SCL`, then every sampling made (the
polls and the sample for `ack`), then the fall of `SCL`. -/
theorem I2C_WriteByte_trace (dat : Nat) (hd : dat < 256) (s : Bus) :
    (I2C_WriteByte dat s).2.trace
      = s.trace ++ (Ev.call (Call.write dat) :: dataPhase dat
          ++ [Ev.sda true, Ev.delay_us 2, Ev.scl true]
          ++ samples s.line s.reads ((I2C_WriteByte dat s).2.reads - s.reads)
          ++ [Ev.delay_us 5, Ev.scl false]) := by
  have hdef : I2C_WriteByte dat s
      = I2C_WriteByte_ack (I2C_WriteByte_data dat (enter (Call.write dat) s)).2 := rfl
  have hd2 : (I2C_WriteByte_data dat (enter (Call.write dat) s)).2.trace
      = s.trace ++ (Ev.call (Call.write dat) :: dataPhase dat) := by
    rw [I2C_WriteByte_data_eq dat hd]
    simp [enter, dataPhase, pulse]
  obtain ⟨_, _, dl, dr, _⟩ := I2C_WriteByte_data_frame dat (enter (Call.write dat) s)
  have hl : (enter (Call.write dat) s).line = s.line := rfl
  have hr : (enter (Call.write dat) s).reads = s.reads := rfl
  rw [hl] at dl
  rw [hr] at dr
  generalize (I2C_WriteByte_data dat (enter (Call.write dat) s)).2 = d at hdef hd2 dl dr
  rw [hdef, I2C_WriteByte_ack_trace d, hd2, dl, dr]
  simp only [List.append_assoc, List.cons_append, List.nil_append]

/-! ## Bus engine: claims C11 to C14, C17, C18 -/

set_option maxRecDepth 100000 in
/-- Reading bits 7..0 of a byte most significant first gives the byte back. -/
theorem bitsToByte_testBit : ∀ dat, dat < 256 →
    bitsToByte [dat.testBit 7, dat.testBit 6, dat.testBit 5, dat.testBit 4, dat.testBit 3, dat.testBit 2, dat.testBit 1, dat.testBit 0] = dat := by
  decide

/-- Eight levels read most significant first weigh 128, 64, ..., 1. -/
theorem bitsToByte_eight : ∀ b0 b1 b2 b3 b4 b5 b6 b7 : Bool,
    bitsToByte [b0, b1, b2, b3, b4, b5, b6, b7]
      = 128 * bitVal b0 + 64 * bitVal b1 + 32 * bitVal b2 + 16 * bitVal b3 + 8 * bitVal b4 + 4 * bitVal b5 + 2 * bitVal b6 + 1 * bitVal b7 := by
  decide

/-- A byte assembled from eight levels is below 256. -/
theorem byteAt_lt (line : Nat → Bool) (n : Nat) : byteAt line n < 256 := by
  unfold byteAt bitVal
  split_ifs <;> omega

/-- C11: for every byte `b`, `I2C_WriteByte(b)` records, right after its entry,
eight clock pulses whose data level is bit 7, bit 6, ..., bit 0 of `b`: the
levels on `SDA` at the eight rising edges of `SCL` read most significant first
give `b`; entered with the clock low (as `I2C_Start` and every byte transfer
leave it), no level is written to `SDA` while `SCL` is high. -/
theorem I2C_WriteByte_msb_first (dat : Nat) (hd : dat < 256) (s : Bus) (hs : s.scl = false) :
    (∃ rest, (I2C_WriteByte dat s).2.trace
        = s.trace ++ (Ev.call (Call.write dat) :: dataPhase dat ++ rest)) ∧
    clockedLevels s.sda s.scl (dataPhase dat)
      = [dat.testBit 7, dat.testBit 6, dat.testBit 5, dat.testBit 4, dat.testBit 3, dat.testBit 2, dat.testBit 1, dat.testBit 0] ∧
    bitsToByte (clockedLevels s.sda s.scl (dataPhase dat)) = dat ∧
    sdaWritesWhileHigh s.scl (dataPhase dat) = 0 := by
  have hcl : clockedLevels s.sda s.scl (dataPhase dat)
      = [dat.testBit 7, dat.testBit 6, dat.testBit 5, dat.testBit 4, dat.testBit 3, dat.testBit 2, dat.testBit 1, dat.testBit 0] := by
    rw [hs]; rfl
  refine ⟨⟨[Ev.sda true, Ev.delay_us 2, Ev.scl true]
      ++ samples s.line s.reads ((I2C_WriteByte dat s).2.reads - s.reads)
      ++ [Ev.delay_us 5, Ev.scl false], ?_⟩, hcl, ?_, ?_⟩
  · rw [I2C_WriteByte_trace dat hd s]
    simp only [List.append_assoc, List.cons_append]
  · rw [hcl]; exact bitsToByte_testBit dat hd
  · rw [hs]; rfl

/-- Witness for C11: the byte `0xA5` sent after a START. -/
theorem I2C_WriteByte_msb_first_witness :
    clockedLevels false false (dataPhase 0xA5)
      = [true, false, true, false, false, true, false, true] ∧
    bitsToByte (clockedLevels false false (dataPhase 0xA5)) = 0xA5 :=
  have h := I2C_WriteByte_msb_first 0xA5 (by decide) (I2C_Start (Bus.idle fun _ => false)) rfl
  ⟨h.2.1, h.2.2.1⟩

/-- C12: `I2C_ReadByte(ack)` returns `s1*128 + s2*64 + ... + s8` for the eight
levels sampled at its eight clock pulses, whatever `ack` is; it then puts `ack`
on `SDA` for exactly one further clock pulse and sets `SDA` high before
returning. -/
theorem I2C_ReadByte_msb_first (ack : Bool) (s : Bus) :
    (I2C_ReadByte ack s).1
      = 128 * bitVal (s.line s.reads) +
        64 * bitVal (s.line (s.reads + 1)) +
        32 * bitVal (s.line (s.reads + 2)) +
        16 * bitVal (s.line (s.reads + 3)) +
        8 * bitVal (s.line (s.reads + 4)) +
        4 * bitVal (s.line (s.reads + 5)) +
        2 * bitVal (s.line (s.reads + 6)) +
        1 * bitVal (s.line (s.reads + 7)) ∧
    (I2C_ReadByte ack s).1
      = bitsToByte [s.line s.reads, s.line (s.reads + 1), s.line (s.reads + 2), s.line (s.reads + 3), s.line (s.reads + 4), s.line (s.reads + 5), s.line (s.reads + 6), s.line (s.reads + 7)] ∧
    (I2C_ReadByte ack s).1 < 256 ∧
    (I2C_ReadByte true s).1 = (I2C_ReadByte false s).1 ∧
    (I2C_ReadByte ack s).2.trace
      = s.trace ++ [Ev.call (Call.read ack), Ev.sda true,
        Ev.delay_us 2, Ev.scl true, Ev.sample (s.line s.reads), Ev.delay_us 5, Ev.scl false,
        Ev.delay_us 2, Ev.scl true, Ev.sample (s.line (s.reads + 1)), Ev.delay_us 5, Ev.scl false,
        Ev.delay_us 2, Ev.scl true, Ev.sample (s.line (s.reads + 2)), Ev.delay_us 5, Ev.scl false,
        Ev.delay_us 2, Ev.scl true, Ev.sample (s.line (s.reads + 3)), Ev.delay_us 5, Ev.scl false,
        Ev.delay_us 2, Ev.scl true, Ev.sample (s.line (s.reads + 4)), Ev.delay_us 5, Ev.scl false,
        Ev.delay_us 2, Ev.scl true, Ev.sample (s.line (s.reads + 5)), Ev.delay_us 5, Ev.scl false,
        Ev.delay_us 2, Ev.scl true, Ev.sample (s.line (s.reads + 6)), Ev.delay_us 5, Ev.scl false,
        Ev.delay_us 2, Ev.scl true, Ev.sample (s.line (s.reads + 7)), Ev.delay_us 5, Ev.scl false,
        Ev.sda ack, Ev.delay_us 2, Ev.scl true, Ev.delay_us 5, Ev.scl false, Ev.sda true] ∧
    (I2C_ReadByte ack s).2.sda = true ∧ (I2C_ReadByte ack s).2.scl = false ∧
    (I2C_ReadByte ack s).2.reads = s.reads + 8 := by
  rw [I2C_ReadByte_eq ack s, I2C_ReadByte_eq true s, I2C_ReadByte_eq false s]
  refine ⟨rfl, ?_, byteAt_lt _ _, rfl, rfl, rfl, rfl, rfl⟩
  rw [bitsToByte_eight]
  rfl

/-- C13: the acknowledgement wait of `I2C_WriteByte` makes between 1 and
`I2C_TIMEOUT = 200` polls of the line for every behaviour of the line (the call
samples `SDA` once more for `ack`), whatever fuel of at least 200 the model is
given; the call sets `i2c_error` to 1 exactly when all 200 polls read high and
leaves it unchanged otherwise; if the line never goes low the fault is latched
and the call returns 1. -/
theorem I2C_WriteByte_ack_timeout (dat : Nat) (s : Bus) :
    (1 ≤ (I2C_WriteByte dat s).2.reads - s.reads - 1 ∧
      (I2C_WriteByte dat s).2.reads - s.reads - 1 ≤ I2C_TIMEOUT) ∧
    (∀ fuel b, 200 ≤ fuel → ack_wait fuel I2C_TIMEOUT b = ack_wait 256 I2C_TIMEOUT b) ∧
    (I2C_WriteByte dat s).2.i2c_error
      = (if allHigh s.line s.reads I2C_TIMEOUT then 1 else s.i2c_error) ∧
    (allHigh s.line s.reads I2C_TIMEOUT = true ↔
      ∀ k, k < 200 → s.line (s.reads + k) = true) ∧
    (I2C_WriteByte dat s).1 = s.line ((I2C_WriteByte dat s).2.reads - 1) ∧
    ((∀ k, s.line k = true) →
      (I2C_WriteByte dat s).2.i2c_error = 1 ∧ (I2C_WriteByte dat s).1 = true) := by
  have hT : I2C_TIMEOUT = 200 := rfl
  obtain ⟨_, _, _, _, ⟨r1, r2⟩, he, ha, _, _⟩ := I2C_WriteByte_spec dat s
  rw [hT]
  refine ⟨⟨by omega, by omega⟩, ?_, he, allHigh_iff _ _ _, ha, ?_⟩
  · intro fuel b hf
    exact ack_wait_fuel fuel 256 200 b (by omega) hf (by omega) (by omega)
  · intro hall
    have h200 : allHigh s.line s.reads 200 = true :=
      (allHigh_iff _ _ _).2 (fun k _ => hall _)
    rw [he, ha, h200]
    exact ⟨rfl, hall _⟩

/-- Witness for C13: a line that is never pulled low. -/
theorem I2C_WriteByte_ack_timeout_witness :
    (I2C_WriteByte 0x70 (I2C_Start (Bus.idle fun _ => true))).2.i2c_error = 1 ∧
    (I2C_WriteByte 0x70 (I2C_Start (Bus.idle fun _ => true))).1 = true :=
  (I2C_WriteByte_ack_timeout 0x70 (I2C_Start (Bus.idle fun _ => true))).2.2.2.2.2
    (fun _ => rfl)

/-- When the line is high at the 201 samplings of the acknowledgement clock,
`I2C_WriteByte` returns 1 and latches the fault. -/
theorem I2C_WriteByte_high (dat : Nat) (s : Bus)
    (hall : ∀ k, k < 201 → s.line (s.reads + k) = true) :
    (I2C_WriteByte dat s).1 = true ∧ (I2C_WriteByte dat s).2.i2c_error = 1 := by
  obtain ⟨_, _, _, _, ⟨r1, r2⟩, he, ha, _, _⟩ := I2C_WriteByte_spec dat s
  have h200 : allHigh s.line s.reads 200 = true :=
    (allHigh_iff _ _ _).2 (fun k hk => hall k (by omega))
  rw [he, ha, h200]
  refine ⟨?_, rfl⟩
  have e : (I2C_WriteByte dat s).2.reads - 1
      = s.reads + ((I2C_WriteByte dat s).2.reads - 1 - s.reads) := by omega
  rw [e]
  exact hall _ (by omega)

/-- C14 as stated fails: with a line that never goes low (timeout) and with a
line held high for the 201 samplings of the acknowledgement clock and low
afterwards (explicit not-acknowledge) `I2C_WriteByte` reports the same pair
(return value, `i2c_error`) = (1, 1). -/
theorem I2C_WriteByte_timeout_equals_nack :
    ((I2C_WriteByte 0x70 (I2C_Start (Bus.idle fun _ => true))).1,
      (I2C_WriteByte 0x70 (I2C_Start (Bus.idle fun _ => true))).2.i2c_error) = (true, 1) ∧
    ((I2C_WriteByte 0x70 (I2C_Start (Bus.idle fun k => decide (k < 201)))).1,
      (I2C_WriteByte 0x70 (I2C_Start (Bus.idle fun k => decide (k < 201)))).2.i2c_error)
      = (true, 1) := by
  have h1 := I2C_WriteByte_high 0x70 (I2C_Start (Bus.idle fun _ => true)) (fun _ _ => rfl)
  have h2 := I2C_WriteByte_high 0x70 (I2C_Start (Bus.idle fun k => decide (k < 201)))
    (fun k hk => by
      show decide (0 + k < 201) = true
      rw [Nat.zero_add]
      exact decide_eq_true hk)
  constructor
  · rw [h1.1, h1.2]
  · rw [h2.1, h2.2]

/-- C14 amended: whenever the data line is high at the 201 samplings of the
acknowledgement clock, be it for lack of a responder or by an explicit
not-acknowledge, `I2C_WriteByte` returns 1 and sets `i2c_error` to 1; when the
line is low at the first poll and at the sampling of `ack` it returns 0 and
leaves `i2c_error` unchanged. -/
theorem I2C_WriteByte_outcomes (dat : Nat) (s : Bus) :
    ((∀ k, k < 201 → s.line (s.reads + k) = true) →
      (I2C_WriteByte dat s).1 = true ∧ (I2C_WriteByte dat s).2.i2c_error = 1) ∧
    (s.line s.reads = false → s.line (s.reads + 1) = false →
      (I2C_WriteByte dat s).1 = false ∧
      (I2C_WriteByte dat s).2.i2c_error = s.i2c_error) := by
  obtain ⟨_, _, _, _, ⟨r1, r2⟩, he, ha, hp, _⟩ := I2C_WriteByte_spec dat s
  constructor
  · exact I2C_WriteByte_high dat s
  · intro h0 h1
    have hn : allHigh s.line s.reads 200 = false := by
      cases hh : allHigh s.line s.reads 200 with
      | false => rfl
      | true =>
        have := (allHigh_iff _ _ _).1 hh 0 (by omega)
        rw [Nat.add_zero, h0] at this
        exact absurd this (by decide)
    have hr : (I2C_WriteByte dat s).2.reads = s.reads + 2 := by
      by_contra hne
      have := hp 0 (by omega)
      rw [Nat.add_zero, h0] at this
      exact absurd this (by decide)
    rw [he, ha, hn, hr]
    exact ⟨h1, rfl⟩

/-- Witness for C14 amended: a line that is never pulled low. -/
theorem I2C_WriteByte_outcomes_witness :
    (I2C_WriteByte 0x70 (I2C_Start (Bus.idle fun _ => true))).1 = true ∧
    (I2C_WriteByte 0x70 (I2C_Start (Bus.idle fun _ => true))).2.i2c_error = 1 :=
  (I2C_WriteByte_outcomes 0x70 (I2C_Start (Bus.idle fun _ => true))).1 (fun _ _ => rfl)

/-- C17: from any line state `I2C_Start` writes data = high, clock = high,
data = low, clock = low in that order; this holds exactly one START condition
(the data latch falls while the clock latch is high) and the call ends with
both lines low. -/
theorem I2C_Start_condition (s : Bus) :
    (I2C_Start s).trace = s.trace ++ [Ev.call Call.start, Ev.sda true, Ev.scl true,
      Ev.delay_us 5, Ev.sda false, Ev.delay_us 5, Ev.scl false] ∧
    startConditions s.sda s.scl [Ev.call Call.start, Ev.sda true, Ev.scl true,
      Ev.delay_us 5, Ev.sda false, Ev.delay_us 5, Ev.scl false] = 1 ∧
    (I2C_Start s).sda = false ∧ (I2C_Start s).scl = false ∧
    (I2C_Start s).i2c_error = s.i2c_error ∧ (I2C_Start s).reads = s.reads := by
  rw [I2C_Start_eq]
  refine ⟨rfl, ?_, rfl, rfl, rfl, rfl⟩
  simp [startConditions]

/-- C18: after `I2C_WriteByte` or `I2C_ReadByte` returns, whatever the line
did, the clock is low; a following `I2C_Stop` writes data = low, clock = high,
data = high in that order, which holds exactly one STOP condition (the data
latch rises while the clock latch is high) and no START condition, and leaves
both lines high. -/
theorem I2C_Stop_after_byte (dat : Nat) (ack : Bool) (s : Bus) :
    (I2C_WriteByte dat s).2.scl = false ∧ (I2C_ReadByte ack s).2.scl = false ∧
    (I2C_Stop (I2C_WriteByte dat s).2).trace = (I2C_WriteByte dat s).2.trace ++
      [Ev.call Call.stop, Ev.sda false, Ev.scl true, Ev.delay_us 5, Ev.sda true,
       Ev.delay_us 5] ∧
    (I2C_Stop (I2C_ReadByte ack s).2).trace = (I2C_ReadByte ack s).2.trace ++
      [Ev.call Call.stop, Ev.sda false, Ev.scl true, Ev.delay_us 5, Ev.sda true,
       Ev.delay_us 5] ∧
    stopConditions (I2C_WriteByte dat s).2.sda (I2C_WriteByte dat s).2.scl
      [Ev.call Call.stop, Ev.sda false, Ev.scl true, Ev.delay_us 5, Ev.sda true,
       Ev.delay_us 5] = 1 ∧
    startConditions (I2C_WriteByte dat s).2.sda (I2C_WriteByte dat s).2.scl
      [Ev.call Call.stop, Ev.sda false, Ev.scl true, Ev.delay_us 5, Ev.sda true,
       Ev.delay_us 5] = 0 ∧
    stopConditions (I2C_ReadByte ack s).2.sda (I2C_ReadByte ack s).2.scl
      [Ev.call Call.stop, Ev.sda false, Ev.scl true, Ev.delay_us 5, Ev.sda true,
       Ev.delay_us 5] = 1 ∧
    startConditions (I2C_ReadByte ack s).2.sda (I2C_ReadByte ack s).2.scl
      [Ev.call Call.stop, Ev.sda false, Ev.scl true, Ev.delay_us 5, Ev.sda true,
       Ev.delay_us 5] = 0 ∧
    ((I2C_Stop (I2C_WriteByte dat s).2).sda = true ∧
      (I2C_Stop (I2C_WriteByte dat s).2).scl = true) ∧
    ((I2C_Stop (I2C_ReadByte ack s).2).sda = true ∧
      (I2C_Stop (I2C_ReadByte ack s).2).scl = true) := by
  obtain ⟨ws, wc, _⟩ := I2C_WriteByte_spec dat s
  have rs : (I2C_ReadByte ack s).2.sda = true := by rw [I2C_ReadByte_eq]
  have rc : (I2C_ReadByte ack s).2.scl = false := by rw [I2C_ReadByte_eq]
  refine ⟨wc, rc, ?_, ?_, ?_, ?_, ?_, ?_, ⟨?_, ?_⟩, ⟨?_, ?_⟩⟩
  · rw [I2C_Stop_eq]
  · rw [I2C_Stop_eq]
  · rw [ws, wc]; rfl
  · rw [ws, wc]; rfl
  · rw [rs, rc]; rfl
  · rw [rs, rc]; rfl
  · rw [I2C_Stop_eq]
  · rw [I2C_Stop_eq]
  · rw [I2C_Stop_eq]
  · rw [I2C_Stop_eq]

/-! ## Bus engine: what each operation leaves unchanged -/

theorem delay_ms_calls (n : Nat) (s : Bus) : callsOf (delay_ms n s).trace = callsOf s.trace := by
  simp [delay_ms, callsOf_append, callsOf]

theorem delay_us_calls (n : Nat) (s : Bus) : callsOf (delay_us n s).trace = callsOf s.trace := by
  simp [delay_us, callsOf_append, callsOf]

theorem set_DUST_LED_calls (v : Bool) (s : Bus) :
    callsOf (set_DUST_LED v s).trace = callsOf s.trace := by
  simp [set_DUST_LED, callsOf_append, callsOf]

theorem I2C_Start_calls (s : Bus) :
    callsOf (I2C_Start s).trace = callsOf s.trace ++ [Call.start] := by
  rw [I2C_Start_eq]; simp [callsOf_append, callsOf]

theorem I2C_Stop_calls (s : Bus) :
    callsOf (I2C_Stop s).trace = callsOf s.trace ++ [Call.stop] := by
  rw [I2C_Stop_eq]; simp [callsOf_append, callsOf]

theorem I2C_WriteByte_calls (dat : Nat) (s : Bus) :
    callsOf (I2C_WriteByte dat s).2.trace = callsOf s.trace ++ [Call.write dat] :=
  (I2C_WriteByte_spec dat s).2.2.2.1

theorem I2C_ReadByte_calls (ack : Bool) (s : Bus) :
    callsOf (I2C_ReadByte ack s).2.trace = callsOf s.trace ++ [Call.read ack] := by
  rw [I2C_ReadByte_eq]; simp [callsOf_append, callsOf]

theorem I2C_WriteByte_line (dat : Nat) (s : Bus) : (I2C_WriteByte dat s).2.line = s.line :=
  (I2C_WriteByte_spec dat s).2.2.1

theorem I2C_ReadByte_line (ack : Bool) (s : Bus) : (I2C_ReadByte ack s).2.line = s.line := by
  rw [I2C_ReadByte_eq]

theorem I2C_Start_line (s : Bus) : (I2C_Start s).line = s.line := rfl

theorem I2C_Stop_line (s : Bus) : (I2C_Stop s).line = s.line := rfl

theorem delay_ms_line (n : Nat) (s : Bus) : (delay_ms n s).line = s.line := rfl

theorem I2C_Stop_sda (s : Bus) : (I2C_Stop s).sda = true := rfl

theorem I2C_Stop_scl (s : Bus) : (I2C_Stop s).scl = true := rfl

theorem delay_ms_sda (n : Nat) (s : Bus) : (delay_ms n s).sda = s.sda := rfl

theorem delay_ms_scl (n : Nat) (s : Bus) : (delay_ms n s).scl = s.scl := rfl

theorem set_DUST_LED_sda (v : Bool) (s : Bus) : (set_DUST_LED v s).sda = s.sda := rfl

theorem set_DUST_LED_scl (v : Bool) (s : Bus) : (set_DUST_LED v s).scl = s.scl := rfl

/-! ## Sticky fault indicator -/

theorem delay_ms_sticky (n : Nat) (s : Bus) (h : s.i2c_error = 1) :
    (delay_ms n s).i2c_error = 1 := h

theorem delay_us_sticky (n : Nat) (s : Bus) (h : s.i2c_error = 1) :
    (delay_us n s).i2c_error = 1 := h

theorem set_DUST_LED_sticky (v : Bool) (s : Bus) (h : s.i2c_error = 1) :
    (set_DUST_LED v s).i2c_error = 1 := h

theorem I2C_Init_sticky (s : Bus) (h : s.i2c_error = 1) : (I2C_Init s).i2c_error = 1 := h

theorem I2C_Start_sticky (s : Bus) (h : s.i2c_error = 1) : (I2C_Start s).i2c_error = 1 := h

theorem I2C_Stop_sticky (s : Bus) (h : s.i2c_error = 1) : (I2C_Stop s).i2c_error = 1 := h

theorem I2C_WriteByte_sticky (dat : Nat) (s : Bus) (h : s.i2c_error = 1) :
    (I2C_WriteByte dat s).2.i2c_error = 1 := by
  rw [(I2C_WriteByte_spec dat s).2.2.2.2.2.1, h]
  split_ifs <;> rfl

theorem I2C_ReadByte_sticky (ack : Bool) (s : Bus) (h : s.i2c_error = 1) :
    (I2C_ReadByte ack s).2.i2c_error = 1 := by
  rw [I2C_ReadByte_eq]; exact h

theorem exec_sticky (c : Call) (s : Bus) (h : s.i2c_error = 1) : (exec c s).i2c_error = 1 := by
  cases c with
  | init => exact I2C_Init_sticky s h
  | start => exact I2C_Start_sticky s h
  | stop => exact I2C_Stop_sticky s h
  | write dat => exact I2C_WriteByte_sticky dat s h
  | read ack => exact I2C_ReadByte_sticky ack s h

theorem run_sticky (cs : List Call) : ∀ (s : Bus), s.i2c_error = 1 → (run cs s).i2c_error = 1 := by
  induction cs with
  | nil => intro s h; exact h
  | cons c cs ih => intro s h; exact ih (exec c s) (exec_sticky c s h)

theorem AHT10_Init_sticky (s : Bus) (h : s.i2c_error = 1) : (AHT10_Init s).i2c_error = 1 := by
  unfold AHT10_Init
  exact
    (delay_ms_sticky _ _ (I2C_Stop_sticky _ (I2C_WriteByte_sticky _ _ (I2C_WriteByte_sticky _
    _ (I2C_WriteByte_sticky _ _ (I2C_WriteByte_sticky _ _ (I2C_Start_sticky _
    (delay_ms_sticky _ _ h))))))))

theorem AHT10_Read_bus_sticky (s : Bus) (h : s.i2c_error = 1) :
    (AHT10_Read_bus s).2.i2c_error = 1 := by
  unfold AHT10_Read_bus AHT10_Read_capture
  exact
    (I2C_Stop_sticky _ (I2C_ReadByte_sticky _ _ (I2C_ReadByte_sticky _ _ (I2C_ReadByte_sticky
    _ _ (I2C_ReadByte_sticky _ _ (I2C_ReadByte_sticky _ _ (I2C_ReadByte_sticky _ _
    (I2C_WriteByte_sticky _ _ (I2C_Start_sticky _ (delay_ms_sticky _ _ (I2C_Stop_sticky _
    (I2C_WriteByte_sticky _ _ (I2C_WriteByte_sticky _ _ (I2C_WriteByte_sticky _ _
    (I2C_WriteByte_sticky _ _ (I2C_Start_sticky _ h))))))))))))))))

theorem ADS1115_read_conversion_sticky (s : Bus) (h : s.i2c_error = 1) :
    (ADS1115_read_conversion s).2.i2c_error = 1 := by
  unfold ADS1115_read_conversion
  exact
    (I2C_Stop_sticky _ (I2C_ReadByte_sticky _ _ (I2C_ReadByte_sticky _ _ (I2C_WriteByte_sticky
    _ _ (I2C_Start_sticky _ (I2C_Stop_sticky _ (I2C_WriteByte_sticky _ _
    (I2C_WriteByte_sticky _ _ (I2C_Start_sticky _ h)))))))))

theorem ADS1115_ReadChannel_sticky (ch : Nat) (s : Bus) (h : s.i2c_error = 1) :
    (ADS1115_ReadChannel ch s).2.i2c_error = 1 := by
  unfold ADS1115_ReadChannel
  exact ADS1115_read_conversion_sticky _
    (delay_ms_sticky _ _ (I2C_Stop_sticky _ (I2C_WriteByte_sticky _ _ (I2C_WriteByte_sticky _
    _ (I2C_WriteByte_sticky _ _ (I2C_WriteByte_sticky _ _ (I2C_Start_sticky _ h)))))))

theorem ADS1115_StartContinuous_sticky (ch : Nat) (s : Bus) (h : s.i2c_error = 1) :
    (ADS1115_StartContinuous ch s).i2c_error = 1 := by
  unfold ADS1115_StartContinuous
  exact
    (delay_ms_sticky _ _ (I2C_Stop_sticky _ (I2C_WriteByte_sticky _ _ (I2C_WriteByte_sticky _
    _ (I2C_WriteByte_sticky _ _ (I2C_WriteByte_sticky _ _ (I2C_Start_sticky _ h)))))))

/-- C15: the fault indicator is sticky. From a state with `i2c_error = 1`, no
bus-engine operation (`I2C_Init`, `I2C_Start`, `I2C_Stop`, `I2C_WriteByte`,
`I2C_ReadByte`), no sequence of them and no sensor driver leaves a state with
`i2c_error` other than 1. -/
theorem i2c_error_sticky (s : Bus) (h : s.i2c_error = 1) :
    (I2C_Init s).i2c_error = 1 ∧ (I2C_Start s).i2c_error = 1 ∧ (I2C_Stop s).i2c_error = 1 ∧
    (∀ dat, (I2C_WriteByte dat s).2.i2c_error = 1) ∧
    (∀ ack, (I2C_ReadByte ack s).2.i2c_error = 1) ∧
    (∀ cs, (run cs s).i2c_error = 1) ∧
    (AHT10_Init s).i2c_error = 1 ∧ (AHT10_Read_bus s).2.i2c_error = 1 ∧
    (∀ ch, (ADS1115_ReadChannel ch s).2.i2c_error = 1) ∧
    (∀ ch, (ADS1115_StartContinuous ch s).i2c_error = 1) ∧
    (ADS1115_ReadContinuous s).2.i2c_error = 1 ∧
    (GP2Y1014_Read_bus s).2.i2c_error = 1 ∧ (MQ2_Read_bus s).2.i2c_error = 1 := by
  refine ⟨I2C_Init_sticky s h, I2C_Start_sticky s h, I2C_Stop_sticky s h,
    fun dat => I2C_WriteByte_sticky dat s h, fun ack => I2C_ReadByte_sticky ack s h,
    fun cs => run_sticky cs s h, AHT10_Init_sticky s h, AHT10_Read_bus_sticky s h,
    fun ch => ADS1115_ReadChannel_sticky ch s h,
    fun ch => ADS1115_StartContinuous_sticky ch s h,
    ADS1115_read_conversion_sticky s h, ?_, ?_⟩
  · unfold GP2Y1014_Read_bus
    apply set_DUST_LED_sticky
    apply ADS1115_ReadChannel_sticky
    exact h
  · unfold MQ2_Read_bus
    exact ADS1115_ReadChannel_sticky 0 s h

/-- Witness for C15: the fault latched by a timeout survives a whole
`AHT10_Read` and a sequence of bus operations. -/
theorem i2c_error_sticky_witness :
    (AHT10_Read_bus (I2C_WriteByte 0x70 (I2C_Start (Bus.idle fun _ => true))).2).2.i2c_error
      = 1 ∧
    (run [Call.stop, Call.init, Call.start, Call.read true, Call.stop]
      (I2C_WriteByte 0x70 (I2C_Start (Bus.idle fun _ => true))).2).i2c_error = 1 :=
  have h := i2c_error_sticky (I2C_WriteByte 0x70 (I2C_Start (Bus.idle fun _ => true))).2
    (I2C_WriteByte_high 0x70 (I2C_Start (Bus.idle fun _ => true)) (fun _ _ => rfl)).2
  ⟨h.2.2.2.2.2.2.2.1, h.2.2.2.2.2.1 _⟩

/-! ## Sensor transactions: claims C16, C19, C20 -/

/-- Calls made by `ADS1115_read_conversion`, and the lines it leaves. -/
theorem ADS1115_read_conversion_calls (s : Bus) :
    callsOf (ADS1115_read_conversion s).2.trace = callsOf s.trace ++
      [Call.start, Call.write 0x90, Call.write 0x00, Call.stop,
       Call.start, Call.write 0x91, Call.read false, Call.read true, Call.stop] ∧
    (ADS1115_read_conversion s).2.sda = true ∧ (ADS1115_read_conversion s).2.scl = true := by
  unfold ADS1115_read_conversion
  simp only [I2C_Start_calls, I2C_Stop_calls, I2C_WriteByte_calls, I2C_ReadByte_calls,
    List.append_assoc, List.cons_append, List.nil_append, I2C_Stop_sda, I2C_Stop_scl]
  exact ⟨rfl, trivial, trivial⟩

/-- Calls made by `ADS1115_ReadChannel`. -/
theorem ADS1115_ReadChannel_calls (ch : Nat) (s : Bus) :
    callsOf (ADS1115_ReadChannel ch s).2.trace = callsOf s.trace ++
      [Call.start, Call.write 0x90, Call.write 0x01,
       Call.write (ADS1115_ReadChannel_config_high ch), Call.write 0x83, Call.stop,
       Call.start, Call.write 0x90, Call.write 0x00, Call.stop,
       Call.start, Call.write 0x91, Call.read false, Call.read true, Call.stop] := by
  unfold ADS1115_ReadChannel
  simp only [(ADS1115_read_conversion_calls _).1, delay_ms_calls, I2C_Start_calls,
    I2C_Stop_calls, I2C_WriteByte_calls, List.append_assoc, List.cons_append,
    List.nil_append]
  rfl

/-- Calls made by `ADS1115_StartContinuous`. -/
theorem ADS1115_StartContinuous_calls (ch : Nat) (s : Bus) :
    callsOf (ADS1115_StartContinuous ch s).trace = callsOf s.trace ++
      [Call.start, Call.write 0x90, Call.write 0x01,
       Call.write (ADS1115_StartContinuous_config_high ch), Call.write 0x03, Call.stop] := by
  unfold ADS1115_StartContinuous
  simp only [delay_ms_calls, I2C_Start_calls, I2C_Stop_calls, I2C_WriteByte_calls,
    List.append_assoc, List.cons_append, List.nil_append]
  rfl

/-- C16: every sensor transaction, whatever the bus does (the line behaviour
and the starting state are arbitrary), calls `I2C_Start` and `I2C_Stop` in
strict alternation beginning with Start and ending with Stop, makes every byte
transfer between a Start and its Stop, and returns with both lines high. -/
theorem transactions_bracketed (s : Bus) (ch : Nat) :
    (callsOf (AHT10_Init s).trace = callsOf s.trace ++
        [Call.start, Call.write 0x70, Call.write 0xE1, Call.write 0x08, Call.write 0x00,
         Call.stop] ∧
      bracketed false [Call.start, Call.write 0x70, Call.write 0xE1, Call.write 0x08,
         Call.write 0x00, Call.stop] = true ∧
      (AHT10_Init s).sda = true ∧ (AHT10_Init s).scl = true) ∧
    (callsOf (AHT10_Read_bus s).2.trace = callsOf s.trace ++
        [Call.start, Call.write 0x70, Call.write 0xAC, Call.write 0x33, Call.write 0x00,
         Call.stop, Call.start, Call.write 0x71, Call.read false, Call.read false,
         Call.read false, Call.read false, Call.read false, Call.read true, Call.stop] ∧
      bracketed false [Call.start, Call.write 0x70, Call.write 0xAC, Call.write 0x33,
         Call.write 0x00, Call.stop, Call.start, Call.write 0x71, Call.read false,
         Call.read false, Call.read false, Call.read false, Call.read false, Call.read true,
         Call.stop] = true ∧
      (AHT10_Read_bus s).2.sda = true ∧ (AHT10_Read_bus s).2.scl = true) ∧
    (callsOf (ADS1115_ReadChannel ch s).2.trace = callsOf s.trace ++
        [Call.start, Call.write 0x90, Call.write 0x01,
         Call.write (ADS1115_ReadChannel_config_high ch), Call.write 0x83, Call.stop,
         Call.start, Call.write 0x90, Call.write 0x00, Call.stop,
         Call.start, Call.write 0x91, Call.read false, Call.read true, Call.stop] ∧
      bracketed false [Call.start, Call.write 0x90, Call.write 0x01,
         Call.write (ADS1115_ReadChannel_config_high ch), Call.write 0x83, Call.stop,
         Call.start, Call.write 0x90, Call.write 0x00, Call.stop,
         Call.start, Call.write 0x91, Call.read false, Call.read true, Call.stop] = true ∧
      (ADS1115_ReadChannel ch s).2.sda = true ∧ (ADS1115_ReadChannel ch s).2.scl = true) ∧
    (callsOf (ADS1115_StartContinuous ch s).trace = callsOf s.trace ++
        [Call.start, Call.write 0x90, Call.write 0x01,
         Call.write (ADS1115_StartContinuous_config_high ch), Call.write 0x03, Call.stop] ∧
      bracketed false [Call.start, Call.write 0x90, Call.write 0x01,
         Call.write (ADS1115_StartContinuous_config_high ch), Call.write 0x03, Call.stop]
        = true ∧
      (ADS1115_StartContinuous ch s).sda = true ∧
      (ADS1115_StartContinuous ch s).scl = true) ∧
    (callsOf (ADS1115_ReadContinuous s).2.trace = callsOf s.trace ++
        [Call.start, Call.write 0x90, Call.write 0x00, Call.stop,
         Call.start, Call.write 0x91, Call.read false, Call.read true, Call.stop] ∧
      bracketed false [Call.start, Call.write 0x90, Call.write 0x00, Call.stop,
         Call.start, Call.write 0x91, Call.read false, Call.read true, Call.stop] = true ∧
      (ADS1115_ReadContinuous s).2.sda = true ∧ (ADS1115_ReadContinuous s).2.scl = true) := by
  refine ⟨⟨?_, rfl, rfl, rfl⟩, ⟨?_, rfl, rfl, rfl⟩, ⟨?_, rfl, ?_, ?_⟩, ⟨?_, rfl, rfl, rfl⟩,
    ⟨(ADS1115_read_conversion_calls s).1, rfl, (ADS1115_read_conversion_calls s).2.1,
      (ADS1115_read_conversion_calls s).2.2⟩⟩
  · unfold AHT10_Init
    simp only [delay_ms_calls, I2C_Start_calls, I2C_Stop_calls, I2C_WriteByte_calls,
      List.append_assoc, List.cons_append, List.nil_append]
    rfl
  · unfold AHT10_Read_bus AHT10_Read_capture
    simp only [delay_ms_calls, I2C_Start_calls, I2C_Stop_calls, I2C_WriteByte_calls,
      I2C_ReadByte_calls, List.append_assoc, List.cons_append, List.nil_append]
    rfl
  · exact ADS1115_ReadChannel_calls ch s
  · exact (ADS1115_read_conversion_calls _).2.1
  · exact (ADS1115_read_conversion_calls _).2.2
  · exact ADS1115_StartContinuous_calls ch s

/-- The two bytes of the conversion register combine to the two's-complement
16-bit value of `hi * 256 + lo`. -/
theorem ADS1115_result_eq (hi lo : Nat) (hhi : hi < 256) (hlo : lo < 256) :
    ADS1115_result hi lo = toI16 (((hi * 256 + lo : Nat) : Int)) := by
  unfold ADS1115_result
  have e1 : hi <<< 8 = 2 ^ 8 * hi := by rw [Nat.shiftLeft_eq, Nat.mul_comm]
  have e2 : toU16 (toI16 ((2 ^ 8 * hi : Nat) : Int)) = 2 ^ 8 * hi := by
    unfold toU16 toI16; omega
  have e3 : 2 ^ 8 * hi ||| lo = hi * 256 + lo := by
    rw [← Nat.mul_add_lt_is_or (by omega : lo < 2 ^ 8) hi]; omega
  simp only []
  rw [e1, e2, e3]

/-- Value returned by the read part of the ADS1115 functions: the sixteen last
samplings of the call, taken eight and eight, are `hi` and `lo`. -/
theorem ADS1115_read_conversion_value (s : Bus) :
    16 ≤ (ADS1115_read_conversion s).2.reads ∧
    (ADS1115_read_conversion s).2.line = s.line ∧
    (ADS1115_read_conversion s).1
      = ADS1115_result (byteAt s.line ((ADS1115_read_conversion s).2.reads - 16))
          (byteAt s.line ((ADS1115_read_conversion s).2.reads - 8)) := by
  have hl : (I2C_WriteByte ((ADS1115_ADDR <<< 1) ||| 0x01) (I2C_Start (I2C_Stop
      (I2C_WriteByte 0x00 (I2C_WriteByte (ADS1115_ADDR <<< 1) (I2C_Start s)).2).2))).2.line
      = s.line := by
    simp only [I2C_WriteByte_line, I2C_Start_line, I2C_Stop_line]
  unfold ADS1115_read_conversion
  simp only []
  generalize (I2C_WriteByte ((ADS1115_ADDR <<< 1) ||| 0x01) (I2C_Start (I2C_Stop
      (I2C_WriteByte 0x00 (I2C_WriteByte (ADS1115_ADDR <<< 1) (I2C_Start s)).2).2))).2 = s1
    at hl
  simp only [I2C_ReadByte_eq, I2C_Stop_eq, hl]
  have e1 : s1.reads + 8 + 8 - 16 = s1.reads := by omega
  have e2 : s1.reads + 8 + 8 - 8 = s1.reads + 8 := by omega
  rw [e1, e2]
  exact ⟨by omega, trivial, rfl⟩

/-- C19: for every pair of bytes `(hi, lo)` the value formed by
`ADS1115_ReadChannel` and `ADS1115_ReadContinuous` is the two's-complement
16-bit value of `hi * 256 + lo`, in -32768..32767; both functions form it from
the byte read first (acknowledged) as `hi` and the byte read second (not
acknowledged) as `lo`, their sixteen last samplings. -/
theorem ADS1115_conversion_result (hi lo : Nat) (hhi : hi < 256) (hlo : lo < 256) (ch : Nat)
    (s : Bus) :
    ADS1115_result hi lo = toI16 (((hi * 256 + lo : Nat) : Int)) ∧
    (hi * 256 + lo < 32768 → ADS1115_result hi lo = ((hi * 256 + lo : Nat) : Int)) ∧
    (32768 ≤ hi * 256 + lo → ADS1115_result hi lo = ((hi * 256 + lo : Nat) : Int) - 65536) ∧
    (-32768 ≤ ADS1115_result hi lo ∧ ADS1115_result hi lo ≤ 32767) ∧
    (ADS1115_ReadChannel ch s).1
      = ADS1115_result (byteAt s.line ((ADS1115_ReadChannel ch s).2.reads - 16))
          (byteAt s.line ((ADS1115_ReadChannel ch s).2.reads - 8)) ∧
    (ADS1115_ReadContinuous s).1
      = ADS1115_result (byteAt s.line ((ADS1115_ReadContinuous s).2.reads - 16))
          (byteAt s.line ((ADS1115_ReadContinuous s).2.reads - 8)) ∧
    (∃ pre, callsOf (ADS1115_ReadChannel ch s).2.trace
      = pre ++ [Call.read false, Call.read true, Call.stop]) ∧
    (∃ pre, callsOf (ADS1115_ReadContinuous s).2.trace
      = pre ++ [Call.read false, Call.read true, Call.stop]) := by
  have he := ADS1115_result_eq hi lo hhi hlo
  refine ⟨he, ?_, ?_, ?_, ?_, (ADS1115_read_conversion_value s).2.2, ?_, ?_⟩
  · intro h; rw [he]; unfold toI16; omega
  · intro h; rw [he]; unfold toI16; omega
  · rw [he]; unfold toI16; omega
  · have hl : (delay_ms 10 (I2C_Stop (I2C_WriteByte ADS1115_ReadChannel_config_low
        (I2C_WriteByte (ADS1115_ReadChannel_config_high ch) (I2C_WriteByte 0x01
        (I2C_WriteByte (ADS1115_ADDR <<< 1) (I2C_Start s)).2).2).2).2)).line = s.line := by
      simp only [delay_ms_line, I2C_WriteByte_line, I2C_Start_line, I2C_Stop_line]
    have h := (ADS1115_read_conversion_value (delay_ms 10 (I2C_Stop (I2C_WriteByte
        ADS1115_ReadChannel_config_low (I2C_WriteByte (ADS1115_ReadChannel_config_high ch)
        (I2C_WriteByte 0x01 (I2C_WriteByte (ADS1115_ADDR <<< 1) (I2C_Start s)).2).2).2).2))).2.2
    rw [hl] at h
    exact h
  · refine ⟨callsOf (delay_ms 10 (I2C_Stop (I2C_WriteByte ADS1115_ReadChannel_config_low
        (I2C_WriteByte (ADS1115_ReadChannel_config_high ch) (I2C_WriteByte 0x01
        (I2C_WriteByte (ADS1115_ADDR <<< 1) (I2C_Start s)).2).2).2).2)).trace ++
        [Call.start, Call.write 0x90, Call.write 0x00, Call.stop,
         Call.start, Call.write 0x91], ?_⟩
    have h := (ADS1115_read_conversion_calls (delay_ms 10 (I2C_Stop (I2C_WriteByte
        ADS1115_ReadChannel_config_low (I2C_WriteByte (ADS1115_ReadChannel_config_high ch)
        (I2C_WriteByte 0x01 (I2C_WriteByte (ADS1115_ADDR <<< 1) (I2C_Start s)).2).2).2).2))).1
    rw [List.append_assoc]
    exact h
  · refine ⟨callsOf s.trace ++ [Call.start, Call.write 0x90, Call.write 0x00, Call.stop,
         Call.start, Call.write 0x91], ?_⟩
    rw [List.append_assoc]
    exact (ADS1115_read_conversion_calls s).1

/-- Witness for C19: the bytes `0xFF`, `0xFE` give -2. -/
theorem ADS1115_conversion_result_witness :
    ADS1115_result 0xFF 0xFE = -2 ∧ ADS1115_result 0x80 0x00 = -32768 := by
  have h1 := ADS1115_conversion_result 0xFF 0xFE (by decide) (by decide) 0
    (Bus.idle fun _ => false)
  have h2 := ADS1115_conversion_result 0x80 0x00 (by decide) (by decide) 0
    (Bus.idle fun _ => false)
  exact ⟨h1.2.2.1 (by decide), h2.2.2.1 (by decide)⟩

/-- C20 on the code: the high configuration byte written by
`ADS1115_ReadChannel(ch)` is `0xC2`, `0xD2`, `0xE2`, `0xF2` for `ch` = 0..3, the
same byte as `ADS1115_StartContinuous(ch)` writes; its bit 0 (MODE, bit 8 of the
word) is 0 in both, so both words select continuous conversion and they differ
only in the low byte (`0x83` against `0x03`). -/
theorem ADS1115_mode_bit :
    (ADS1115_ReadChannel_config_high 0 = 0xC2 ∧ ADS1115_ReadChannel_config_high 1 = 0xD2 ∧
      ADS1115_ReadChannel_config_high 2 = 0xE2 ∧ ADS1115_ReadChannel_config_high 3 = 0xF2) ∧
    ((ADS1115_ReadChannel_config_high 0).testBit 0 = false ∧
      (ADS1115_ReadChannel_config_high 1).testBit 0 = false ∧
      (ADS1115_ReadChannel_config_high 2).testBit 0 = false ∧
      (ADS1115_ReadChannel_config_high 3).testBit 0 = false) ∧
    ((ADS1115_StartContinuous_config_high 0).testBit 0 = false ∧
      (ADS1115_StartContinuous_config_high 1).testBit 0 = false ∧
      (ADS1115_StartContinuous_config_high 2).testBit 0 = false ∧
      (ADS1115_StartContinuous_config_high 3).testBit 0 = false) ∧
    (ADS1115_StartContinuous_config_high 0 = ADS1115_ReadChannel_config_high 0 ∧
      ADS1115_StartContinuous_config_high 1 = ADS1115_ReadChannel_config_high 1 ∧
      ADS1115_StartContinuous_config_high 2 = ADS1115_ReadChannel_config_high 2 ∧
      ADS1115_StartContinuous_config_high 3 = ADS1115_ReadChannel_config_high 3) ∧
    bytesWritten (callsOf (ADS1115_ReadChannel 0 (Bus.idle fun _ => false)).2.trace)
      = [0x90, 0x01, 0xC2, 0x83, 0x90, 0x00, 0x91] ∧
    bytesWritten (callsOf (ADS1115_StartContinuous 0 (Bus.idle fun _ => false)).trace)
      = [0x90, 0x01, 0xC2, 0x03] := by
  refine ⟨by decide, by decide, by decide, by decide, ?_, ?_⟩
  · rw [ADS1115_ReadChannel_calls]; rfl
  · rw [ADS1115_StartContinuous_calls]; rfl

/-! ## Converter configuration: claims C21 and C22 -/

/-- C21 on the code: for every channel 0..3 the gain field of the word written
by `ADS1115_ReadChannel` (bits 3:1 of the high byte, bits 11:9 of the word) is
001, the ±4.096 V range, not 000; the byte goes on the bus as computed; and
`GP2Y1014_Read` scales the code with 6144 mV for 32768: the code 4000 is taken
as 750 mV and reported as 25 ug/m3, where the range programmed makes it 500 mV. -/
theorem ADS1115_gain_field :
    (ADS1115_ReadChannel_config_high 0 / 2 % 8 = 1 ∧
      ADS1115_ReadChannel_config_high 1 / 2 % 8 = 1 ∧
      ADS1115_ReadChannel_config_high 2 / 2 % 8 = 1 ∧
      ADS1115_ReadChannel_config_high 3 / 2 % 8 = 1) ∧
    ((ADS1115_ReadChannel_config_high 0 * 256 + ADS1115_ReadChannel_config_low) / 512 % 8 = 1 ∧
      (ADS1115_ReadChannel_config_high 1 * 256 + ADS1115_ReadChannel_config_low) / 512 % 8 = 1 ∧
      (ADS1115_ReadChannel_config_high 2 * 256 + ADS1115_ReadChannel_config_low) / 512 % 8 = 1 ∧
      (ADS1115_ReadChannel_config_high 3 * 256 + ADS1115_ReadChannel_config_low) / 512 % 8
        = 1) ∧
    bytesWritten (callsOf (ADS1115_ReadChannel 1 (Bus.idle fun _ => false)).2.trace)
      = [0x90, 0x01, 0xD2, 0x83, 0x90, 0x00, 0x91] ∧
    GP2Y1014_Read 4000 = (25, 4000) ∧
    4000 * 6144 / 32768 = 750 ∧ 4000 * 4096 / 32768 = 500 := by
  refine ⟨by decide, by decide, ?_, ?_, by decide, by decide⟩
  · rw [ADS1115_ReadChannel_calls]; rfl
  · have hadc : (if (4000 : Int) < 0 then 0 else 4000) = (((4000 : Nat) : Nat) : Int) := by
      norm_num
    have h1 := GP2Y_voltage 4000 (by decide)
    have h2 := GP2Y_pm (4000 * 6144 / 32768) (by decide)
    have e16 : toU16 (((4000 : Nat) : Nat) : Int) = 4000 := by decide
    unfold GP2Y1014_Read
    simp only [hadc, GP2Y_ZERO_VOLTAGE]
    rw [h1, h2, e16]
    decide

/-- C22: for every channel `ch` in 0..3 the word written by
`ADS1115_ReadChannel(ch)` has bit 15 set and bits 14:12 equal to `4 + ch`, so
different channels give different words; whatever the state of the bus engine
before the call, the call writes the pointer byte 0x01 and the two bytes of the
word computed from `ch`. -/
theorem ADS1115_mux_field (ch : Nat) (hch : ch < 4) (s : Bus) :
    (ADS1115_ReadChannel_config_high ch * 256 + ADS1115_ReadChannel_config_low) / 32768 % 2
      = 1 ∧
    (ADS1115_ReadChannel_config_high ch * 256 + ADS1115_ReadChannel_config_low) / 4096 % 8
      = 4 + ch ∧
    (ADS1115_ReadChannel_config_high ch).testBit 7 = true ∧
    ADS1115_ReadChannel_config_high ch / 16 % 8 = 4 + ch ∧
    (∀ ch2, ch2 < 4 →
      ADS1115_ReadChannel_config_high ch2 * 256 + ADS1115_ReadChannel_config_low
        = ADS1115_ReadChannel_config_high ch * 256 + ADS1115_ReadChannel_config_low →
      ch2 = ch) ∧
    callsOf (ADS1115_ReadChannel ch s).2.trace = callsOf s.trace ++
      [Call.start, Call.write 0x90, Call.write 0x01,
       Call.write (ADS1115_ReadChannel_config_high ch),
       Call.write ADS1115_ReadChannel_config_low, Call.stop,
       Call.start, Call.write 0x90, Call.write 0x00, Call.stop,
       Call.start, Call.write 0x91, Call.read false, Call.read true, Call.stop] := by
  refine ⟨?_, ?_, ?_, ?_, ?_, ADS1115_ReadChannel_calls ch s⟩
  · revert ch; decide
  · revert ch; decide
  · revert ch; decide
  · revert ch; decide
  · revert ch; decide

/-- Witness for C22: channel 2 gives the word 0xE283, multiplexer field 6. -/
theorem ADS1115_mux_field_witness :
    ADS1115_ReadChannel_config_high 2 * 256 + ADS1115_ReadChannel_config_low = 0xE283 ∧
    (ADS1115_ReadChannel_config_high 2 * 256 + ADS1115_ReadChannel_config_low) / 4096 % 8
      = 4 + 2 :=
  ⟨by decide, (ADS1115_mux_field 2 (by decide) (Bus.idle fun _ => false)).2.1⟩

/-! ## Error flags of a cycle: claims C23 and C24 -/

set_option maxRecDepth 4000 in
/-- The cycle on the bus is the cycle on the values read from the bus. -/
theorem main_cycle_bus_eq (s : State) (b : Bus) :
    (main_cycle_bus s b).1 = main_cycle s (cycle_inputs b) := by
  unfold main_cycle_bus cycle_inputs AHT10_Read_bus GP2Y1014_Read_bus MQ2_Read_bus
  dsimp only
  generalize AHT10_Read_capture b = a
  generalize ADS1115_ReadChannel 1 (delay_us 280 (set_DUST_LED false a.2)) = r1
  generalize ADS1115_ReadChannel 0 (set_DUST_LED true r1.2) = r0
  rfl

/-! ## The fault indicator is never read -/

/-- `I2C_Start` does not look at `i2c_error`. -/
theorem I2C_Start_withError (e : Nat) (s : Bus) :
    I2C_Start (s.withError e) = (I2C_Start s).withError e := rfl

/-- `I2C_Stop` does not look at `i2c_error`. -/
theorem I2C_Stop_withError (e : Nat) (s : Bus) :
    I2C_Stop (s.withError e) = (I2C_Stop s).withError e := rfl

/-- `delay_ms` does not look at `i2c_error`. -/
theorem delay_ms_withError (n e : Nat) (s : Bus) :
    delay_ms n (s.withError e) = (delay_ms n s).withError e := rfl

/-- `delay_us` does not look at `i2c_error`. -/
theorem delay_us_withError (n e : Nat) (s : Bus) :
    delay_us n (s.withError e) = (delay_us n s).withError e := rfl

/-- The excitation output does not look at `i2c_error`. -/
theorem set_DUST_LED_withError (v : Bool) (e : Nat) (s : Bus) :
    set_DUST_LED v (s.withError e) = (set_DUST_LED v s).withError e := rfl

/-- The acknowledgement wait does not look at `i2c_error`. -/
theorem ack_wait_withError : ∀ (fuel timeout e : Nat) (s : Bus),
    ack_wait fuel timeout (s.withError e)
      = ((ack_wait fuel timeout s).1, (ack_wait fuel timeout s).2.withError e) := by
  intro fuel
  induction fuel with
  | zero => intro timeout e s; rfl
  | succ n ih =>
    intro timeout e s
    have hr : read_SDA (s.withError e) = ((read_SDA s).1, (read_SDA s).2.withError e) := rfl
    unfold ack_wait
    simp only [hr]
    by_cases h1 : (read_SDA s).1 = true
    · rw [if_pos h1, if_pos h1]
      by_cases h2 : (toU8 ((timeout : Int) - 1) != 0) = true
      · rw [if_pos h2, if_pos h2]
        exact ih _ _ _
      · rw [if_neg h2, if_neg h2]
    · rw [if_neg h1, if_neg h1]

/-- The data phase of `I2C_WriteByte` does not look at `i2c_error`. -/
theorem I2C_WriteByte_data_withError (dat e : Nat) (s : Bus) :
    I2C_WriteByte_data dat (s.withError e)
      = ((I2C_WriteByte_data dat s).1, (I2C_WriteByte_data dat s).2.withError e) := rfl

/-- `I2C_WriteByte` does not look at `i2c_error`: with another value on entry
it returns the same bit and leaves the same state but for the indicator. -/
theorem I2C_WriteByte_withError (dat e : Nat) (s : Bus) :
    (I2C_WriteByte dat (s.withError e)).1 = (I2C_WriteByte dat s).1 ∧
    (I2C_WriteByte dat (s.withError e)).2
      = (I2C_WriteByte dat s).2.withError
          (if (ack_wait 256 I2C_TIMEOUT (set_SCL true (delay_us 2 (set_SDA true
              (I2C_WriteByte_data dat (enter (Call.write dat) s)).2)))).1 = 0 then 1 else e) := by
  have h0 : enter (Call.write dat) (s.withError e) = (enter (Call.write dat) s).withError e := rfl
  unfold I2C_WriteByte
  simp only []
  rw [h0, I2C_WriteByte_data_withError]
  simp only []
  generalize (I2C_WriteByte_data dat (enter (Call.write dat) s)).2 = d
  have h1 : set_SCL true (delay_us 2 (set_SDA true (d.withError e)))
      = (set_SCL true (delay_us 2 (set_SDA true d))).withError e := rfl
  unfold I2C_WriteByte_ack
  simp only []
  rw [h1, ack_wait_withError]
  simp only []
  generalize ack_wait 256 I2C_TIMEOUT (set_SCL true (delay_us 2 (set_SDA true d))) = w
  refine ⟨rfl, ?_⟩
  by_cases ht : w.1 = 0
  · rw [if_pos ht, if_pos ht, if_pos ht]; rfl
  · rw [if_neg ht, if_neg ht, if_neg ht]; rfl

/-- `I2C_ReadByte` does not look at `i2c_error`. -/
theorem I2C_ReadByte_withError (ack : Bool) (e : Nat) (s : Bus) :
    I2C_ReadByte ack (s.withError e)
      = ((I2C_ReadByte ack s).1, (I2C_ReadByte ack s).2.withError e) := rfl

/-- The AHT10 transactions read the same six bytes whatever `i2c_error` is on
entry, and leave the same state but for the indicator. -/
theorem AHT10_Read_capture_withError (e : Nat) (s : Bus) :
    (AHT10_Read_capture (s.withError e)).1 = (AHT10_Read_capture s).1 ∧
    ∃ e2, (AHT10_Read_capture (s.withError e)).2 = (AHT10_Read_capture s).2.withError e2 := by
  unfold AHT10_Read_capture
  simp only [I2C_Start_withError, I2C_Stop_withError, delay_ms_withError,
    (I2C_WriteByte_withError _ _ _).2, I2C_ReadByte_withError]
  exact ⟨trivial, _, rfl⟩

/-- The conversion read returns the same value whatever `i2c_error` is on entry. -/
theorem ADS1115_ReadChannel_withError (ch e : Nat) (s : Bus) :
    (ADS1115_ReadChannel ch (s.withError e)).1 = (ADS1115_ReadChannel ch s).1 ∧
    ∃ e2, (ADS1115_ReadChannel ch (s.withError e)).2
      = (ADS1115_ReadChannel ch s).2.withError e2 := by
  unfold ADS1115_ReadChannel ADS1115_read_conversion
  simp only [I2C_Start_withError, I2C_Stop_withError, delay_ms_withError,
    (I2C_WriteByte_withError _ _ _).2, I2C_ReadByte_withError]
  exact ⟨trivial, _, rfl⟩

set_option maxRecDepth 4000 in
/-- The values read in a cycle do not depend on `i2c_error`. -/
theorem cycle_inputs_withError (e : Nat) (b : Bus) :
    cycle_inputs (b.withError e) = cycle_inputs b := by
  obtain ⟨h1, e1, h2⟩ := AHT10_Read_capture_withError e b
  unfold cycle_inputs
  dsimp only
  rw [h1, h2]
  generalize (AHT10_Read_capture b).2 = s1
  rw [set_DUST_LED_withError, delay_us_withError]
  obtain ⟨h4, e4, h5⟩ := ADS1115_ReadChannel_withError 1 e1
    (delay_us 280 (set_DUST_LED false s1))
  rw [h4, h5]
  generalize (ADS1115_ReadChannel 1 (delay_us 280 (set_DUST_LED false s1))).2 = s2
  rw [set_DUST_LED_withError, (ADS1115_ReadChannel_withError 0 e4 _).1]

/-- The AHT10 flag and readings after a cycle, from the capture alone. -/
theorem main_cycle_aht10 (s : State) (i : CycleInput) :
    (main_cycle s i).err_aht10
      = (if (AHT10_Read i.capture).1 < AHT10_TEMP_MIN ∨
            (AHT10_Read i.capture).1 > AHT10_TEMP_MAX ∨
            (AHT10_Read i.capture).2 < AHT10_HUMID_MIN ∨
            (AHT10_Read i.capture).2 > AHT10_HUMID_MAX then 1 else 0) ∧
    (main_cycle s i).temperature_x10 = (AHT10_Read i.capture).1 ∧
    (main_cycle s i).humidity_x10 = (AHT10_Read i.capture).2 := by
  refine ⟨?_, rfl, rfl⟩
  unfold main_cycle
  simp only []

/-- The two analog flags and readings after a cycle, each from its own
conversion result (and, for the filtered gas value, the ring). -/
theorem main_cycle_analog (s : State) (i : CycleInput) :
    (main_cycle s i).err_pm25
      = (if (GP2Y1014_Read i.adc_ch1).2 = 0 ∨ (GP2Y1014_Read i.adc_ch1).2 > 60000 ∨
            (GP2Y1014_Read i.adc_ch1).1 > 500 then 1 else 0) ∧
    (main_cycle s i).pm25_ugm3 = (GP2Y1014_Read i.adc_ch1).1 ∧
    (main_cycle s i).pm25_raw = (GP2Y1014_Read i.adc_ch1).2 ∧
    (main_cycle s i).err_gas
      = (if MQ2_Read i.adc_ch0 = 0 ∨ MQ2_Read i.adc_ch0 > 60000 then 1 else 0) ∧
    (main_cycle s i).gas_raw = (Gas_Filter s.ring (gas_raw_clamped i)).2 ∧
    (main_cycle s i).gas_ppm
      = (if (Gas_Filter s.ring (gas_raw_clamped i)).2 ≤ 150 then 0
         else min (((Gas_Filter s.ring (gas_raw_clamped i)).2 - 150) / 33) 1000) := by
  have e : (main_cycle s i).gas_raw = (Gas_Filter s.ring (gas_raw_clamped i)).2 := rfl
  refine ⟨rfl, rfl, rfl, rfl, e, ?_⟩
  exact gas_ppm_eq _ (Gas_Filter_lt _ _)

/-- C23: the three flags after a cycle do not depend on the starting state
(previous flags, previous readings, filter ring); each flag and each reading
is the same whenever the own channel's bytes are the same, whatever the two
other channels read (the filtered gas value also uses the ring); and the cycle
on the bus is this cycle applied to the values the three transactions read. -/
theorem main_cycle_flags_local (s1 s2 : State) (c c2 : Capture) (a1 a1x a0 a0x : Int)
    (b : Bus) :
    ((main_cycle s1 ⟨c, a1, a0⟩).err_aht10 = (main_cycle s2 ⟨c, a1, a0⟩).err_aht10 ∧
      (main_cycle s1 ⟨c, a1, a0⟩).err_pm25 = (main_cycle s2 ⟨c, a1, a0⟩).err_pm25 ∧
      (main_cycle s1 ⟨c, a1, a0⟩).err_gas = (main_cycle s2 ⟨c, a1, a0⟩).err_gas) ∧
    ((main_cycle s1 ⟨c, a1, a0⟩).err_aht10 = (main_cycle s2 ⟨c, a1x, a0x⟩).err_aht10 ∧
      (main_cycle s1 ⟨c, a1, a0⟩).temperature_x10
        = (main_cycle s2 ⟨c, a1x, a0x⟩).temperature_x10 ∧
      (main_cycle s1 ⟨c, a1, a0⟩).humidity_x10
        = (main_cycle s2 ⟨c, a1x, a0x⟩).humidity_x10) ∧
    ((main_cycle s1 ⟨c, a1, a0⟩).err_pm25 = (main_cycle s2 ⟨c2, a1, a0x⟩).err_pm25 ∧
      (main_cycle s1 ⟨c, a1, a0⟩).pm25_ugm3 = (main_cycle s2 ⟨c2, a1, a0x⟩).pm25_ugm3 ∧
      (main_cycle s1 ⟨c, a1, a0⟩).pm25_raw = (main_cycle s2 ⟨c2, a1, a0x⟩).pm25_raw) ∧
    ((main_cycle s1 ⟨c, a1, a0⟩).err_gas = (main_cycle s2 ⟨c2, a1x, a0⟩).err_gas ∧
      (main_cycle s1 ⟨c, a1, a0⟩).gas_raw = (main_cycle s1 ⟨c2, a1x, a0⟩).gas_raw ∧
      (main_cycle s1 ⟨c, a1, a0⟩).gas_ppm = (main_cycle s1 ⟨c2, a1x, a0⟩).gas_ppm) ∧
    (main_cycle_bus s1 b).1 = main_cycle s1 (cycle_inputs b) ∧
    (main_cycle_bus s1 b).1.err_aht10 = (main_cycle_bus s2 b).1.err_aht10 ∧
    (main_cycle_bus s1 b).1.err_pm25 = (main_cycle_bus s2 b).1.err_pm25 ∧
    (main_cycle_bus s1 b).1.err_gas = (main_cycle_bus s2 b).1.err_gas := by
  have hA := main_cycle_aht10
  have hB := main_cycle_analog
  refine ⟨⟨?_, ?_, ?_⟩, ⟨?_, ?_, ?_⟩, ⟨?_, ?_, ?_⟩, ⟨?_, ?_, ?_⟩, main_cycle_bus_eq s1 b,
    ?_, ?_, ?_⟩
  · rw [(hA s1 _).1, (hA s2 _).1]
  · rw [(hB s1 _).1, (hB s2 _).1]
  · rw [(hB s1 _).2.2.2.1, (hB s2 _).2.2.2.1]
  · rw [(hA s1 _).1, (hA s2 _).1]
  · rw [(hA s1 _).2.1, (hA s2 _).2.1]
  · rw [(hA s1 _).2.2, (hA s2 _).2.2]
  · rw [(hB s1 _).1, (hB s2 _).1]
  · rw [(hB s1 _).2.1, (hB s2 _).2.1]
  · rw [(hB s1 _).2.2.1, (hB s2 _).2.2.1]
  · rw [(hB s1 _).2.2.2.1, (hB s2 _).2.2.2.1]
  · rw [(hB s1 _).2.2.2.2.1, (hB s1 _).2.2.2.2.1]; rfl
  · rw [(hB s1 _).2.2.2.2.2, (hB s1 _).2.2.2.2.2]; rfl
  · rw [main_cycle_bus_eq, main_cycle_bus_eq, (hA s1 _).1, (hA s2 _).1]
  · rw [main_cycle_bus_eq, main_cycle_bus_eq, (hB s1 _).1, (hB s2 _).1]
  · rw [main_cycle_bus_eq, main_cycle_bus_eq, (hB s1 _).2.2.2.1, (hB s2 _).2.2.2.1]

/-- C24 as the code has it: the state after a cycle on the bus, the three error
flags included, is computed from the values the transactions read and from
nothing else; `err_aht10` is 1 exactly when the decoded temperature or humidity
is outside its range, `err_pm25` and `err_gas` exactly when the value read
fails its test.  The fault indicator `i2c_error` does not enter: with any other
value of it on entry the cycle reads the same values and ends in the same
state. -/
theorem main_cycle_bus_flags (s : State) (b : Bus) :
    (main_cycle_bus s b).1 = main_cycle s (cycle_inputs b) ∧
    (∀ e, cycle_inputs (b.withError e) = cycle_inputs b) ∧
    (∀ e, (main_cycle_bus s (b.withError e)).1 = (main_cycle_bus s b).1) ∧
    (main_cycle_bus s b).1.err_aht10
      = (if (AHT10_Read (cycle_inputs b).capture).1 < AHT10_TEMP_MIN ∨
            (AHT10_Read (cycle_inputs b).capture).1 > AHT10_TEMP_MAX ∨
            (AHT10_Read (cycle_inputs b).capture).2 < AHT10_HUMID_MIN ∨
            (AHT10_Read (cycle_inputs b).capture).2 > AHT10_HUMID_MAX then 1 else 0) ∧
    (main_cycle_bus s b).1.err_pm25
      = (if (GP2Y1014_Read (cycle_inputs b).adc_ch1).2 = 0 ∨
            (GP2Y1014_Read (cycle_inputs b).adc_ch1).2 > 60000 ∨
            (GP2Y1014_Read (cycle_inputs b).adc_ch1).1 > 500 then 1 else 0) ∧
    (main_cycle_bus s b).1.err_gas
      = (if MQ2_Read (cycle_inputs b).adc_ch0 = 0 ∨ MQ2_Read (cycle_inputs b).adc_ch0 > 60000
          then 1 else 0) := by
  refine ⟨main_cycle_bus_eq s b, fun e => cycle_inputs_withError e b, ?_, ?_, ?_, ?_⟩
  · intro e
    rw [main_cycle_bus_eq, main_cycle_bus_eq, cycle_inputs_withError]
  · rw [main_cycle_bus_eq]; exact (main_cycle_aht10 _ _).1
  · rw [main_cycle_bus_eq]; exact (main_cycle_analog _ _).1
  · rw [main_cycle_bus_eq]; exact (main_cycle_analog _ _).2.2.2.1

set_option maxRecDepth 100000 in
/-- C24 fails on the code: on a bus where the first address byte of the AHT10
transaction runs into the acknowledgement timeout (so `i2c_error` goes from 0
to 1 during that transaction) and the rest of the transaction reads the bytes
00 00 00 08 00 00 (50.0 degrees, 0.0 percent), `err_aht10` is 0 at the end of
the cycle. -/
theorem bus_fault_without_flag :
    (Bus.idle faultyLine).i2c_error = 0 ∧
    (I2C_WriteByte (AHT10_ADDR <<< 1) (I2C_Start (Bus.idle faultyLine))).1 = true ∧
    (AHT10_Read_bus (Bus.idle faultyLine)).2.i2c_error = 1 ∧
    (main_cycle_bus State.reset (Bus.idle faultyLine)).2.i2c_error = 1 ∧
    (cycle_inputs (Bus.idle faultyLine)).capture = ⟨0, 0, 0, 8, 0, 0⟩ ∧
    (main_cycle_bus State.reset (Bus.idle faultyLine)).1.temperature_x10 = 500 ∧
    (main_cycle_bus State.reset (Bus.idle faultyLine)).1.humidity_x10 = 0 ∧
    (main_cycle_bus State.reset (Bus.idle faultyLine)).1.err_aht10 = 0 := by
  decide

/-! ## Delay and watchdog: claim C25 -/

/-- The inner loop of `delay_ms` leaves at `j = 120`. -/
theorem delay_ms_inner_eq : delay_ms_inner 120 0 = 120 := by
  decide

/-- The outer loop of `delay_ms`, started at `i` with at least `ms - i` turns
allowed, leaves at `i = ms` after `ms - i` iterations. -/
theorem delay_ms_loop_eq (ms : Nat) (hms : ms < 65536) :
    ∀ (fuel i : Nat) (t : List TimeEv), i ≤ ms → ms - i ≤ fuel →
      delay_ms_loop fuel i ms t = (ms, t ++ (List.replicate (ms - i) msIteration).flatten) := by
  intro fuel
  induction fuel with
  | zero =>
    intro i t hi hf
    have e : ms - i = 0 := by omega
    have e2 : i = ms := by omega
    rw [e, e2]
    simp [delay_ms_loop]
  | succ k ih =>
    intro i t hi hf
    unfold delay_ms_loop
    by_cases h : i < ms
    · rw [if_pos h]
      have e1 : toU16 ((i : Int) + 1) = i + 1 := by unfold toU16; omega
      simp only [e1, delay_ms_inner_eq]
      rw [ih (i + 1) _ (by omega) (by omega)]
      have e2 : ms - i = (ms - (i + 1)) + 1 := by omega
      rw [e2, List.replicate_succ, List.flatten_cons]
      simp [WDT_Feed, msIteration]
    · rw [if_neg h]
      have e : ms - i = 0 := by omega
      have e2 : i = ms := by omega
      rw [e, e2]
      simp

/-- Number of refreshes in a record made of whole iterations. -/
theorem feeds_iterations (n : Nat) : feeds (List.replicate n msIteration).flatten = n := by
  induction n with
  | zero => rfl
  | succ k ih =>
    rw [List.replicate_succ, List.flatten_cons]
    simp only [msIteration, List.cons_append, List.nil_append, feeds]
    simpa [msIteration] using ih

/-- C25: for every `n` in 0..65535 `delay_ms(n)` leaves its loop (with `i = n`,
and any larger bound on the iterations gives the same run); what it did is
`n` times a watchdog refresh followed by the inner loop, and nothing else: `n`
refreshes in all, one at the start of every iteration, none for `n = 0`. -/
theorem delay_ms_feeds (n : Nat) (hn : n < 65536) (t : List TimeEv) :
    Timing.delay_ms n t = (n, t ++ (List.replicate n msIteration).flatten) ∧
    (∀ fuel, n ≤ fuel → delay_ms_loop fuel 0 n t = Timing.delay_ms n t) ∧
    feeds (List.replicate n msIteration).flatten = n ∧
    feeds (Timing.delay_ms n []).2 = n ∧
    Timing.delay_ms 0 t = (0, t) := by
  have h := delay_ms_loop_eq n hn
  have h0 := delay_ms_loop_eq 0 (by decide) 65536 0 t (by omega) (by omega)
  refine ⟨?_, ?_, feeds_iterations n, ?_, ?_⟩
  · unfold Timing.delay_ms
    rw [h 65536 0 t (by omega) (by omega)]; rfl
  · intro fuel hf
    unfold Timing.delay_ms
    rw [h fuel 0 t (by omega) (by omega), h 65536 0 t (by omega) (by omega)]
  · unfold Timing.delay_ms
    rw [h 65536 0 [] (by omega) (by omega)]
    exact feeds_iterations n
  · unfold Timing.delay_ms
    rw [h0]; simp

/-- Witness for C25: `delay_ms(2)` refreshes the watchdog twice. -/
theorem delay_ms_feeds_witness :
    Timing.delay_ms 2 [] = (2, [TimeEv.wdtrst 0x1E, TimeEv.wdtrst 0xE1, TimeEv.spin 120,
      TimeEv.wdtrst 0x1E, TimeEv.wdtrst 0xE1, TimeEv.spin 120]) ∧
    feeds (Timing.delay_ms 2 []).2 = 2 :=
  ⟨(delay_ms_feeds 2 (by decide) []).1, (delay_ms_feeds 2 (by decide) []).2.2.2.1⟩


/-! ## Character buffers: stores through a pointer -/

/-- Code of the character `0`. -/
theorem ch_zero : ch '0' = 48 := by decide

/-- A store through the pointer overwrites the terminator stored there. -/
theorem Wr.put_nul (c : Nat) (w : Wr) : w.nul.put c = w.put c := by
  cases w with
  | mk cells p fault tf =>
    simp only [Wr.put, Wr.nul, List.set_set, List.length_set, Bool.or_assoc, Bool.or_self]

/-- Storing the terminator twice is storing it once. -/
theorem Wr.nul_nul (w : Wr) : w.nul.nul = w.nul := by
  cases w with
  | mk cells p fault tf =>
    simp only [Wr.nul, List.set_set, List.length_set, Bool.or_assoc, Bool.or_self]

/-- No characters stored. -/
theorem puts_nil (w : Wr) : puts [] w = w := rfl

/-- Characters are stored first to last. -/
theorem puts_cons (c : Nat) (cs : List Nat) (w : Wr) : puts (c :: cs) w = puts cs (w.put c) :=
  rfl

/-- Two runs of stores are one run. -/
theorem puts_puts (a b : List Nat) (w : Wr) : puts b (puts a w) = puts (a ++ b) w := by
  unfold puts; rw [List.foldl_append]

/-- A single store is a run of one. -/
theorem put_eq_puts (c : Nat) (w : Wr) : w.put c = puts [c] w := rfl

/-- A non-empty run of stores overwrites the terminator at the pointer. -/
theorem puts_nul (c : Nat) (cs : List Nat) (w : Wr) : puts (c :: cs) w.nul = puts (c :: cs) w := by
  rw [puts_cons, puts_cons, Wr.put_nul]

/-- Stores into an array whose first cells are known and whose other cells have
not been stored to, with room for the run. -/
theorem puts_known (cs : List Nat) :
    ∀ (pre : List Nat) (k : Nat) (tf : Bool), cs.length ≤ k →
      puts cs ⟨pre.map some ++ List.replicate k none, pre.length, false, tf⟩
        = ⟨(pre ++ cs).map some ++ List.replicate (k - cs.length) none,
            pre.length + cs.length, false, tf⟩ := by
  induction cs with
  | nil => intro pre k tf _; simp [puts]
  | cons c cs ih =>
    intro pre k tf hk
    simp only [List.length_cons] at hk
    obtain ⟨k2, rfl⟩ : ∃ k2, k = k2 + 1 := ⟨k - 1, by omega⟩
    have hput : Wr.put c ⟨pre.map some ++ List.replicate (k2 + 1) none, pre.length, false, tf⟩
        = ⟨(pre ++ [c]).map some ++ List.replicate k2 none, (pre ++ [c]).length, false, tf⟩ := by
      unfold Wr.put
      simp only [List.length_append, List.length_map, List.length_replicate, List.length_cons,
        List.length_nil]
      rw [List.set_append_right _ _ (by simp)]
      simp [List.replicate_succ]
    rw [puts_cons, hput, ih (pre ++ [c]) k2 tf (by omega)]
    simp only [List.length_append, List.length_cons, List.length_nil, List.append_assoc,
      List.singleton_append, Wr.mk.injEq, and_true, true_and]
    constructor
    · congr 2; omega
    · omega

/-- A run of stores from the start of a fresh array, then the terminator: the
cells hold the run, the terminator, and cells not stored to. -/
theorem nul_puts_fresh (cs : List Nat) (n : Nat) (h : cs.length < n) :
    (puts cs (Wr.fresh n)).nul
      = ⟨cs.map some ++ some 0 :: List.replicate (n - cs.length - 1) none, cs.length, false,
          false⟩ := by
  have e := puts_known cs [] n false (by omega)
  simp only [List.map_nil, List.nil_append, List.length_nil, Nat.zero_add] at e
  unfold Wr.fresh
  rw [e]
  unfold Wr.nul
  simp only [List.length_append, List.length_map, List.length_replicate]
  rw [List.set_append_right _ _ (by simp)]
  obtain ⟨m, hm⟩ : ∃ m, n - cs.length = m + 1 := ⟨n - cs.length - 1, by omega⟩
  rw [hm]
  simp [List.replicate_succ]

/-- The pointer after a run of stores. -/
theorem puts_p (cs : List Nat) : ∀ w : Wr, (puts cs w).p = w.p + cs.length := by
  induction cs with
  | nil => intro w; rfl
  | cons c cs ih =>
    intro w
    rw [puts_cons, ih]
    simp only [Wr.put, List.length_cons]
    omega

/-- A run of stores does not touch the scratch flag. -/
theorem puts_temp_fault (cs : List Nat) : ∀ w : Wr, (puts cs w).temp_fault = w.temp_fault := by
  induction cs with
  | nil => intro w; rfl
  | cons c cs ih => intro w; rw [puts_cons, ih]; rfl

/-- `UART_SendString` on cells that hold a text without NUL, then a NUL. -/
theorem UART_SendString_text (cs : List Nat) (rest : Cells) (h : ∀ c ∈ cs, c ≠ 0) :
    UART_SendString (cs.map some ++ some 0 :: rest) = (cs, false) := by
  induction cs with
  | nil => simp [UART_SendString]
  | cons c cs ih =>
    have hc : c ≠ 0 := h c (List.mem_cons_self _ _)
    have ih2 := ih (fun x hx => h x (List.mem_cons_of_mem _ hx))
    rw [List.map_cons, List.cons_append]
    unfold UART_SendString
    rw [if_neg hc, ih2]

/-! ## Number formatting: the two loops -/

/-- A number below `10 ^ k` has at most `k` digits. -/
theorem digits_length_le : ∀ (k n : Nat), n < 10 ^ k → (Nat.digits 10 n).length ≤ k := by
  intro k
  induction k with
  | zero =>
    intro n hn
    have e : n = 0 := by simpa using hn
    rw [e]; simp
  | succ k ih =>
    intro n hn
    by_cases h0 : n = 0
    · rw [h0]; simp
    · rw [Nat.digits_def' (by decide) (Nat.pos_of_ne_zero h0), List.length_cons]
      have h2 : n / 10 < 10 ^ k := by
        rw [Nat.div_lt_iff_lt_mul (by decide)]
        rw [Nat.pow_succ] at hn
        exact hn
      have := ih (n / 10) h2
      omega

/-- The digit loop, started with `pre` already in `temp` and room for the
digits of `val`: it leaves with `val = 0` and has stored the digits of `val`,
lowest first, after `pre`. -/
theorem digits_loop_spec :
    ∀ (fuel val : Nat) (pre : List Nat) (k : Nat) (f : Bool), val ≤ fuel →
      (Nat.digits 10 val).length ≤ k → pre.length + k ≤ 255 →
      digits_loop fuel val ⟨pre.map some ++ List.replicate k none, pre.length, f⟩
        = (0, ⟨(pre ++ (Nat.digits 10 val).map fun d => ch '0' + d).map some ++
                List.replicate (k - (Nat.digits 10 val).length) none,
              pre.length + (Nat.digits 10 val).length, f⟩) := by
  intro fuel
  induction fuel with
  | zero =>
    intro val pre k f hv _ _
    have e : val = 0 := by omega
    rw [e]
    simp [digits_loop]
  | succ n ih =>
    intro val pre k f hv hk hp
    unfold digits_loop
    by_cases h0 : val > 0
    · rw [if_pos h0]
      have hd := Nat.digits_def' (by decide : 1 < 10) h0
      rw [hd, List.length_cons] at hk
      obtain ⟨k2, rfl⟩ : ∃ k2, k = k2 + 1 := ⟨k - 1, by omega⟩
      have e1 : toU8 ((ch '0' + val % 10 : Nat) : Int) = ch '0' + val % 10 := by
        rw [ch_zero]; unfold toU8; omega
      have e2 : toU8 ((pre.length : Int) + 1) = (pre ++ [ch '0' + val % 10]).length := by
        rw [List.length_append, List.length_singleton]; unfold toU8; omega
      have e3 : (pre.map some ++ List.replicate (k2 + 1) none).set pre.length
          (some (ch '0' + val % 10))
          = (pre ++ [ch '0' + val % 10]).map some ++ List.replicate k2 none := by
        rw [List.set_append_right _ _ (by simp)]
        simp [List.replicate_succ]
      have e4 : (f || decide ((pre.map some ++ List.replicate (k2 + 1) none).length
          ≤ pre.length)) = f := by
        simp
      simp only [e1, e2, e3, e4]
      rw [ih (val / 10) (pre ++ [ch '0' + val % 10]) k2 f (by omega) (by omega)
        (by rw [List.length_append, List.length_singleton]; omega)]
      rw [hd]
      simp only [List.length_append, List.length_singleton, List.length_cons, List.length_nil,
        List.map_cons, List.append_assoc, List.singleton_append, Prod.mk.injEq,
        Scratch.mk.injEq, and_true, true_and]
      constructor
      · congr 2; omega
      · omega
    · rw [if_neg h0]
      have e : val = 0 := by omega
      rw [e]
      simp

/-- The copy loop, started at the end of the known cells of `temp`: it stores
them through the pointer last to first and leaves with `i = 0`. -/
theorem copy_loop_spec :
    ∀ (fuel : Nat) (cs : List Nat) (rest : Cells) (f : Bool) (w : Wr), cs.length ≤ fuel →
      cs.length ≤ 255 →
      copy_loop fuel ⟨cs.map some ++ rest, cs.length, f⟩ w
        = (⟨cs.map some ++ rest, 0, f⟩, puts cs.reverse w) := by
  intro fuel
  induction fuel with
  | zero =>
    intro cs rest f w h _
    have e : cs = [] := List.eq_nil_of_length_eq_zero (by omega)
    rw [e]; rfl
  | succ n ih =>
    intro cs rest f w h h2
    rcases List.eq_nil_or_concat cs with e | ⟨L, b, e⟩
    · rw [e]; rfl
    · rw [List.concat_eq_append] at e
      rw [e] at h h2 ⊢
      rw [List.length_append, List.length_singleton] at h h2
      unfold copy_loop
      have hpos : (L ++ [b]).length > 0 := by
        rw [List.length_append, List.length_singleton]; omega
      rw [if_pos hpos]
      have e1 : toU8 (((L ++ [b]).length : Int) - 1) = L.length := by
        rw [List.length_append, List.length_singleton]; unfold toU8; push_cast; omega
      have e2 : (L ++ [b]).map some ++ rest = L.map some ++ some b :: rest := by simp
      have e3 : (L.map some ++ some b :: rest).getD L.length none = some b := by
        rw [List.getD_append_right _ _ _ _ (by simp)]
        simp
      simp only [e1]
      rw [e2, e3]
      simp only [Option.isNone_some, Bool.or_false, Option.getD_some]
      rw [ih L (some b :: rest) f (w.put b) (by omega) (by omega)]
      rw [List.reverse_append, List.reverse_singleton, List.singleton_append, puts_cons]

/-- The two loops together store the digits of `val`, highest first, through
the pointer, and index `temp` inside its six cells only. -/
theorem write_digits_spec (val : Nat) (hv : val < 1000000) (w : Wr) :
    write_digits val w = puts ((Nat.digits 10 val).reverse.map fun d => ch '0' + d) w ∧
    (digits_loop val val Scratch.fresh).1 = 0 ∧
    (digits_loop val val Scratch.fresh).2.fault = false ∧
    (copy_loop (digits_loop val val Scratch.fresh).2.i (digits_loop val val Scratch.fresh).2
      w).1.fault = false := by
  have hlen := digits_length_le 6 val (by norm_num; exact hv)
  have h1 := digits_loop_spec val val [] 6 false (Nat.le_refl _) hlen (by simp)
  simp only [List.map_nil, List.nil_append, List.length_nil, Nat.zero_add] at h1
  have h1x : digits_loop val val Scratch.fresh = _ := h1
  have h2 := copy_loop_spec (Nat.digits 10 val).length
    ((Nat.digits 10 val).map fun d => ch '0' + d)
    (List.replicate (6 - (Nat.digits 10 val).length) none) false w (by simp) (by simp; omega)
  rw [List.length_map] at h2
  unfold write_digits
  rw [h1x]
  simp only []
  rw [h2]
  simp only [Bool.or_false, List.map_reverse, and_self, and_true]

/-! ## Number formatting: claims C26 and C27 -/

/-- Code of the character `9`. -/
theorem ch_nine : ch '9' = 57 := by decide

/-- Code of the point. -/
theorem ch_dot : ch '.' = 46 := by decide

/-- Code of the minus sign. -/
theorem ch_minus : ch '-' = 45 := by decide

/-- The representation has between one and five characters. -/
theorem decimal_length (n : Nat) (hn : n < 65536) :
    1 ≤ (decimal n).length ∧ (decimal n).length ≤ 5 := by
  unfold decimal
  by_cases h : n = 0
  · rw [if_pos h]; simp
  · rw [if_neg h, List.length_map, List.length_reverse]
    have h1 := digits_length_le 5 n (by norm_num; omega)
    have h2 : Nat.digits 10 n ≠ [] := Nat.digits_ne_nil_iff_ne_zero.mpr h
    have h3 : (Nat.digits 10 n).length ≠ 0 := fun e => h2 (List.eq_nil_of_length_eq_zero e)
    omega

/-- Numbers below 1000 have at most three characters. -/
theorem decimal_length_small (n : Nat) (hn : n < 1000) : (decimal n).length ≤ 3 := by
  unfold decimal
  by_cases h : n = 0
  · rw [if_pos h]; simp
  · rw [if_neg h, List.length_map, List.length_reverse]
    exact digits_length_le 3 n (by norm_num; omega)

/-- Every character of the representation is a digit. -/
theorem decimal_digits (n : Nat) : ∀ c ∈ decimal n, ch '0' ≤ c ∧ c ≤ ch '9' := by
  intro c hc
  unfold decimal at hc
  rw [ch_zero, ch_nine]
  by_cases h : n = 0
  · rw [if_pos h] at hc
    have e : c = ch '0' := by simpa using hc
    rw [e, ch_zero]; omega
  · rw [if_neg h] at hc
    obtain ⟨d, hd, he⟩ := List.mem_map.mp hc
    have hd2 : d < 10 := Nat.digits_lt_base (by decide) (List.mem_reverse.mp hd)
    rw [ch_zero] at he
    omega

/-- The representation starts with `0` only for 0. -/
theorem decimal_head (n : Nat) : (decimal n).head? = some (ch '0') ↔ n = 0 := by
  unfold decimal
  by_cases h : n = 0
  · rw [if_pos h]; simp [h]
  · rw [if_neg h]
    have h2 : Nat.digits 10 n ≠ [] := Nat.digits_ne_nil_iff_ne_zero.mpr h
    have h3 := Nat.getLast_digit_ne_zero 10 h
    rw [List.head?_map, List.head?_reverse, List.getLast?_eq_getLast _ h2]
    simp only [Option.map_some', Option.some.injEq]
    constructor
    · intro e; exact absurd (by omega) h3
    · intro e; exact absurd e h

/-- Reading the digits of a list back, highest first. -/
theorem readDecimal_digits (L : List Nat) :
    readDecimal (L.reverse.map fun d => ch '0' + d) = Nat.ofDigits 10 L := by
  induction L with
  | nil => rfl
  | cons a L ih =>
    rw [List.reverse_cons, List.map_append, Nat.ofDigits_cons]
    unfold readDecimal at ih ⊢
    rw [List.foldl_append, ih]
    simp only [List.map_cons, List.map_nil, List.foldl_cons, List.foldl_nil, Nat.cast_id]
    omega

/-- Reading the representation back gives the number. -/
theorem readDecimal_decimal (n : Nat) : readDecimal (decimal n) = n := by
  unfold decimal
  by_cases h : n = 0
  · rw [if_pos h, h]; rfl
  · rw [if_neg h, readDecimal_digits, Nat.ofDigits_digits]

/-- The part of `uint_to_str` before the terminator stores the representation. -/
theorem uint_body_eq (n : Nat) (hn : n < 65536) (w : Wr) :
    (if n = 0 then w.put (ch '0') else write_digits n w) = puts (decimal n) w := by
  unfold decimal
  by_cases h : n = 0
  · rw [if_pos h, if_pos h]; rfl
  · rw [if_neg h, if_neg h]
    exact (write_digits_spec n (by omega) w).1

/-- `uint_to_str` stores the representation and the terminator. -/
theorem uint_to_str_eq (n : Nat) (hn : n < 65536) (w : Wr) :
    uint_to_str n w = (puts (decimal n) w).nul := by
  unfold uint_to_str
  simp only []
  rw [uint_body_eq n hn w]

/-- C27: for every 16-bit `n` and every pointer, `uint_to_str` stores the
decimal representation of `n` from the pointer on, then the NUL, and returns
the position of the NUL; the representation has 1 to 5 digit characters,
starts with `0` only for `n = 0`, and reads back as `n`; the digit loop ends
(`val = 0`) and no index into `temp[6]` falls outside it. -/
theorem uint_to_str_decimal (n : Nat) (hn : n < 65536) (w : Wr) :
    uint_to_str n w = (puts (decimal n) w).nul ∧
    (uint_to_str n w).p = w.p + (decimal n).length ∧
    uint_to_str n (Wr.fresh 6)
      = ⟨(decimal n).map some ++ some 0 :: List.replicate (6 - (decimal n).length - 1) none,
          (decimal n).length, false, false⟩ ∧
    (1 ≤ (decimal n).length ∧ (decimal n).length ≤ 5) ∧
    (∀ c ∈ decimal n, ch '0' ≤ c ∧ c ≤ ch '9') ∧
    ((decimal n).head? = some (ch '0') ↔ n = 0) ∧
    decimal 0 = [ch '0'] ∧
    readDecimal (decimal n) = n ∧
    (uint_to_str n w).temp_fault = w.temp_fault ∧
    (digits_loop n n Scratch.fresh).1 = 0 ∧
    (digits_loop n n Scratch.fresh).2.fault = false ∧
    (copy_loop (digits_loop n n Scratch.fresh).2.i (digits_loop n n Scratch.fresh).2
      w).1.fault = false := by
  have h := uint_to_str_eq n hn
  have hl := decimal_length n hn
  have hw := write_digits_spec n (by omega) w
  refine ⟨h w, ?_, ?_, hl, decimal_digits n, decimal_head n, rfl, readDecimal_decimal n, ?_,
    hw.2.1, hw.2.2.1, hw.2.2.2⟩
  · rw [h w]
    show (puts (decimal n) w).p = _
    exact puts_p _ _
  · rw [h, nul_puts_fresh _ _ (by omega)]
  · rw [h w]
    show (puts (decimal n) w).temp_fault = _
    exact puts_temp_fault _ _

/-- Witness for C27: 150 is stored as `1`, `5`, `0`, NUL. -/
theorem uint_to_str_decimal_witness :
    uint_to_str 150 (Wr.fresh 6) = (puts (decimal 150) (Wr.fresh 6)).nul ∧
    readDecimal (decimal 150) = 150 ∧
    uint_to_str 150 (Wr.fresh 6)
      = ⟨[some 49, some 53, some 48, some 0, none, none], 3, false, false⟩ ∧
    uint_to_str 65535 (Wr.fresh 6)
      = ⟨[some 54, some 53, some 53, some 51, some 53, some 0], 5, false, false⟩ :=
  ⟨(uint_to_str_decimal 150 (by decide) (Wr.fresh 6)).1,
   (uint_to_str_decimal 150 (by decide) (Wr.fresh 6)).2.2.2.2.2.2.2.1, by decide, by decide⟩

/-- The value of `abs_val` in `int_x10_to_str` is the absolute value, also for
-32768. -/
theorem abs_val_eq (v : Int) (h1 : -32768 ≤ v) (h2 : v ≤ 32767) :
    (if v < 0 then toU16 (toI16 (-v)) else toU16 v) = v.natAbs := by
  unfold toU16 toI16
  split_ifs <;> omega

/-- `int_x10_to_str` stores the one-decimal text and the terminator. -/
theorem int_x10_to_str_eq (v : Int) (h1 : -32768 ≤ v) (h2 : v ≤ 32767) (w : Wr) :
    int_x10_to_str v w = (puts (fixed1 v) w).nul := by
  have ha : v.natAbs ≤ 32768 := by omega
  have e1 : toU8 ((ch '0' + v.natAbs % 10 : Nat) : Int) = ch '0' + v.natAbs % 10 := by
    rw [ch_zero]; unfold toU8; omega
  have hb := uint_body_eq (v.natAbs / 10) (by omega)
  unfold int_x10_to_str fixed1
  simp only []
  rw [abs_val_eq v h1 h2, e1, hb]
  by_cases hv : v < 0
  · rw [if_pos hv, if_pos hv]
    simp only [put_eq_puts, puts_puts, List.append_assoc, List.cons_append, List.nil_append,
      List.singleton_append]
  · rw [if_neg hv, if_neg hv]
    simp only [put_eq_puts, puts_puts, List.append_assoc, List.cons_append, List.nil_append,
      List.singleton_append]

/-- Reading a run of digits followed by one more character. -/
theorem readDecimal_snoc (cs : List Nat) (c : Nat) :
    readDecimal (cs ++ [c]) = 10 * readDecimal cs + (c - ch '0') := by
  unfold readDecimal
  rw [List.foldl_append]
  rfl

/-- Removing the point from `digits . digit`. -/
theorem filter_point (n r : Nat) :
    (decimal n ++ [ch '.', ch '0' + r]).filter (· ≠ ch '.') = decimal n ++ [ch '0' + r] := by
  have h1 : (decimal n).filter (· ≠ ch '.') = decimal n := by
    rw [List.filter_eq_self]
    intro c hc
    have := decimal_digits n c hc
    rw [ch_zero] at this
    rw [ch_dot]
    simp only [ne_eq, decide_not, Bool.not_eq_eq_eq_not, Bool.not_true, decide_eq_false_iff_not]
    omega
  rw [List.filter_append, h1, ch_dot, ch_zero]
  have h2 : (48 + r ≠ 46) := by omega
  simp [List.filter, h2]

/-- The text of `v / 10` reads back as `v / 10`. -/
theorem readX10_fixed1 (v : Int) : readX10 (fixed1 v) = v := by
  have hr : readDecimal (decimal (v.natAbs / 10) ++ [ch '0' + v.natAbs % 10]) = v.natAbs := by
    rw [readDecimal_snoc, readDecimal_decimal, ch_zero]; omega
  unfold readX10 fixed1
  by_cases hv : v < 0
  · rw [if_pos hv]
    rw [if_pos (by simp)]
    simp only [List.append_assoc, List.singleton_append, List.cons_append, List.drop_one,
      List.tail_cons, List.nil_append]
    rw [filter_point, hr]
    omega
  · rw [if_neg hv, List.nil_append]
    have hne : (decimal (v.natAbs / 10) ++ [ch '.', ch '0' + v.natAbs % 10]).head?
        ≠ some (ch '-') := by
      have hl : decimal (v.natAbs / 10) ≠ [] := by
        unfold decimal; split_ifs <;> simp
        exact Nat.digits_ne_nil_iff_ne_zero.mpr (by assumption)
      obtain ⟨c, cs, hc⟩ := List.exists_cons_of_ne_nil hl
      have hd := decimal_digits (v.natAbs / 10) c (by rw [hc]; exact List.mem_cons_self _ _)
      rw [hc, List.cons_append, List.head?_cons, ch_minus]
      rw [ch_zero] at hd
      intro e
      have : c = 45 := by simpa using e
      omega
    rw [if_neg hne, filter_point, hr]
    omega

/-- Length of the one-decimal text of a 16-bit value. -/
theorem fixed1_length (v : Int) (h1 : -32768 ≤ v) (h2 : v ≤ 32767) :
    3 ≤ (fixed1 v).length ∧ (fixed1 v).length ≤ 7 := by
  have hl2 := (decimal_length (v.natAbs / 10) (by omega)).1
  unfold fixed1
  by_cases hv : v < 0
  · rw [if_pos hv]
    simp only [List.length_append, List.length_cons, List.length_nil]
    have hl3 : (decimal (v.natAbs / 10)).length ≤ 4 :=
      (by
        have := digits_length_le 4 (v.natAbs / 10) (by norm_num; omega)
        unfold decimal
        split_ifs
        · simp
        · rw [List.length_map, List.length_reverse]; exact this)
    omega
  · rw [if_neg hv]
    simp only [List.length_append, List.length_cons, List.length_nil]
    have hl3 : (decimal (v.natAbs / 10)).length ≤ 4 :=
      (by
        have := digits_length_le 4 (v.natAbs / 10) (by norm_num; omega)
        unfold decimal
        split_ifs
        · simp
        · rw [List.length_map, List.length_reverse]; exact this)
    omega

set_option maxRecDepth 100000 in
/-- C26: for every signed 16-bit `v` and every pointer, `int_x10_to_str` stores,
from the pointer on, a minus sign when `v < 0`, the decimal representation of
`|v| div 10` (digits, starting with `0` only when that part is 0), a point and
the digit `|v| mod 10`, then the NUL, and returns the position of the NUL; the
text reads back as `v / 10` exactly (ten times its value is `v`); no index
into `temp[6]` falls outside it.  The examples of the source: 256, -123, 5, 0,
and the extremes -32768, -9, -1. -/
theorem int_x10_to_str_fixed1 (v : Int) (h1 : -32768 ≤ v) (h2 : v ≤ 32767) (w : Wr) :
    int_x10_to_str v w = (puts (fixed1 v) w).nul ∧
    (int_x10_to_str v w).p = w.p + (fixed1 v).length ∧
    int_x10_to_str v (Wr.fresh 8)
      = ⟨(fixed1 v).map some ++ some 0 :: List.replicate (8 - (fixed1 v).length - 1) none,
          (fixed1 v).length, false, false⟩ ∧
    fixed1 v = (if v < 0 then [ch '-'] else []) ++ decimal (v.natAbs / 10) ++
      [ch '.', ch '0' + v.natAbs % 10] ∧
    (∀ c ∈ decimal (v.natAbs / 10), ch '0' ≤ c ∧ c ≤ ch '9') ∧
    ((decimal (v.natAbs / 10)).head? = some (ch '0') ↔ v.natAbs / 10 = 0) ∧
    readDecimal (decimal (v.natAbs / 10)) = v.natAbs / 10 ∧
    readX10 (fixed1 v) = v ∧
    (3 ≤ (fixed1 v).length ∧ (fixed1 v).length ≤ 7) ∧
    (int_x10_to_str v w).temp_fault = w.temp_fault ∧
    (int_x10_to_str 256 (Wr.fresh 8)
        = ⟨[some (ch '2'), some (ch '5'), some (ch '.'), some (ch '6'), some 0, none, none,
            none], 4, false, false⟩ ∧
      int_x10_to_str (-123) (Wr.fresh 8)
        = ⟨[some (ch '-'), some (ch '1'), some (ch '2'), some (ch '.'), some (ch '3'), some 0,
            none, none], 5, false, false⟩ ∧
      int_x10_to_str 5 (Wr.fresh 8)
        = ⟨[some (ch '0'), some (ch '.'), some (ch '5'), some 0, none, none, none, none], 3,
            false, false⟩ ∧
      int_x10_to_str 0 (Wr.fresh 8)
        = ⟨[some (ch '0'), some (ch '.'), some (ch '0'), some 0, none, none, none, none], 3,
            false, false⟩ ∧
      int_x10_to_str (-32768) (Wr.fresh 8)
        = ⟨[some (ch '-'), some (ch '3'), some (ch '2'), some (ch '7'), some (ch '6'),
            some (ch '.'), some (ch '8'), some 0], 7, false, false⟩ ∧
      int_x10_to_str (-9) (Wr.fresh 8)
        = ⟨[some (ch '-'), some (ch '0'), some (ch '.'), some (ch '9'), some 0, none, none,
            none], 4, false, false⟩ ∧
      int_x10_to_str (-1) (Wr.fresh 8)
        = ⟨[some (ch '-'), some (ch '0'), some (ch '.'), some (ch '1'), some 0, none, none,
            none], 4, false, false⟩) := by
  have h := int_x10_to_str_eq v h1 h2
  have hl := fixed1_length v h1 h2
  refine ⟨h w, ?_, ?_, rfl, decimal_digits _, decimal_head _, readDecimal_decimal _,
    readX10_fixed1 v, hl, ?_, by decide⟩
  · rw [h w]
    show (puts (fixed1 v) w).p = _
    exact puts_p _ _
  · rw [h, nul_puts_fresh _ _ (by omega)]
  · rw [h w]
    show (puts (fixed1 v) w).temp_fault = _
    exact puts_temp_fault _ _

/-- Witness for C26: -123 is stored as `-12.3` and reads back as -123. -/
theorem int_x10_to_str_fixed1_witness :
    int_x10_to_str (-123) (Wr.fresh 8) = (puts (fixed1 (-123)) (Wr.fresh 8)).nul ∧
    readX10 (fixed1 (-123)) = -123 ∧
    (int_x10_to_str (-123) (Wr.fresh 8)).p = 5 :=
  ⟨(int_x10_to_str_fixed1 (-123) (by decide) (by decide) (Wr.fresh 8)).1,
   (int_x10_to_str_fixed1 (-123) (by decide) (by decide) (Wr.fresh 8)).2.2.2.2.2.2.2.1,
   by decide⟩

/-! ## Serial report: claim C28 -/

/-- No character of a decimal representation is NUL. -/
theorem decimal_ne_zero (n : Nat) : ∀ c ∈ decimal n, c ≠ 0 := by
  intro c hc
  have h := decimal_digits n c hc
  rw [ch_zero] at h
  omega

/-- No character of a one-decimal text is NUL. -/
theorem fixed1_ne_zero (v : Int) : ∀ c ∈ fixed1 v, c ≠ 0 := by
  intro c hc
  unfold fixed1 at hc
  simp only [List.mem_append, List.mem_cons, List.mem_singleton, List.not_mem_nil,
    or_false] at hc
  rcases hc with (hc | hc) | hc | hc
  · split_ifs at hc
    · have e : c = ch '-' := by simpa using hc
      rw [e, ch_minus]; decide
    · simp at hc
  · exact decimal_ne_zero _ c hc
  · rw [hc, ch_dot]; decide
  · rw [hc, ch_zero]; omega

/-- The error digit is `err_combined`, at most 7. -/
theorem errorDigit_eq (e1 e2 e3 : Nat) :
    ((if e1 ≠ 0 then 1 else 0) ||| (if e2 ≠ 0 then 2 else 0) ||| (if e3 ≠ 0 then 4 else 0) : Nat)
      = errorDigit e1 e2 e3 ∧ errorDigit e1 e2 e3 ≤ 7 := by
  unfold errorDigit
  split_ifs <;> exact ⟨by decide, by decide⟩

/-- No character of a report is NUL when none of its fields has one. -/
theorem reportText_ne_zero (t h p g : List Nat) (e : Nat) (ht : ∀ c ∈ t, c ≠ 0)
    (hh : ∀ c ∈ h, c ≠ 0) (hp : ∀ c ∈ p, c ≠ 0) (hg : ∀ c ∈ g, c ≠ 0) :
    ∀ c ∈ reportText t h p g e, c ≠ 0 := by
  intro c hc
  unfold reportText at hc
  simp only [List.mem_append, List.mem_cons, List.mem_singleton, List.not_mem_nil,
    or_false] at hc
  casesm* _ ∨ _
  all_goals first
    | exact ht c ‹_›
    | exact hh c ‹_›
    | exact hp c ‹_›
    | exact hg c ‹_›
    | (rw [‹c = _›]; decide)
    | (rw [‹c = _›, ch_zero]; omega)

/-- The buffer of the report when it is handed to `UART_SendString`. -/
theorem Send_DataToESP32_WithErrors_buffer_eq (temp_x10 humid_x10 : Int) (pm25 gas : Nat)
    (e1 e2 e3 : Nat) (ht1 : -32768 ≤ temp_x10) (ht2 : temp_x10 ≤ 32767)
    (hh1 : -32768 ≤ humid_x10) (hh2 : humid_x10 ≤ 32767) (hp : pm25 < 65536)
    (hg : gas < 65536) :
    Send_DataToESP32_WithErrors_buffer temp_x10 humid_x10 pm25 gas e1 e2 e3
      = (puts (reportText (fixed1 temp_x10) (fixed1 humid_x10) (decimal pm25) (decimal gas)
          (errorDigit e1 e2 e3)) (Wr.fresh 60)).nul := by
  have he := errorDigit_eq e1 e2 e3
  have e8 : toU8 ((ch '0' + errorDigit e1 e2 e3 : Nat) : Int) = ch '0' + errorDigit e1 e2 e3 := by
    rw [ch_zero]; unfold toU8; omega
  unfold Send_DataToESP32_WithErrors_buffer reportText
  simp only []
  rw [he.1, e8]
  simp only [int_x10_to_str_eq temp_x10 ht1 ht2, int_x10_to_str_eq humid_x10 hh1 hh2,
    uint_to_str_eq pm25 hp, uint_to_str_eq gas hg]
  simp only [Wr.put_nul, put_eq_puts, puts_nul, puts_puts, List.append_assoc, List.cons_append,
    List.nil_append, List.singleton_append]

/-- Length of a report with fields of the lengths the formatters give. -/
theorem reportText_length (t h p g : List Nat) (e : Nat) :
    (reportText t h p g e).length = t.length + h.length + p.length + g.length + 28 := by
  unfold reportText
  simp only [List.length_append, List.length_cons, List.length_nil]
  omega

set_option maxRecDepth 100000 in
/-- C28: for all inputs of the parameter types `Send_DataToESP32_WithErrors`
hands to the UART exactly the JSON object with the fields T, H, P, G, E in this
order followed by a newline, where the values are the texts of
`int_x10_to_str` (temperature, humidity) and `uint_to_str` (PM2.5, gas) and the
error digit is `(e1 ? 1 : 0) + (e2 ? 2 : 0) + (e3 ? 4 : 0)`; the text has at
most 52 characters, so no access leaves the 60-byte buffer; the three flags
are the bits 0, 1, 2 of the digit.  The example of the source is included. -/
theorem Send_DataToESP32_WithErrors_text (temp_x10 humid_x10 : Int) (pm25 gas : Nat)
    (e1 e2 e3 : Nat) (ht1 : -32768 ≤ temp_x10) (ht2 : temp_x10 ≤ 32767)
    (hh1 : -32768 ≤ humid_x10) (hh2 : humid_x10 ≤ 32767) (hp : pm25 < 65536)
    (hg : gas < 65536) :
    Send_DataToESP32_WithErrors temp_x10 humid_x10 pm25 gas e1 e2 e3
      = (reportText (fixed1 temp_x10) (fixed1 humid_x10) (decimal pm25) (decimal gas)
          (errorDigit e1 e2 e3), false) ∧
    (reportText (fixed1 temp_x10) (fixed1 humid_x10) (decimal pm25) (decimal gas)
      (errorDigit e1 e2 e3)).length ≤ 52 ∧
    (∀ w, int_x10_to_str temp_x10 w = (puts (fixed1 temp_x10) w).nul) ∧
    (∀ w, int_x10_to_str humid_x10 w = (puts (fixed1 humid_x10) w).nul) ∧
    (∀ w, uint_to_str pm25 w = (puts (decimal pm25) w).nul) ∧
    (∀ w, uint_to_str gas w = (puts (decimal gas) w).nul) ∧
    errorDigit e1 e2 e3 ≤ 7 ∧
    (errorDigit e1 e2 e3 % 2 = 1 ↔ e1 ≠ 0) ∧
    (errorDigit e1 e2 e3 / 2 % 2 = 1 ↔ e2 ≠ 0) ∧
    (errorDigit e1 e2 e3 / 4 % 2 = 1 ↔ e3 ≠ 0) ∧
    Send_DataToESP32_WithErrors 256 653 35 150 0 0 0
      = ([123, 34, ch 'T', 34, ch ':', ch '2', ch '5', ch '.', ch '6', ch ',',
          34, ch 'H', 34, ch ':', ch '6', ch '5', ch '.', ch '3', ch ',',
          34, ch 'P', 34, ch ':', ch '3', ch '5', ch ',',
          34, ch 'G', 34, ch ':', ch '1', ch '5', ch '0', ch ',',
          34, ch 'E', 34, ch ':', ch '0', 125, 10], false) := by
  have hb := Send_DataToESP32_WithErrors_buffer_eq temp_x10 humid_x10 pm25 gas e1 e2 e3 ht1 ht2
    hh1 hh2 hp hg
  have hlen := reportText_length (fixed1 temp_x10) (fixed1 humid_x10) (decimal pm25)
    (decimal gas) (errorDigit e1 e2 e3)
  have l1 := (fixed1_length temp_x10 ht1 ht2).2
  have l2 := (fixed1_length humid_x10 hh1 hh2).2
  have l3 := (decimal_length pm25 hp).2
  have l4 := (decimal_length gas hg).2
  have hnz := reportText_ne_zero (fixed1 temp_x10) (fixed1 humid_x10) (decimal pm25)
    (decimal gas) (errorDigit e1 e2 e3) (fixed1_ne_zero _) (fixed1_ne_zero _)
    (decimal_ne_zero _) (decimal_ne_zero _)
  refine ⟨?_, by omega, int_x10_to_str_eq temp_x10 ht1 ht2, int_x10_to_str_eq humid_x10 hh1 hh2,
    uint_to_str_eq pm25 hp, uint_to_str_eq gas hg, (errorDigit_eq e1 e2 e3).2, ?_, ?_, ?_,
    by decide⟩
  · unfold Send_DataToESP32_WithErrors
    simp only []
    rw [hb, nul_puts_fresh _ _ (by omega)]
    simp only []
    rw [UART_SendString_text _ _ hnz]
    rfl
  · unfold errorDigit; split_ifs <;> simp_all
  · unfold errorDigit; split_ifs <;> simp_all
  · unfold errorDigit; split_ifs <;> simp_all

/-- Witness for C28: the report of a faulty AHT10 channel with the extreme
readings. -/
theorem Send_DataToESP32_WithErrors_text_witness :
    Send_DataToESP32_WithErrors (-32768) 1000 500 1000 1 0 0
      = (reportText (fixed1 (-32768)) (fixed1 1000) (decimal 500) (decimal 1000)
          (errorDigit 1 0 0), false) ∧
    errorDigit 1 0 0 = 1 :=
  ⟨(Send_DataToESP32_WithErrors_text (-32768) 1000 500 1000 1 0 0 (by decide) (by decide)
      (by decide) (by decide) (by decide) (by decide)).1, by decide⟩

/-! ## Display lines: padding -/

/-- Code of the space. -/
theorem ch_space : ch ' ' = 32 := by decide

/-- The measuring loop on cells that hold a text without NUL, then a NUL. -/
theorem Display_Update_Mode_strlen_text (cs : List Nat) (rest : Cells)
    (h : ∀ c ∈ cs, c ≠ 0) :
    ∀ k, k + cs.length ≤ 255 →
      Display_Update_Mode_strlen (cs.map some ++ some 0 :: rest) k = (k + cs.length, false) := by
  induction cs with
  | nil => intro k _; simp [Display_Update_Mode_strlen]
  | cons c cs ih =>
    intro k hk
    rw [List.length_cons] at hk
    have hc : c ≠ 0 := h c (List.mem_cons_self _ _)
    have e : toU8 ((k : Int) + 1) = k + 1 := by unfold toU8; omega
    rw [List.map_cons, List.cons_append]
    unfold Display_Update_Mode_strlen
    rw [if_neg hc, e, ih (fun x hx => h x (List.mem_cons_of_mem _ hx)) (k + 1) (by omega),
      List.length_cons]
    congr 1
    omega

/-- The filling loop, started at the end of the known text in a 17-cell array:
it stores spaces up to index 15 and leaves with `len = 16`. -/
theorem Display_Update_Mode_fill_text :
    ∀ (fuel : Nat) (pre : List Nat) (rest : Cells) (f : Bool), pre.length ≤ 16 →
      16 - pre.length ≤ fuel → rest.length = 17 - pre.length →
      Display_Update_Mode_fill fuel (pre.map some ++ rest) pre.length f
        = ((pre ++ List.replicate (16 - pre.length) (ch ' ')).map some ++
            rest.drop (16 - pre.length), 16, f) := by
  intro fuel
  induction fuel with
  | zero =>
    intro pre rest f h1 h2 _
    have e : pre.length = 16 := by omega
    unfold Display_Update_Mode_fill
    rw [e]
    simp
  | succ n ih =>
    intro pre rest f h1 h2 h3
    unfold Display_Update_Mode_fill
    by_cases hlt : pre.length < 16
    · rw [if_pos hlt]
      obtain ⟨r, rest2, hr⟩ : ∃ r rest2, rest = r :: rest2 := by
        cases rest with
        | nil => simp at h3; omega
        | cons r rest2 => exact ⟨r, rest2, rfl⟩
      rw [hr] at h3 ⊢
      rw [List.length_cons] at h3
      have e1 : toU8 ((pre.length : Int) + 1) = (pre ++ [ch ' ']).length := by
        rw [List.length_append, List.length_singleton]; unfold toU8; omega
      have e2 : (pre.map some ++ r :: rest2).set pre.length (some (ch ' '))
          = (pre ++ [ch ' ']).map some ++ rest2 := by
        rw [List.set_append_right _ _ (by simp)]
        simp
      have e3 : (f || decide ((pre.map some ++ r :: rest2).length ≤ pre.length)) = f := by
        simp
      rw [e1, e2, e3, ih (pre ++ [ch ' ']) rest2 f
        (by rw [List.length_append, List.length_singleton]; omega)
        (by rw [List.length_append, List.length_singleton]; omega)
        (by rw [List.length_append, List.length_singleton]; omega)]
      rw [List.length_append, List.length_singleton]
      obtain ⟨m, hm⟩ : ∃ m, 16 - pre.length = m + 1 := ⟨16 - pre.length - 1, by omega⟩
      have hm2 : 16 - (pre.length + 1) = m := by omega
      rw [hm, hm2, List.replicate_succ, List.drop_succ_cons, List.append_assoc,
        List.singleton_append]
    · rw [if_neg hlt]
      have e : pre.length = 16 := by omega
      rw [e]
      simp

/-- Padding of a line that holds a text of at most 16 characters without NUL,
then a NUL: the cells hold the text, spaces up to 16 characters, and a NUL;
`LCD_Print` walks over exactly these 16 characters. -/
theorem Display_Update_Mode_pad_text (cs : List Nat) (h16 : cs.length ≤ 16)
    (h : ∀ c ∈ cs, c ≠ 0) :
    Display_Update_Mode_pad (cs.map some ++ some 0 :: List.replicate (17 - cs.length - 1) none)
      = ((cs ++ List.replicate (16 - cs.length) (ch ' ')).map some ++ [some 0], false) ∧
    LCD_Print ((cs ++ List.replicate (16 - cs.length) (ch ' ')).map some ++ [some 0])
      = (cs ++ List.replicate (16 - cs.length) (ch ' '), false) ∧
    (cs ++ List.replicate (16 - cs.length) (ch ' ')).length = 16 := by
  have hs := Display_Update_Mode_strlen_text cs (List.replicate (17 - cs.length - 1) none) h 0
    (by omega)
  rw [Nat.zero_add] at hs
  have hf := Display_Update_Mode_fill_text 16 cs
    (some 0 :: List.replicate (17 - cs.length - 1) none) false h16 (by omega)
    (by rw [List.length_cons, List.length_replicate]; omega)
  have hlen : (cs ++ List.replicate (16 - cs.length) (ch ' ')).length = 16 := by
    rw [List.length_append, List.length_replicate]; omega
  have hd : ∃ x, (some 0 :: List.replicate (17 - cs.length - 1) none).drop (16 - cs.length)
      = [x] := by
    apply List.length_eq_one.mp
    rw [List.length_drop, List.length_cons, List.length_replicate]
    omega
  obtain ⟨x, hx⟩ := hd
  rw [hx] at hf
  refine ⟨?_, ?_, hlen⟩
  · unfold Display_Update_Mode_pad
    simp only []
    rw [hs]
    simp only []
    rw [hf]
    simp only []
    have e : ((cs ++ List.replicate (16 - cs.length) (ch ' ')).map some ++ [x]).set 16 (some 0)
        = (cs ++ List.replicate (16 - cs.length) (ch ' ')).map some ++ [some 0] := by
      rw [List.set_append_right _ _ (by rw [List.length_map, hlen])]
      rw [List.length_map, hlen]
      rfl
    rw [e]
    simp [hlen]
    omega
  · unfold LCD_Print
    have hnz : ∀ c ∈ cs ++ List.replicate (16 - cs.length) (ch ' '), c ≠ 0 := by
      intro c hc
      rcases List.mem_append.mp hc with hc | hc
      · exact h c hc
      · rw [(List.mem_replicate.mp hc).2, ch_space]; decide
    exact UART_SendString_text _ [] hnz

/-- A line built by a run of at most 16 stores without NUL from the start of
a fresh 17-cell array, then the terminator. -/
theorem line_fits (cs : List Nat) (h16 : cs.length ≤ 16) (h : ∀ c ∈ cs, c ≠ 0) :
    ∃ T : List Nat, T.length ≤ 16 ∧ (∀ c ∈ T, c ≠ 0) ∧
      (puts cs (Wr.fresh 17)).nul = (puts T (Wr.fresh 17)).nul :=
  ⟨cs, h16, h, rfl⟩

/-! ## Display lines: what is built -/

/-- The status strings have at most nine characters, none of them NUL. -/
theorem Get_AirQuality_Status_fits (pm25 : Nat) :
    (Get_AirQuality_Status pm25).length ≤ 9 ∧ ∀ c ∈ Get_AirQuality_Status pm25, c ≠ 0 := by
  unfold Get_AirQuality_Status
  split_ifs <;> exact ⟨by decide, by decide⟩

/-- A non-negative 16-bit value has a one-decimal text of at most six characters. -/
theorem fixed1_length_pos (v : Int) (h1 : -32768 ≤ v) (h2 : v ≤ 32767) (h : ¬ v < 0) :
    (fixed1 v).length ≤ 6 := by
  have h4 := digits_length_le 4 (v.natAbs / 10) (by norm_num; omega)
  unfold fixed1
  rw [if_neg h]
  unfold decimal
  split_ifs
  · simp
  · simp only [List.nil_append, List.length_append, List.length_map, List.length_reverse,
      List.length_cons, List.length_nil]
    omega

/-- First line of the temperature and humidity screen. -/
theorem Display_Update_Mode_line1_screen0 (temp_x10 humid_x10 : Int) (pm25 gas : Nat)
    (err_aht10 err_pm25 err_gas : Nat) (ht1 : -32768 ≤ temp_x10) (ht2 : temp_x10 ≤ 32767) :
    ∃ T : List Nat, T.length ≤ 16 ∧ (∀ c ∈ T, c ≠ 0) ∧
      Display_Update_Mode_line1 0 temp_x10 humid_x10 pm25 gas err_aht10 err_pm25 err_gas
        = (puts T (Wr.fresh 17)).nul := by
  have ht := int_x10_to_str_eq temp_x10 ht1 ht2
  have hl := fixed1_length temp_x10 ht1 ht2
  have hn := fixed1_ne_zero temp_x10
  have hpos := fixed1_length_pos temp_x10 ht1 ht2
  unfold Display_Update_Mode_line1
  simp only []
  rw [if_pos trivial]
  by_cases he : ¬ err_aht10 = 0
  · simp only [he, ne_eq, not_true_eq_false, not_false_eq_true, if_true, if_false]
    simp only [Wr.put_nul, Wr.nul_nul, put_eq_puts, puts_nul, puts_puts,
      List.append_assoc, List.cons_append, List.nil_append, List.singleton_append]
    exact line_fits _ (by decide) (by decide)
  · simp only [not_not.mp he, ne_eq, not_true_eq_false, not_false_eq_true, if_true, if_false]
    by_cases h1 : temp_x10 > 350
    · simp only [h1, if_true]
      simp only [ht, Wr.put_nul, Wr.nul_nul, put_eq_puts, puts_nul, puts_puts,
        List.append_assoc, List.cons_append, List.nil_append, List.singleton_append]
      apply line_fits
      · simp only [List.length_append, List.length_cons, List.length_nil]
        have := hpos (by omega)
        omega
      · intro c hc
        simp only [List.mem_append, List.mem_cons, List.mem_singleton, List.not_mem_nil,
          or_false] at hc
        casesm* _ ∨ _
        all_goals first
          | exact hn c ‹_›
          | (rw [‹c = _›]; decide)
    · simp only [h1, if_false]
      by_cases h2 : temp_x10 < 100
      · simp only [h2, if_true]
        simp only [ht, Wr.put_nul, Wr.nul_nul, put_eq_puts, puts_nul, puts_puts,
          List.append_assoc, List.cons_append, List.nil_append, List.singleton_append]
        apply line_fits
        · simp only [List.length_append, List.length_cons, List.length_nil]
          omega
        · intro c hc
          simp only [List.mem_append, List.mem_cons, List.mem_singleton, List.not_mem_nil,
            or_false] at hc
          casesm* _ ∨ _
          all_goals first
            | exact hn c ‹_›
            | (rw [‹c = _›]; decide)
      · simp only [h2, if_false]
        simp only [ht, Wr.put_nul, Wr.nul_nul, put_eq_puts, puts_nul, puts_puts,
          List.append_assoc, List.cons_append, List.nil_append, List.singleton_append]
        apply line_fits
        · simp only [List.length_append, List.length_cons, List.length_nil]
          omega
        · intro c hc
          simp only [List.mem_append, List.mem_cons, List.mem_singleton, List.not_mem_nil,
            or_false] at hc
          casesm* _ ∨ _
          all_goals first
            | exact hn c ‹_›
            | (rw [‹c = _›]; decide)

/-- Second line of the temperature and humidity screen. -/
theorem Display_Update_Mode_line2_screen0 (humid_x10 : Int) (pm25 gas : Nat)
    (err_aht10 err_pm25 err_gas : Nat) (hh1 : -32768 ≤ humid_x10) (hh2 : humid_x10 ≤ 32767) :
    ∃ T : List Nat, T.length ≤ 16 ∧ (∀ c ∈ T, c ≠ 0) ∧
      Display_Update_Mode_line2 0 humid_x10 pm25 gas err_aht10 err_pm25 err_gas
        = (puts T (Wr.fresh 17)).nul := by
  have ht := int_x10_to_str_eq humid_x10 hh1 hh2
  have hl := fixed1_length humid_x10 hh1 hh2
  have hn := fixed1_ne_zero humid_x10
  unfold Display_Update_Mode_line2
  simp only []
  rw [if_pos trivial]
  by_cases he : ¬ err_aht10 = 0
  · simp only [he, ne_eq, not_true_eq_false, not_false_eq_true, if_true, if_false]
    simp only [Wr.put_nul, Wr.nul_nul, put_eq_puts, puts_nul, puts_puts,
      List.append_assoc, List.cons_append, List.nil_append, List.singleton_append]
    exact line_fits _ (by decide) (by decide)
  · simp only [not_not.mp he, ne_eq, not_true_eq_false, not_false_eq_true, if_true, if_false]
    by_cases h1 : humid_x10 > 800
    · simp only [h1, if_true]
      simp only [ht, Wr.put_nul, Wr.nul_nul, put_eq_puts, puts_nul, puts_puts,
        List.append_assoc, List.cons_append, List.nil_append, List.singleton_append]
      apply line_fits
      · simp only [List.length_append, List.length_cons, List.length_nil]
        omega
      · intro c hc
        simp only [List.mem_append, List.mem_cons, List.mem_singleton, List.not_mem_nil,
          or_false] at hc
        casesm* _ ∨ _
        all_goals first
          | exact hn c ‹_›
          | (rw [‹c = _›]; decide)
    · simp only [h1, if_false]
      by_cases h2 : humid_x10 < 300
      · simp only [h2, if_true]
        simp only [ht, Wr.put_nul, Wr.nul_nul, put_eq_puts, puts_nul, puts_puts,
          List.append_assoc, List.cons_append, List.nil_append, List.singleton_append]
        apply line_fits
        · simp only [List.length_append, List.length_cons, List.length_nil]
          omega
        · intro c hc
          simp only [List.mem_append, List.mem_cons, List.mem_singleton, List.not_mem_nil,
            or_false] at hc
          casesm* _ ∨ _
          all_goals first
            | exact hn c ‹_›
            | (rw [‹c = _›]; decide)
      · simp only [h2, if_false]
        simp only [ht, Wr.put_nul, Wr.nul_nul, put_eq_puts, puts_nul, puts_puts,
          List.append_assoc, List.cons_append, List.nil_append, List.singleton_append]
        apply line_fits
        · simp only [List.length_append, List.length_cons, List.length_nil]
          omega
        · intro c hc
          simp only [List.mem_append, List.mem_cons, List.mem_singleton, List.not_mem_nil,
            or_false] at hc
          casesm* _ ∨ _
          all_goals first
            | exact hn c ‹_›
            | (rw [‹c = _›]; decide)

/-- First line of the PM2.5 screen, for a value of at most three digits or a
channel in error. -/
theorem Display_Update_Mode_line1_screen1 (temp_x10 humid_x10 : Int) (pm25 gas : Nat)
    (err_aht10 err_pm25 err_gas : Nat) (hp : pm25 < 65536)
    (h999 : err_pm25 ≠ 0 ∨ pm25 ≤ 999) :
    ∃ T : List Nat, T.length ≤ 16 ∧ (∀ c ∈ T, c ≠ 0) ∧
      Display_Update_Mode_line1 1 temp_x10 humid_x10 pm25 gas err_aht10 err_pm25 err_gas
        = (puts T (Wr.fresh 17)).nul := by
  have ht := uint_to_str_eq pm25 hp
  have hn := decimal_ne_zero pm25
  unfold Display_Update_Mode_line1
  simp only []
  rw [if_neg (by decide), if_pos trivial]
  by_cases he : ¬ err_pm25 = 0
  · simp only [he, ne_eq, not_true_eq_false, not_false_eq_true, if_true, if_false]
    simp only [Wr.put_nul, Wr.nul_nul, put_eq_puts, puts_nul, puts_puts,
      List.append_assoc, List.cons_append, List.nil_append, List.singleton_append]
    exact line_fits _ (by decide) (by decide)
  · simp only [not_not.mp he, ne_eq, not_true_eq_false, not_false_eq_true, if_true, if_false]
    have hl := decimal_length_small pm25 (by have := not_not.mp he; omega)
    simp only [ht, Wr.put_nul, Wr.nul_nul, put_eq_puts, puts_nul, puts_puts,
      List.append_assoc, List.cons_append, List.nil_append, List.singleton_append]
    apply line_fits
    · simp only [List.length_append, List.length_cons, List.length_nil]
      omega
    · intro c hc
      simp only [List.mem_append, List.mem_cons, List.mem_singleton, List.not_mem_nil,
        or_false] at hc
      casesm* _ ∨ _
      all_goals first
        | exact hn c ‹_›
        | (rw [‹c = _›]; decide)

/-- Second line of the PM2.5 screen. -/
theorem Display_Update_Mode_line2_screen1 (humid_x10 : Int) (pm25 gas : Nat)
    (err_aht10 err_pm25 err_gas : Nat) :
    ∃ T : List Nat, T.length ≤ 16 ∧ (∀ c ∈ T, c ≠ 0) ∧
      Display_Update_Mode_line2 1 humid_x10 pm25 gas err_aht10 err_pm25 err_gas
        = (puts T (Wr.fresh 17)).nul := by
  have hs := Get_AirQuality_Status_fits pm25
  unfold Display_Update_Mode_line2
  simp only []
  rw [if_neg (by decide), if_pos trivial]
  by_cases he : ¬ err_pm25 = 0
  · simp only [he, ne_eq, not_true_eq_false, not_false_eq_true, if_true, if_false]
    exact line_fits _ (by decide) (by decide)
  · simp only [not_not.mp he, ne_eq, not_true_eq_false, not_false_eq_true, if_true, if_false]
    exact line_fits _ (by omega) hs.2

/-- First line of the gas screen. -/
theorem Display_Update_Mode_line1_screen2 (temp_x10 humid_x10 : Int) (pm25 gas : Nat)
    (err_aht10 err_pm25 err_gas : Nat) (hg : gas < 65536) :
    ∃ T : List Nat, T.length ≤ 16 ∧ (∀ c ∈ T, c ≠ 0) ∧
      Display_Update_Mode_line1 2 temp_x10 humid_x10 pm25 gas err_aht10 err_pm25 err_gas
        = (puts T (Wr.fresh 17)).nul := by
  have ht := uint_to_str_eq gas hg
  have hn := decimal_ne_zero gas
  have hl := decimal_length gas hg
  unfold Display_Update_Mode_line1
  simp only []
  rw [if_neg (by decide), if_neg (by decide), if_pos trivial]
  by_cases he : ¬ err_gas = 0
  · simp only [he, ne_eq, not_true_eq_false, not_false_eq_true, if_true, if_false]
    simp only [Wr.put_nul, Wr.nul_nul, put_eq_puts, puts_nul, puts_puts,
      List.append_assoc, List.cons_append, List.nil_append, List.singleton_append]
    exact line_fits _ (by decide) (by decide)
  · simp only [not_not.mp he, ne_eq, not_true_eq_false, not_false_eq_true, if_true, if_false]
    simp only [ht, Wr.put_nul, Wr.nul_nul, put_eq_puts, puts_nul, puts_puts,
      List.append_assoc, List.cons_append, List.nil_append, List.singleton_append]
    apply line_fits
    · simp only [List.length_append, List.length_cons, List.length_nil]
      omega
    · intro c hc
      simp only [List.mem_append, List.mem_cons, List.mem_singleton, List.not_mem_nil,
        or_false] at hc
      casesm* _ ∨ _
      all_goals first
        | exact hn c ‹_›
        | (rw [‹c = _›]; decide)

/-- Second line of the gas screen. -/
theorem Display_Update_Mode_line2_screen2 (humid_x10 : Int) (pm25 gas : Nat)
    (err_aht10 err_pm25 err_gas : Nat) :
    ∃ T : List Nat, T.length ≤ 16 ∧ (∀ c ∈ T, c ≠ 0) ∧
      Display_Update_Mode_line2 2 humid_x10 pm25 gas err_aht10 err_pm25 err_gas
        = (puts T (Wr.fresh 17)).nul := by
  unfold Display_Update_Mode_line2
  simp only []
  rw [if_neg (by decide), if_neg (by decide), if_pos trivial]
  split_ifs <;> exact line_fits _ (by decide) (by decide)


/-! ## Display: claim C29 -/

/-- In the modes 0 to 3 the screen selected is 0, 1 or 2. -/
theorem Display_Update_Mode_select_le (mode : Nat) (d : Display) (hm : mode ≤ 3) :
    (Display_Update_Mode_select mode d).1 ≤ 2 := by
  unfold Display_Update_Mode_select
  by_cases h : mode = 3
  · rw [if_pos h]
    simp only []
    split_ifs <;> omega
  · rw [if_neg h]
    simp only []
    omega

/-- A line built as at most 16 stores without NUL and the terminator keeps
inside its 17 cells, and after padding `LCD_Print` walks over the text
followed by spaces, 16 characters in all. -/
theorem line_shown (w : Wr)
    (hw : ∃ T : List Nat, T.length ≤ 16 ∧ (∀ c ∈ T, c ≠ 0) ∧ w = (puts T (Wr.fresh 17)).nul) :
    w.p ≤ 16 ∧ w.fault = false ∧ w.temp_fault = false ∧
    (Display_Update_Mode_pad w.cells).2 = false ∧
    (LCD_Print (Display_Update_Mode_pad w.cells).1).2 = false ∧
    (LCD_Print (Display_Update_Mode_pad w.cells).1).1.length = 16 ∧
    (LCD_Print (Display_Update_Mode_pad w.cells).1).1
      = (w.cells.take w.p).map (fun c => c.getD 0) ++ List.replicate (16 - w.p) (ch ' ') := by
  obtain ⟨T, h16, hnz, hw⟩ := hw
  have hp := Display_Update_Mode_pad_text T h16 hnz
  rw [hw, nul_puts_fresh T 17 (by omega)]
  simp only []
  rw [hp.1]
  simp only []
  rw [hp.2.1]
  simp only []
  refine ⟨h16, trivial, trivial, trivial, trivial, hp.2.2, ?_⟩
  rw [List.take_left' (by rw [List.length_map]), List.map_map]
  congr 1
  exact (List.map_id'' (fun _ => rfl) T).symm

set_option maxRecDepth 100000 in
/-- C29 fails on the code: on the PM2.5 screen the value 1000 makes the first
line `PM2.5: 1000 ug/m3`, 17 characters before the terminator, so the
terminator is stored outside the 17-cell buffer (index 17); on the fallback
screen (mode 4) the readings -1000.0 and 100.0 give 17 characters as well. -/
theorem Display_Update_Mode_overflow :
    (Display_Update_Mode_line1 1 256 653 1000 150 0 0 0).p = 17 ∧
    (Display_Update_Mode_line1 1 256 653 1000 150 0 0 0).fault = true ∧
    (Display_Update_Mode_select 1 Display.reset).1 = 1 ∧
    (Display_Update_Mode 256 653 1000 150 1 0 0 0 Display.reset).fault = true ∧
    (Display_Update_Mode_line1 4 (-10000) 1000 35 150 0 0 0).p = 17 ∧
    (Display_Update_Mode_line1 4 (-10000) 1000 35 150 0 0 0).fault = true ∧
    (Display_Update_Mode (-10000) 1000 35 150 4 0 0 0 Display.reset).fault = true := by
  decide

/-- C29 as the code has it: for the modes 0 to 3 and all readings of the
parameter types, except a PM2.5 value above 999 printed on the PM2.5 screen,
each line is built with at most 16 characters before the padding, no access
leaves a line buffer (or `temp[6]`), and `LCD_Print` is handed, after each
cursor command, a string of exactly 16 characters: the text built followed by
spaces. -/
theorem Display_Update_Mode_fits (temp_x10 humid_x10 : Int) (pm25 gas mode : Nat)
    (err_aht10 err_pm25 err_gas : Nat) (d : Display)
    (ht1 : -32768 ≤ temp_x10) (ht2 : temp_x10 ≤ 32767)
    (hh1 : -32768 ≤ humid_x10) (hh2 : humid_x10 ≤ 32767) (hp : pm25 < 65536)
    (hg : gas < 65536) (hm : mode ≤ 3)
    (h999 : (Display_Update_Mode_select mode d).1 = 1 → err_pm25 ≠ 0 ∨ pm25 ≤ 999) :
    (Display_Update_Mode_line1 (Display_Update_Mode_select mode d).1 temp_x10 humid_x10 pm25
      gas err_aht10 err_pm25 err_gas).p ≤ 16 ∧
    (Display_Update_Mode_line2 (Display_Update_Mode_select mode d).1 humid_x10 pm25
      gas err_aht10 err_pm25 err_gas).p ≤ 16 ∧
    (Display_Update_Mode_line1 (Display_Update_Mode_select mode d).1 temp_x10 humid_x10 pm25
      gas err_aht10 err_pm25 err_gas).fault = false ∧
    (Display_Update_Mode_line2 (Display_Update_Mode_select mode d).1 humid_x10 pm25
      gas err_aht10 err_pm25 err_gas).fault = false ∧
    (Display_Update_Mode temp_x10 humid_x10 pm25 gas mode err_aht10 err_pm25 err_gas d).fault
      = d.fault ∧
    ∃ s1 s2 : List Nat, s1.length = 16 ∧ s2.length = 16 ∧
      (Display_Update_Mode temp_x10 humid_x10 pm25 gas mode err_aht10 err_pm25 err_gas d).lcd
        = (Display_Update_Mode_clear (Display_Update_Mode_select mode d).1
            (Display_Update_Mode_select mode d).2).lcd ++
          [LcdEv.set_cursor 0 0, LcdEv.print s1, LcdEv.set_cursor 1 0, LcdEv.print s2] := by
  have ha := Display_Update_Mode_select_le mode d hm
  have hf : (Display_Update_Mode_clear (Display_Update_Mode_select mode d).1
      (Display_Update_Mode_select mode d).2).fault = d.fault := by
    unfold Display_Update_Mode_clear Display_Update_Mode_select
    split_ifs <;> rfl
  generalize hsel : (Display_Update_Mode_select mode d).1 = a at ha h999 hf ⊢
  have h1 : ∃ T : List Nat, T.length ≤ 16 ∧ (∀ c ∈ T, c ≠ 0) ∧
      Display_Update_Mode_line1 a temp_x10 humid_x10 pm25 gas err_aht10 err_pm25 err_gas
        = (puts T (Wr.fresh 17)).nul := by
    rcases (by omega : a = 0 ∨ a = 1 ∨ a = 2) with e | e | e
    · rw [e]
      exact Display_Update_Mode_line1_screen0 temp_x10 humid_x10 pm25 gas err_aht10 err_pm25
        err_gas ht1 ht2
    · rw [e]
      exact Display_Update_Mode_line1_screen1 temp_x10 humid_x10 pm25 gas err_aht10 err_pm25
        err_gas hp (h999 e)
    · rw [e]
      exact Display_Update_Mode_line1_screen2 temp_x10 humid_x10 pm25 gas err_aht10 err_pm25
        err_gas hg
  have h2 : ∃ T : List Nat, T.length ≤ 16 ∧ (∀ c ∈ T, c ≠ 0) ∧
      Display_Update_Mode_line2 a humid_x10 pm25 gas err_aht10 err_pm25 err_gas
        = (puts T (Wr.fresh 17)).nul := by
    rcases (by omega : a = 0 ∨ a = 1 ∨ a = 2) with e | e | e
    · rw [e]
      exact Display_Update_Mode_line2_screen0 humid_x10 pm25 gas err_aht10 err_pm25 err_gas
        hh1 hh2
    · rw [e]
      exact Display_Update_Mode_line2_screen1 humid_x10 pm25 gas err_aht10 err_pm25 err_gas
    · rw [e]
      exact Display_Update_Mode_line2_screen2 humid_x10 pm25 gas err_aht10 err_pm25 err_gas
  have s1 := line_shown _ h1
  have s2 := line_shown _ h2
  refine ⟨s1.1, s2.1, s1.2.1, s2.2.1, ?_, _, _, s1.2.2.2.2.2.1, s2.2.2.2.2.2.1, ?_⟩
  · unfold Display_Update_Mode
    simp only []
    rw [hsel, hf, s1.2.1, s1.2.2.1, s1.2.2.2.1, s1.2.2.2.2.1, s2.2.1, s2.2.2.1, s2.2.2.2.1,
      s2.2.2.2.2.1]
    simp only [Bool.or_false]
  · unfold Display_Update_Mode
    simp only []
    rw [hsel]

set_option maxRecDepth 100000 in
/-- Witness for C29: the PM2.5 screen with the largest concentration the
sensor driver reports. -/
theorem Display_Update_Mode_fits_witness :
    (Display_Update_Mode 256 653 500 1000 1 0 0 0 Display.reset).fault = false ∧
    (Display_Update_Mode_line1 (Display_Update_Mode_select 1 Display.reset).1 256 653 500 1000
      0 0 0).p ≤ 16 ∧
    (Display_Update_Mode 256 653 500 1000 1 0 0 0 Display.reset).lcd
      = [LcdEv.command 1, LcdEv.delay_ms 2, LcdEv.set_cursor 0 0,
          LcdEv.print ("PM2.5: 500 ug/m3".toList.map ch), LcdEv.set_cursor 1 0,
          LcdEv.print ("Hazardous       ".toList.map ch)] :=
  ⟨(Display_Update_Mode_fits 256 653 500 1000 1 0 0 0 Display.reset (by decide) (by decide)
      (by decide) (by decide) (by decide) (by decide) (by decide)
      (fun _ => Or.inr (by decide))).2.2.2.2.1,
   (Display_Update_Mode_fits 256 653 500 1000 1 0 0 0 Display.reset (by decide) (by decide)
      (by decide) (by decide) (by decide) (by decide) (by decide)
      (fun _ => Or.inr (by decide))).1, by decide⟩

/-! ## Display: claim C30 -/

/-- Screen recorded by the clearing step. -/
theorem Display_Update_Mode_clear_last (a : Nat) (d : Display) :
    (Display_Update_Mode_clear a d).last_mode = a ∧
    (Display_Update_Mode_clear a d).screen_counter = d.screen_counter := by
  unfold Display_Update_Mode_clear
  by_cases h : a ≠ d.last_mode
  · rw [if_pos h]; exact ⟨rfl, rfl⟩
  · rw [if_neg h]; exact ⟨(not_not.mp h).symm, rfl⟩

/-- One call in Auto mode: the counter advances modulo 12 and the screen shown
is the new counter divided by 4. -/
theorem Display_Update_Mode_auto (temp_x10 humid_x10 : Int) (pm25 gas : Nat)
    (err_aht10 err_pm25 err_gas : Nat) (d : Display) (hd : d.screen_counter < 12) :
    (Display_Update_Mode temp_x10 humid_x10 pm25 gas 3 err_aht10 err_pm25 err_gas
      d).screen_counter = (d.screen_counter + 1) % 12 ∧
    (Display_Update_Mode temp_x10 humid_x10 pm25 gas 3 err_aht10 err_pm25 err_gas
      d).last_mode = (d.screen_counter + 1) % 12 / 4 := by
  have e1 : toU8 ((d.screen_counter : Int) + 1) = d.screen_counter + 1 := by
    unfold toU8; omega
  have e2 : (if d.screen_counter + 1 ≥ 12 then 0 else d.screen_counter + 1)
      = (d.screen_counter + 1) % 12 := by
    split_ifs <;> omega
  have hs : Display_Update_Mode_select 3 d
      = ((d.screen_counter + 1) % 12 / 4, { d with screen_counter := (d.screen_counter + 1) % 12 }) := by
    unfold Display_Update_Mode_select
    rw [if_pos rfl]
    simp only [e1, e2]
  unfold Display_Update_Mode
  simp only [hs]
  exact ⟨(Display_Update_Mode_clear_last _ _).2, (Display_Update_Mode_clear_last _ _).1⟩

/-- The screens shown in Auto mode from a state with counter `c`: call `k`
(counting from 0) shows screen `((c + 1 + k) mod 12) / 4`. -/
theorem autoScreens_eq (temp_x10 humid_x10 : Int) (pm25 gas : Nat)
    (err_aht10 err_pm25 err_gas : Nat) :
    ∀ (n : Nat) (d : Display), d.screen_counter < 12 →
      autoScreens temp_x10 humid_x10 pm25 gas err_aht10 err_pm25 err_gas n d
        = (List.range n).map fun k => (d.screen_counter + 1 + k) % 12 / 4 := by
  intro n
  induction n with
  | zero => intro d _; rfl
  | succ m ih =>
    intro d hd
    have h := Display_Update_Mode_auto temp_x10 humid_x10 pm25 gas err_aht10 err_pm25 err_gas
      d hd
    unfold autoScreens
    rw [ih _ (by rw [h.1]; omega), h.1, h.2, List.range_succ_eq_map, List.map_cons,
      List.map_map]
    congr 1
    apply List.map_congr_left
    intro k _
    simp only [Function.comp]
    omega

/-- C30 on the code: in Auto mode from the reset state, whatever the readings,
the first sixteen calls show the screens 0 0 0 1 1 1 1 2 2 2 2 0 0 0 0 1 (call
`k`, counted from 0, shows screen `((k + 1) mod 12) / 4`): the order is 0, 1,
2, 0 and screens 1, 2 and the later showings of 0 last four calls, but the
first showing of screen 0 lasts three calls (the counter is incremented before
it is used, so it is 1, 2, 3 in these calls). -/
theorem Display_auto_first_screen (temp_x10 humid_x10 : Int) (pm25 gas : Nat)
    (err_aht10 err_pm25 err_gas : Nat) :
    autoScreens temp_x10 humid_x10 pm25 gas err_aht10 err_pm25 err_gas 16 Display.reset
      = [0, 0, 0, 1, 1, 1, 1, 2, 2, 2, 2, 0, 0, 0, 0, 1] ∧
    (∀ n, autoScreens temp_x10 humid_x10 pm25 gas err_aht10 err_pm25 err_gas n Display.reset
      = (List.range n).map fun k => (k + 1) % 12 / 4) ∧
    (Display_Update_Mode temp_x10 humid_x10 pm25 gas 3 err_aht10 err_pm25 err_gas
      Display.reset).screen_counter = 1 := by
  have h := autoScreens_eq temp_x10 humid_x10 pm25 gas err_aht10 err_pm25 err_gas
  refine ⟨?_, ?_, rfl⟩
  · rw [h 16 Display.reset (by decide)]; rfl
  · intro n
    rw [h n Display.reset (by decide)]
    apply List.map_congr_left
    intro k _
    simp only [Display.reset]
    omega

/-! ## Gas filter ring: claims C31 and C38 -/

/-- The ring left by `Gas_Filter`: the new value in the slot at `gas_index`,
the index advanced modulo 4. -/
theorem Gas_Filter_ring_eq (r : GasRing) (v : Nat) :
    (Gas_Filter r v).1 = ⟨r.gas_history.set r.gas_index v, (r.gas_index + 1) % 4⟩ := by
  have e : toU8 (((r.gas_index + 1) % GAS_FILTER_SIZE : Nat) : Int) = (r.gas_index + 1) % 4 := by
    unfold toU8 GAS_FILTER_SIZE; omega
  unfold Gas_Filter
  simp only [e]

/-- A call of `Gas_Filter` keeps the ring well formed. -/
theorem Gas_Filter_wf (r : GasRing) (v : Nat) (hr : r.wf) (hv : v < 65536) :
    (Gas_Filter r v).1.wf := by
  obtain ⟨hl, hi, hb⟩ := hr
  rw [Gas_Filter_ring_eq r v]
  refine ⟨by simp [hl], Nat.mod_lt _ (by decide), ?_⟩
  intro x hx
  rcases List.mem_or_eq_of_mem_set hx with h | h
  · exact hb x h
  · rw [h]; exact hv

/-- Successive calls of `Gas_Filter` keep the ring well formed. -/
theorem Gas_Filter_run_wf (vs : List Nat) : ∀ (r : GasRing), r.wf → (∀ v ∈ vs, v < 65536) →
    (Gas_Filter_run r vs).wf := by
  induction vs with
  | nil => intro r hr _; exact hr
  | cons v vs ih =>
    intro r hr hv
    exact ih _ (Gas_Filter_wf r v hr (hv v (List.mem_cons_self _ _)))
      (fun x hx => hv x (List.mem_cons_of_mem _ hx))

/-- Calls for a list of values followed by another list. -/
theorem Gas_Filter_run_append (r : GasRing) (a b : List Nat) :
    Gas_Filter_run r (a ++ b) = Gas_Filter_run (Gas_Filter_run r a) b := by
  unfold Gas_Filter_run
  rw [List.foldl_append]

/-- Four calls fill the four slots: the ring holds the four values, rotated
by the index, and the index is back where it was. -/
theorem Gas_Filter_run_four (r : GasRing) (a b c d : Nat) (hr : r.wf) :
    List.Perm (Gas_Filter_run r [a, b, c, d]).gas_history [a, b, c, d] ∧
    (Gas_Filter_run r [a, b, c, d]).gas_index = r.gas_index := by
  obtain ⟨l, i⟩ := r
  obtain ⟨hl, hi, hb⟩ := hr
  simp only at hl hi hb
  rcases l with _ | ⟨h0, _ | ⟨h1, _ | ⟨h2, _ | ⟨h3, _ | ⟨e, l⟩⟩⟩⟩⟩ <;> simp at hl
  have step : ∀ (l : List Nat) (j v : Nat), j < 4 →
      (Gas_Filter ⟨l, j⟩ v).1 = ⟨l.set j v, (j + 1) % 4⟩ :=
    fun l j v _ => Gas_Filter_ring_eq ⟨l, j⟩ v
  unfold Gas_Filter_run
  simp only [List.foldl]
  interval_cases i
  · rw [step _ 0 a (by decide), step _ _ b (by decide), step _ _ c (by decide),
      step _ _ d (by decide)]
    exact ⟨List.Perm.refl _, rfl⟩
  · rw [step _ 1 a (by decide), step _ _ b (by decide), step _ _ c (by decide),
      step _ _ d (by decide)]
    exact ⟨@List.perm_append_comm _ [d] [a, b, c], rfl⟩
  · rw [step _ 2 a (by decide), step _ _ b (by decide), step _ _ c (by decide),
      step _ _ d (by decide)]
    exact ⟨@List.perm_append_comm _ [c, d] [a, b], rfl⟩
  · rw [step _ 3 a (by decide), step _ _ b (by decide), step _ _ c (by decide),
      step _ _ d (by decide)]
    exact ⟨@List.perm_append_comm _ [b, c, d] [a], rfl⟩

/-- C31: for a well-formed ring (four slots, index in 0..3) and `unsigned int`
values, a call of `Gas_Filter` writes the slot at `gas_index` only, advances
`gas_index` by 1 modulo 4 and leaves the ring well formed, so the index stays
in 0..3 from the reset state on; after four or more calls the ring holds, as a
multiset, the last four values passed. -/
theorem Gas_Filter_ring (r : GasRing) (hr : r.wf) (v : Nat) (hv : v < 65536)
    (vs : List Nat) (hvs : ∀ x ∈ vs, x < 65536) :
    (Gas_Filter r v).1.gas_history = r.gas_history.set r.gas_index v ∧
    (Gas_Filter r v).1.gas_history.getD r.gas_index 0 = v ∧
    (∀ j, j ≠ r.gas_index →
      (Gas_Filter r v).1.gas_history.getD j 0 = r.gas_history.getD j 0) ∧
    (Gas_Filter r v).1.gas_index = (r.gas_index + 1) % 4 ∧
    (Gas_Filter r v).1.gas_index < 4 ∧
    (Gas_Filter r v).1.wf ∧
    GasRing.reset.wf ∧
    (Gas_Filter_run r vs).wf ∧
    (Gas_Filter_run r vs).gas_index < 4 ∧
    (Gas_Filter_run r vs).gas_index = (r.gas_index + vs.length) % 4 ∧
    (4 ≤ vs.length →
      List.Perm (Gas_Filter_run r vs).gas_history (vs.drop (vs.length - 4))) := by
  have heq := Gas_Filter_ring_eq r v
  have hwf := Gas_Filter_run_wf vs r hr hvs
  have hidx : ∀ (ws : List Nat) (q : GasRing), q.wf → (∀ x ∈ ws, x < 65536) →
      (Gas_Filter_run q ws).gas_index = (q.gas_index + ws.length) % 4 := by
    intro ws
    induction ws with
    | nil =>
      intro q hq _
      have := hq.2.1
      show q.gas_index = _
      rw [List.length_nil, Nat.add_zero, Nat.mod_eq_of_lt this]
    | cons w ws ih =>
      intro q hq hws
      have h1 := Gas_Filter_wf q w hq (hws w (List.mem_cons_self _ _))
      have h2 := ih (Gas_Filter q w).1 h1 (fun x hx => hws x (List.mem_cons_of_mem _ hx))
      have h3 : Gas_Filter_run q (w :: ws) = Gas_Filter_run (Gas_Filter q w).1 ws := rfl
      rw [h3, h2, Gas_Filter_ring_eq q w, List.length_cons]
      simp only []
      omega
  refine ⟨by rw [heq], ?_, ?_, by rw [heq], ?_, Gas_Filter_wf r v hr hv, by decide, hwf,
    hwf.2.1, hidx vs r hr hvs, ?_⟩
  · rw [heq]
    simp only []
    rw [List.getD_eq_getElem?_getD, List.getElem?_set_self (by rw [hr.1]; exact hr.2.1)]
    rfl
  · intro j hj
    rw [heq]
    simp only []
    rw [List.getD_eq_getElem?_getD, List.getD_eq_getElem?_getD,
      List.getElem?_set_ne (Ne.symm hj)]
  · rw [heq]
    exact Nat.mod_lt _ (by decide)
  · intro h4
    obtain ⟨a, b, c, d, hd⟩ : ∃ a b c d, vs.drop (vs.length - 4) = [a, b, c, d] := by
      have hl : (vs.drop (vs.length - 4)).length = 4 := by
        rw [List.length_drop]; omega
      rcases hdl : vs.drop (vs.length - 4) with _ | ⟨a, _ | ⟨b, _ | ⟨c, _ | ⟨d, _ | ⟨e, l⟩⟩⟩⟩⟩
      all_goals rw [hdl] at hl; simp at hl
      exact ⟨a, b, c, d, rfl⟩
    have hsplit : vs = vs.take (vs.length - 4) ++ [a, b, c, d] := by
      rw [← hd, List.take_append_drop]
    have hpre : (Gas_Filter_run r (vs.take (vs.length - 4))).wf :=
      Gas_Filter_run_wf _ r hr (fun x hx => hvs x (List.mem_of_mem_take hx))
    rw [hd]
    have e : Gas_Filter_run r vs
        = Gas_Filter_run (Gas_Filter_run r (vs.take (vs.length - 4))) [a, b, c, d] := by
      rw [← Gas_Filter_run_append, ← hsplit]
    rw [e]
    exact (Gas_Filter_run_four _ a b c d hpre).1

/-- Witness for C31: six calls from the reset state. -/
theorem Gas_Filter_ring_witness :
    List.Perm (Gas_Filter_run GasRing.reset [10, 20, 30, 40, 50, 60]).gas_history
      [30, 40, 50, 60] ∧
    (Gas_Filter_run GasRing.reset [10, 20, 30, 40, 50, 60]).gas_index = 2 ∧
    (Gas_Filter GasRing.reset 7).1 = ⟨[7, 0, 0, 0], 1⟩ := by
  have h := Gas_Filter_ring GasRing.reset (by decide) 7 (by decide) [10, 20, 30, 40, 50, 60]
    (by decide)
  exact ⟨h.2.2.2.2.2.2.2.2.2.2 (by decide), h.2.2.2.2.2.2.2.2.2.1, by decide⟩

/-- C38: from the reset ring `{0, 0, 0, 0}` the first call `Gas_Filter(x)`
returns 0 for every `unsigned int` `x`, and the second call `Gas_Filter(y)`
returns `floor(min(x, y) / 2)`; the first cycle after reset stores the
filtered value 0 and reports the concentration 0 for every sensor reading. -/
theorem Gas_Filter_warm_up (x y : Nat) (hx : x < 65536) (hy : y < 65536) (i : CycleInput) :
    (Gas_Filter GasRing.reset x).2 = 0 ∧
    (Gas_Filter GasRing.reset x).1 = ⟨[x, 0, 0, 0], 1⟩ ∧
    (Gas_Filter (Gas_Filter GasRing.reset x).1 y).2 = min x y / 2 ∧
    (Gas_Filter (Gas_Filter GasRing.reset x).1 y).1 = ⟨[x, y, 0, 0], 2⟩ ∧
    (main_cycle State.reset i).gas_raw = 0 ∧
    (main_cycle State.reset i).gas_ppm = 0 := by
  have h1 : (Gas_Filter GasRing.reset x).1 = ⟨[x, 0, 0, 0], 1⟩ :=
    Gas_Filter_ring_eq GasRing.reset x
  have h2 : (Gas_Filter ⟨[x, 0, 0, 0], 1⟩ y).1 = ⟨[x, y, 0, 0], 2⟩ :=
    Gas_Filter_ring_eq ⟨[x, 0, 0, 0], 1⟩ y
  have v1 : ∀ z, z < 65536 → (Gas_Filter GasRing.reset z).2 = 0 := by
    intro z hz
    have hv := Gas_Filter_value GasRing.reset z z 0 0 0 rfl hz (by omega) (by omega) (by omega)
    rw [hv]
    omega
  have v2 := Gas_Filter_value ⟨[x, 0, 0, 0], 1⟩ y x y 0 0 rfl hx hy (by omega) (by omega)
  have hc : gas_raw_clamped i < 65536 := by
    unfold gas_raw_clamped
    split_ifs
    · decide
    · omega
  have hg : (main_cycle State.reset i).gas_raw = 0 := by
    rw [(main_cycle_analog State.reset i).2.2.2.2.1]
    exact v1 _ hc
  refine ⟨v1 x hx, h1, ?_, ?_, hg, ?_⟩
  · rw [h1, v2]; omega
  · rw [h1, h2]
  · rw [(main_cycle_analog State.reset i).2.2.2.2.2]
    have e : (Gas_Filter State.reset.ring (gas_raw_clamped i)).2 = 0 := v1 _ hc
    rw [e]
    rfl

/-- Witness for C38: the readings 4000 and 3000 after reset. -/
theorem Gas_Filter_warm_up_witness :
    (Gas_Filter GasRing.reset 4000).2 = 0 ∧
    (Gas_Filter (Gas_Filter GasRing.reset 4000).1 3000).2 = 1500 :=
  ⟨(Gas_Filter_warm_up 4000 3000 (by decide) (by decide) ⟨⟨0, 0, 0, 0, 0, 0⟩, 0, 4000⟩).1,
   (Gas_Filter_warm_up 4000 3000 (by decide) (by decide) ⟨⟨0, 0, 0, 0, 0, 0⟩, 0, 4000⟩).2.2.1⟩

/-! ## Ranges of the readings: claims C32, C33 and C37 -/

/-- The humidity conversion for a 20-bit field, without wraparound. -/
theorem AHT10_humid_x10_eq (raw : Nat) (h : raw < 1048576) :
    AHT10_humid_x10 raw = ((raw * 1000 / 1048576 : Nat) : Int) := by
  have u : toU32 ((raw : Int) * 1000) = raw * 1000 := by unfold toU32; omega
  unfold AHT10_humid_x10
  rw [u]
  exact toI16_of_range _ (by omega) (by omega)

/-- The temperature conversion for a 20-bit field, without wraparound. -/
theorem AHT10_temp_x10_eq (raw : Nat) (h : raw < 1048576) :
    AHT10_temp_x10 raw = ((raw * 2000 / 1048576 : Nat) : Int) - 500 := by
  have u : toU32 ((raw : Int) * 2000) = raw * 2000 := by unfold toU32; omega
  unfold AHT10_temp_x10
  rw [u]
  have e1 : toI16 ((raw * 2000 / 1048576 : Nat) : Int) = ((raw * 2000 / 1048576 : Nat) : Int) :=
    toI16_of_range _ (by omega) (by omega)
  rw [e1]
  exact toI16_of_range _ (by omega) (by omega)

/-- The two values returned by `AHT10_Read` for a capture of six bytes. -/
theorem AHT10_Read_eq (c : Capture) (hc : c.valid) :
    (AHT10_Read c).2
      = (((c.data1 * 4096 + c.data2 * 16 + c.data3 / 16) * 1000 / 1048576 : Nat) : Int) ∧
    (AHT10_Read c).1
      = (((c.data3 % 16 * 65536 + c.data4 * 256 + c.data5) * 2000 / 1048576 : Nat) : Int)
        - 500 := by
  obtain ⟨_, h1, h2, h3, h4, h5⟩ := hc
  have eh := AHT10_humidity_raw_eq c.data1 c.data2 c.data3 h1 h2 h3
  have et := AHT10_temperature_raw_eq c.data3 c.data4 c.data5 h4 h5
  constructor
  · show AHT10_humid_x10 (AHT10_humidity_raw c.data1 c.data2 c.data3) = _
    rw [eh]
    exact AHT10_humid_x10_eq _ (by omega)
  · show AHT10_temp_x10 (AHT10_temperature_raw c.data3 c.data4 c.data5) = _
    rw [et]
    exact AHT10_temp_x10_eq _ (by omega)

/-- The readings decoded from six bytes `0xFF` and from six bytes `0x00`. -/
theorem AHT10_Read_stuck (d0 : Nat) :
    AHT10_Read ⟨d0, 255, 255, 255, 255, 255⟩ = (1499, 999) ∧
    AHT10_Read ⟨d0, 0, 0, 0, 0, 0⟩ = (-500, 0) := by
  constructor
  · show AHT10_Read ⟨0, 255, 255, 255, 255, 255⟩ = _
    obtain ⟨a, b⟩ := AHT10_Read_eq ⟨0, 255, 255, 255, 255, 255⟩ (by decide)
    exact Prod.ext (by rw [b]; norm_num) (by rw [a]; norm_num)
  · show AHT10_Read ⟨0, 0, 0, 0, 0, 0⟩ = _
    obtain ⟨a, b⟩ := AHT10_Read_eq ⟨0, 0, 0, 0, 0, 0⟩ (by decide)
    exact Prod.ext (by rw [b]; norm_num) (by rw [a]; norm_num)

/-- C32: for every capture of six bytes `AHT10_Read` returns a humidity in
0..999 and a temperature in -500..1499 (both ends are reached); the humidity
test of the main loop is therefore never true and `err_aht10` is 1 exactly
when the temperature is below -400 or above 850, 0 otherwise. -/
theorem AHT10_Read_range (c : Capture) (hc : c.valid) (s : State) (a1 a0 : Int) :
    (0 ≤ (AHT10_Read c).2 ∧ (AHT10_Read c).2 ≤ 999) ∧
    (-500 ≤ (AHT10_Read c).1 ∧ (AHT10_Read c).1 ≤ 1499) ∧
    ¬ ((AHT10_Read c).2 < AHT10_HUMID_MIN ∨ (AHT10_Read c).2 > AHT10_HUMID_MAX) ∧
    ((main_cycle s ⟨c, a1, a0⟩).err_aht10 = 1 ↔
      ((AHT10_Read c).1 < -400 ∨ (AHT10_Read c).1 > 850)) ∧
    ((main_cycle s ⟨c, a1, a0⟩).err_aht10 = 0 ↔
      (-400 ≤ (AHT10_Read c).1 ∧ (AHT10_Read c).1 ≤ 850)) ∧
    (main_cycle s ⟨c, a1, a0⟩).temperature_x10 = (AHT10_Read c).1 ∧
    (main_cycle s ⟨c, a1, a0⟩).humidity_x10 = (AHT10_Read c).2 ∧
    AHT10_Read ⟨0, 255, 255, 255, 255, 255⟩ = (1499, 999) ∧
    AHT10_Read ⟨0, 0, 0, 0, 0, 0⟩ = (-500, 0) := by
  obtain ⟨eh, et⟩ := AHT10_Read_eq c hc
  obtain ⟨_, h1, h2, h3, h4, h5⟩ := hc
  have hm := main_cycle_aht10 s ⟨c, a1, a0⟩
  have c1 : AHT10_TEMP_MIN = -400 := rfl
  have c2 : AHT10_TEMP_MAX = 850 := rfl
  have c3 : AHT10_HUMID_MIN = 0 := rfl
  have c4 : AHT10_HUMID_MAX = 1000 := rfl
  have hh : 0 ≤ (AHT10_Read c).2 ∧ (AHT10_Read c).2 ≤ 999 := by
    rw [eh]; omega
  have ht : -500 ≤ (AHT10_Read c).1 ∧ (AHT10_Read c).1 ≤ 1499 := by
    rw [et]; omega
  have e := hm.1
  have e2 := hm.2.1
  have e3 := hm.2.2
  simp only [c1, c2, c3, c4] at e e2 e3
  generalize (AHT10_Read c).1 = t at ht e e2 ⊢
  generalize (AHT10_Read c).2 = h at hh e e3 ⊢
  refine ⟨hh, ht, ?_, ?_, ?_, e2, e3, ?_, ?_⟩
  · rw [c3, c4]; omega
  · rw [e]
    split_ifs with hc2
    · exact ⟨fun _ => by omega, fun _ => rfl⟩
    · exact ⟨fun h0 => absurd h0 (by decide), fun h1 => absurd (by omega) hc2⟩
  · rw [e]
    split_ifs with hc2
    · exact ⟨fun h0 => absurd h0 (by decide), fun h1 => absurd hc2 (by omega)⟩
    · exact ⟨fun _ => by omega, fun _ => rfl⟩
  · exact (AHT10_Read_stuck 0).1
  · exact (AHT10_Read_stuck 0).2

/-- Witness for C32: a capture that decodes to 25.0 degrees and 50.0 percent. -/
theorem AHT10_Read_range_witness :
    (0 ≤ (AHT10_Read ⟨0x1C, 0x80, 0x00, 0x06, 0x00, 0x00⟩).2 ∧
      (AHT10_Read ⟨0x1C, 0x80, 0x00, 0x06, 0x00, 0x00⟩).2 ≤ 999) ∧
    AHT10_Read ⟨0x1C, 0x80, 0x00, 0x06, 0x00, 0x00⟩ = (250, 500) :=
  ⟨(AHT10_Read_range ⟨0x1C, 0x80, 0x00, 0x06, 0x00, 0x00⟩ (by decide) State.reset 0 0).1,
   by decide⟩

/-- The raw values of the two analog channels for a conversion result. -/
theorem analog_raw_eq (c : Int) (h1 : -32768 ≤ c) (h2 : c ≤ 32767) :
    (GP2Y1014_Read c).2 = (max c 0).toNat ∧ MQ2_Read c = (max c 0).toNat := by
  have e1 : (GP2Y1014_Read c).2 = toU16 (if c < 0 then 0 else c) := rfl
  have e2 : MQ2_Read c = if c < 0 then 0 else toU16 c := rfl
  rw [e1, e2]
  unfold toU16
  constructor
  · split_ifs <;> omega
  · split_ifs <;> omega

/-- C33: for every signed 16-bit conversion result `c`, the raw value of
either analog channel is `max(c, 0)`, at most 32767, and the particulate
concentration is at most 500; so the tests `> 60000` and `pm25_ugm3 > 500` are
never true and the clamp `gas_raw > 32767` is never taken: `err_pm25` (resp.
`err_gas`) is 1 exactly when the result of channel 1 (resp. channel 0) is
`<= 0`, and 0 otherwise. -/
theorem analog_flags (c : Int) (h1 : -32768 ≤ c) (h2 : c ≤ 32767) (s : State) (cap : Capture)
    (a : Int) :
    ((GP2Y1014_Read c).2 = (max c 0).toNat ∧ (GP2Y1014_Read c).2 ≤ 32767) ∧
    (MQ2_Read c = (max c 0).toNat ∧ MQ2_Read c ≤ 32767) ∧
    (GP2Y1014_Read c).1 ≤ 500 ∧
    ¬ ((GP2Y1014_Read c).2 > 60000) ∧ ¬ ((GP2Y1014_Read c).1 > 500) ∧
    ¬ (MQ2_Read c > 60000) ∧ ¬ (MQ2_Read c > 32767) ∧
    gas_raw_clamped ⟨cap, a, c⟩ = MQ2_Read c ∧
    ((main_cycle s ⟨cap, c, a⟩).err_pm25 = 1 ↔ c ≤ 0) ∧
    ((main_cycle s ⟨cap, c, a⟩).err_pm25 = 0 ↔ 0 < c) ∧
    ((main_cycle s ⟨cap, a, c⟩).err_gas = 1 ↔ c ≤ 0) ∧
    ((main_cycle s ⟨cap, a, c⟩).err_gas = 0 ↔ 0 < c) := by
  obtain ⟨r1, r2⟩ := analog_raw_eq c h1 h2
  have hle := GP2Y1014_Read_le c
  have hp := (main_cycle_analog s ⟨cap, c, a⟩).1
  have hg := (main_cycle_analog s ⟨cap, a, c⟩).2.2.2.1
  simp only [] at hp hg
  have hcl : gas_raw_clamped ⟨cap, a, c⟩ = MQ2_Read c := by
    unfold gas_raw_clamped gas_raw_read
    simp only []
    rw [if_neg (by rw [r2]; omega)]
  rw [hp, hg]
  generalize (GP2Y1014_Read c).1 = u at hle ⊢
  rw [r1, r2]
  refine ⟨⟨rfl, by omega⟩, ⟨rfl, by omega⟩, hle, by omega, by omega, by omega, by omega,
    by rw [hcl, r2], ?_, ?_, ?_, ?_⟩
  · split_ifs with hc
    · exact ⟨fun _ => by omega, fun _ => rfl⟩
    · exact ⟨fun h0 => absurd h0 (by decide), fun h => absurd (by omega) hc⟩
  · split_ifs with hc
    · exact ⟨fun h0 => absurd h0 (by decide), fun h => absurd hc (by omega)⟩
    · exact ⟨fun _ => by omega, fun _ => rfl⟩
  · split_ifs with hc
    · exact ⟨fun _ => by omega, fun _ => rfl⟩
    · exact ⟨fun h0 => absurd h0 (by decide), fun h => absurd (by omega) hc⟩
  · split_ifs with hc
    · exact ⟨fun h0 => absurd h0 (by decide), fun h => absurd hc (by omega)⟩
    · exact ⟨fun _ => by omega, fun _ => rfl⟩

/-- Witness for C33: the conversion results -1 and 4000. -/
theorem analog_flags_witness :
    ((main_cycle State.reset ⟨⟨0, 0, 0, 0, 0, 0⟩, -1, 4000⟩).err_pm25 = 1 ↔ (-1 : Int) ≤ 0) ∧
    ((main_cycle State.reset ⟨⟨0, 0, 0, 0, 0, 0⟩, -1, 4000⟩).err_gas = 0 ↔ (0 : Int) < 4000) :=
  ⟨(analog_flags (-1) (by decide) (by decide) State.reset ⟨0, 0, 0, 0, 0, 0⟩ 4000).2.2.2.2.2.2.2.2.1,
   (analog_flags 4000 (by decide) (by decide) State.reset ⟨0, 0, 0, 0, 0, 0⟩
      (-1)).2.2.2.2.2.2.2.2.2.2.2⟩

/-- C37: `AHT10_Read` does not use byte 0 of the capture: with any other
status byte (busy bit set or not) it returns the same temperature and humidity,
and the main loop sets the same `err_aht10` and stores the same readings. -/
theorem AHT10_status_ignored (c : Capture) (d0 : Nat) (s : State) (a1 a0 : Int) :
    AHT10_Read { c with data0 := d0 } = AHT10_Read c ∧
    AHT10_Read { c with data0 := c.data0 ||| 0x80 } = AHT10_Read c ∧
    AHT10_Read { c with data0 := c.data0 &&& 0x7F } = AHT10_Read c ∧
    (main_cycle s ⟨{ c with data0 := d0 }, a1, a0⟩).err_aht10
      = (main_cycle s ⟨c, a1, a0⟩).err_aht10 ∧
    (main_cycle s ⟨{ c with data0 := d0 }, a1, a0⟩).temperature_x10
      = (main_cycle s ⟨c, a1, a0⟩).temperature_x10 ∧
    (main_cycle s ⟨{ c with data0 := d0 }, a1, a0⟩).humidity_x10
      = (main_cycle s ⟨c, a1, a0⟩).humidity_x10 ∧
    AHT10_Read ⟨0x80, 0x80, 0x00, 0x05, 0x99, 0x9A⟩ = AHT10_Read ⟨0x1C, 0x80, 0x00, 0x05, 0x99, 0x9A⟩
      := by
  have h : ∀ x, AHT10_Read { c with data0 := x } = AHT10_Read c := fun _ => rfl
  have hm := main_cycle_aht10 s
  refine ⟨h _, h _, h _, ?_, ?_, ?_, rfl⟩
  · rw [(hm _).1, (hm _).1]
    simp only [h]
  · rw [(hm _).2.1, (hm _).2.1]
    simp only [h]
  · rw [(hm _).2.2, (hm _).2.2]
    simp only [h]

/-! ## Timeout with a late acknowledgement: claim C36 -/

/-- When all 200 polls of the acknowledgement wait read high, step 2 of
`I2C_WriteByte` makes 201 samplings and returns the last one. -/
theorem I2C_WriteByte_ack_late (s : Bus)
    (hall : ∀ k, k < 200 → s.line (s.reads + k) = true) :
    (I2C_WriteByte_ack s).2.reads = s.reads + 201 ∧
    (I2C_WriteByte_ack s).1 = s.line (s.reads + 200) := by
  have hT : I2C_TIMEOUT = 200 := rfl
  generalize hs1 : set_SCL true (delay_us 2 (set_SDA true s)) = s1
  have h1r : s1.reads = s.reads := by rw [← hs1]; rfl
  have h1l : s1.line = s.line := by rw [← hs1]; rfl
  obtain ⟨_, _, _, fl, _⟩ := ack_wait_frame 256 200 s1
  obtain ⟨_, b, _, _, e⟩ := ack_wait_spec 256 200 s1 (by omega) (by omega) (by omega)
  rw [h1r, h1l] at b
  rw [h1r] at e
  have h0 := b.2 hall
  have hrd := e h0
  generalize hw : ack_wait 256 200 s1 = w at fl h0 hrd
  have hres : I2C_WriteByte_ack s
      = (w.2.line w.2.reads,
         if w.1 = 0 then { set_SCL false (delay_us 5 (read_SDA w.2).2) with i2c_error := 1 }
         else set_SCL false (delay_us 5 (read_SDA w.2).2)) := by
    unfold I2C_WriteByte_ack
    simp only [hs1, hT, hw]
    rfl
  rw [hres, if_pos h0]
  refine ⟨?_, ?_⟩
  · simp [set_SCL, delay_us, read_SDA, hrd]
  · simp [fl, h1l, hrd]

/-- C36: the fault indicator and the value returned by `I2C_WriteByte` come
from different samplings.  On a line that reads high at the 200 polls of the
waiting loop and low at the one further sampling made after the loop, a single
call makes 201 samplings, sets `i2c_error` to 1 and returns 0 (acknowledged). -/
theorem I2C_WriteByte_timeout_acknowledged (dat : Nat) (s : Bus)
    (hhigh : ∀ k, k < 200 → s.line (s.reads + k) = true)
    (hlow : s.line (s.reads + 200) = false) :
    (I2C_WriteByte dat s).2.i2c_error = 1 ∧ (I2C_WriteByte dat s).1 = false ∧
    (I2C_WriteByte dat s).2.reads = s.reads + 201 ∧
    (I2C_WriteByte dat s).1 = s.line (s.reads + 200) ∧
    allHigh s.line s.reads 200 = true ∧
    (I2C_WriteByte dat s).2.i2c_error
      = (if allHigh s.line s.reads 200 then 1 else s.i2c_error) := by
  have hdef : I2C_WriteByte dat s
      = I2C_WriteByte_ack (I2C_WriteByte_data dat (enter (Call.write dat) s)).2 := rfl
  obtain ⟨_, _, dl, dr, _⟩ := I2C_WriteByte_data_frame dat (enter (Call.write dat) s)
  have hl : (enter (Call.write dat) s).line = s.line := rfl
  have hr : (enter (Call.write dat) s).reads = s.reads := rfl
  rw [hl] at dl
  rw [hr] at dr
  have he := (I2C_WriteByte_spec dat s).2.2.2.2.2.1
  have h200 : allHigh s.line s.reads 200 = true := (allHigh_iff _ _ _).2 hhigh
  have ht := I2C_WriteByte_ack_late (I2C_WriteByte_data dat (enter (Call.write dat) s)).2
    (by rw [dl, dr]; exact hhigh)
  rw [dl, dr, ← hdef] at ht
  refine ⟨?_, ?_, ht.1, ht.2, h200, he⟩
  · rw [he, h200]; rfl
  · rw [ht.2, hlow]

/-- Witness for C36: a line that goes low only at its 201st sampling. -/
theorem I2C_WriteByte_timeout_acknowledged_witness :
    (I2C_WriteByte 0x70 (I2C_Start (Bus.idle fun k => decide (k < 200)))).2.i2c_error = 1 ∧
    (I2C_WriteByte 0x70 (I2C_Start (Bus.idle fun k => decide (k < 200)))).1 = false :=
  have h := I2C_WriteByte_timeout_acknowledged 0x70
    (I2C_Start (Bus.idle fun k => decide (k < 200)))
    (fun k hk => by
      show decide (0 + k < 200) = true
      exact decide_eq_true (by omega))
    (by decide)
  ⟨h.1, h.2.1⟩

/-! ## Stuck bus: claim C34 -/

/-- Eight samplings of a line stuck at one level give `0xFF` or `0x00`. -/
theorem byteAt_stuck (line : Nat → Bool) (n : Nat) (v : Bool)
    (h : ∀ k, n ≤ k → line k = v) : byteAt line n = if v then 255 else 0 := by
  unfold byteAt
  rw [h n (by omega), h (n + 1) (by omega), h (n + 2) (by omega), h (n + 3) (by omega),
    h (n + 4) (by omega), h (n + 5) (by omega), h (n + 6) (by omega), h (n + 7) (by omega)]
  cases v <;> rfl

/-- On a stuck line `I2C_ReadByte` returns `0xFF` or `0x00` and the line stays stuck. -/
theorem I2C_ReadByte_stuck (ack : Bool) (s : Bus) (v : Bool)
    (h : ∀ k, s.reads ≤ k → s.line k = v) :
    (I2C_ReadByte ack s).1 = (if v then 255 else 0) ∧
    (∀ k, (I2C_ReadByte ack s).2.reads ≤ k → (I2C_ReadByte ack s).2.line k = v) := by
  rw [I2C_ReadByte_eq]
  refine ⟨byteAt_stuck _ _ _ h, fun k hk => h k ?_⟩
  have : s.reads + 8 ≤ k := hk
  omega

/-- On a stuck line the line stays stuck after `I2C_WriteByte`. -/
theorem I2C_WriteByte_stuck (dat : Nat) (s : Bus) (v : Bool)
    (h : ∀ k, s.reads ≤ k → s.line k = v) :
    ∀ k, (I2C_WriteByte dat s).2.reads ≤ k → (I2C_WriteByte dat s).2.line k = v := by
  obtain ⟨_, _, hl, _, ⟨r1, _⟩, _⟩ := I2C_WriteByte_spec dat s
  intro k hk
  rw [hl]
  exact h k (by omega)

theorem I2C_Start_stuck (s : Bus) (v : Bool) (h : ∀ k, s.reads ≤ k → s.line k = v) :
    ∀ k, (I2C_Start s).reads ≤ k → (I2C_Start s).line k = v := h

theorem I2C_Stop_stuck (s : Bus) (v : Bool) (h : ∀ k, s.reads ≤ k → s.line k = v) :
    ∀ k, (I2C_Stop s).reads ≤ k → (I2C_Stop s).line k = v := h

theorem delay_ms_stuck (n : Nat) (s : Bus) (v : Bool) (h : ∀ k, s.reads ≤ k → s.line k = v) :
    ∀ k, (delay_ms n s).reads ≤ k → (delay_ms n s).line k = v := h

theorem delay_us_stuck (n : Nat) (s : Bus) (v : Bool) (h : ∀ k, s.reads ≤ k → s.line k = v) :
    ∀ k, (delay_us n s).reads ≤ k → (delay_us n s).line k = v := h

theorem set_DUST_LED_stuck (x : Bool) (s : Bus) (v : Bool)
    (h : ∀ k, s.reads ≤ k → s.line k = v) :
    ∀ k, (set_DUST_LED x s).reads ≤ k → (set_DUST_LED x s).line k = v := h

/-- On a stuck line the six bytes read by `AHT10_Read` are all `0xFF` or all `0x00`. -/
theorem AHT10_Read_capture_stuck (s : Bus) (v : Bool)
    (h : ∀ k, s.reads ≤ k → s.line k = v) :
    (AHT10_Read_capture s).1
      = ⟨if v then 255 else 0, if v then 255 else 0, if v then 255 else 0,
         if v then 255 else 0, if v then 255 else 0, if v then 255 else 0⟩ ∧
    (∀ k, (AHT10_Read_capture s).2.reads ≤ k → (AHT10_Read_capture s).2.line k = v) := by
  unfold AHT10_Read_capture
  dsimp only
  have h1 := I2C_Stop_stuck _ v (I2C_WriteByte_stuck 0x00 _ v (I2C_WriteByte_stuck 0x33 _ v
    (I2C_WriteByte_stuck 0xAC _ v (I2C_WriteByte_stuck (AHT10_ADDR <<< 1) _ v
    (I2C_Start_stuck s v h)))))
  generalize I2C_Stop (I2C_WriteByte 0x00 (I2C_WriteByte 0x33 (I2C_WriteByte 0xAC
    (I2C_WriteByte (AHT10_ADDR <<< 1) (I2C_Start s)).2).2).2).2 = s1 at h1
  have h2 := I2C_WriteByte_stuck ((AHT10_ADDR <<< 1) ||| 0x01) _ v
    (I2C_Start_stuck _ v (delay_ms_stuck 80 s1 v h1))
  generalize (I2C_WriteByte ((AHT10_ADDR <<< 1) ||| 0x01) (I2C_Start (delay_ms 80 s1))).2 = s2
    at h2
  obtain ⟨e0, k0⟩ := I2C_ReadByte_stuck false s2 v h2
  generalize I2C_ReadByte false s2 = r0 at e0 k0
  obtain ⟨e1, k1⟩ := I2C_ReadByte_stuck false r0.2 v k0
  generalize I2C_ReadByte false r0.2 = r1 at e1 k1
  obtain ⟨e2, k2⟩ := I2C_ReadByte_stuck false r1.2 v k1
  generalize I2C_ReadByte false r1.2 = r2 at e2 k2
  obtain ⟨e3, k3⟩ := I2C_ReadByte_stuck false r2.2 v k2
  generalize I2C_ReadByte false r2.2 = r3 at e3 k3
  obtain ⟨e4, k4⟩ := I2C_ReadByte_stuck false r3.2 v k3
  generalize I2C_ReadByte false r3.2 = r4 at e4 k4
  obtain ⟨e5, k5⟩ := I2C_ReadByte_stuck true r4.2 v k4
  generalize I2C_ReadByte true r4.2 = r5 at e5 k5
  rw [e0, e1, e2, e3, e4, e5]
  exact ⟨rfl, I2C_Stop_stuck _ v k5⟩

/-- On a stuck line a conversion of the ADS1115 reads `0xFFFF` or `0x0000`. -/
theorem ADS1115_ReadChannel_stuck (ch : Nat) (s : Bus) (v : Bool)
    (h : ∀ k, s.reads ≤ k → s.line k = v) :
    (ADS1115_ReadChannel ch s).1
      = ADS1115_result (if v then 255 else 0) (if v then 255 else 0) ∧
    (∀ k, (ADS1115_ReadChannel ch s).2.reads ≤ k → (ADS1115_ReadChannel ch s).2.line k = v) := by
  unfold ADS1115_ReadChannel ADS1115_read_conversion
  dsimp only
  have h1 := delay_ms_stuck 10 _ v (I2C_Stop_stuck _ v
    (I2C_WriteByte_stuck ADS1115_ReadChannel_config_low _ v
    (I2C_WriteByte_stuck (ADS1115_ReadChannel_config_high ch) _ v
    (I2C_WriteByte_stuck 0x01 _ v (I2C_WriteByte_stuck (ADS1115_ADDR <<< 1) _ v
    (I2C_Start_stuck s v h))))))
  generalize delay_ms 10 (I2C_Stop (I2C_WriteByte ADS1115_ReadChannel_config_low
    (I2C_WriteByte (ADS1115_ReadChannel_config_high ch) (I2C_WriteByte 0x01
    (I2C_WriteByte (ADS1115_ADDR <<< 1) (I2C_Start s)).2).2).2).2) = s1 at h1
  have h2 := I2C_WriteByte_stuck ((ADS1115_ADDR <<< 1) ||| 0x01) _ v (I2C_Start_stuck _ v
    (I2C_Stop_stuck _ v (I2C_WriteByte_stuck 0x00 _ v
    (I2C_WriteByte_stuck (ADS1115_ADDR <<< 1) _ v (I2C_Start_stuck s1 v h1)))))
  generalize (I2C_WriteByte ((ADS1115_ADDR <<< 1) ||| 0x01) (I2C_Start (I2C_Stop
    (I2C_WriteByte 0x00 (I2C_WriteByte (ADS1115_ADDR <<< 1) (I2C_Start s1)).2).2))).2 = s2
    at h2
  obtain ⟨e0, k0⟩ := I2C_ReadByte_stuck false s2 v h2
  generalize I2C_ReadByte false s2 = r0 at e0 k0
  obtain ⟨e1, k1⟩ := I2C_ReadByte_stuck true r0.2 v k0
  generalize I2C_ReadByte true r0.2 = r1 at e1 k1
  rw [e0, e1]
  exact ⟨rfl, I2C_Stop_stuck _ v k1⟩

/-- What the three sensor reads of a cycle obtain from a stuck line. -/
theorem cycle_inputs_stuck (b : Bus) (v : Bool) (h : ∀ k, b.reads ≤ k → b.line k = v) :
    cycle_inputs b
      = ⟨⟨if v then 255 else 0, if v then 255 else 0, if v then 255 else 0,
          if v then 255 else 0, if v then 255 else 0, if v then 255 else 0⟩,
         ADS1115_result (if v then 255 else 0) (if v then 255 else 0),
         ADS1115_result (if v then 255 else 0) (if v then 255 else 0)⟩ := by
  unfold cycle_inputs
  dsimp only
  obtain ⟨ea, ka⟩ := AHT10_Read_capture_stuck b v h
  generalize AHT10_Read_capture b = a at ea ka
  obtain ⟨e1, k1⟩ := ADS1115_ReadChannel_stuck 1 _ v
    (delay_us_stuck 280 _ v (set_DUST_LED_stuck false a.2 v ka))
  generalize ADS1115_ReadChannel 1 (delay_us 280 (set_DUST_LED false a.2)) = r1 at e1 k1
  obtain ⟨e0, _⟩ := ADS1115_ReadChannel_stuck 0 _ v (set_DUST_LED_stuck true r1.2 v k1)
  rw [ea, e1, e0]

set_option maxRecDepth 4000 in
/-- The bus after a cycle is the bus after the three sensor reads. -/
theorem main_cycle_bus_state (s : State) (b : Bus) :
    (main_cycle_bus s b).2
      = (ADS1115_ReadChannel 0 (set_DUST_LED true (ADS1115_ReadChannel 1
          (delay_us 280 (set_DUST_LED false (AHT10_Read_capture b).2))).2)).2 := by
  unfold main_cycle_bus AHT10_Read_bus GP2Y1014_Read_bus MQ2_Read_bus
  dsimp only

/-- When the first address byte of `AHT10_Read` times out, the fault indicator
is 1 at the end of the cycle. -/
theorem main_cycle_bus_timeout (s : State) (b : Bus)
    (h : ∀ k, k < 201 → b.line (b.reads + k) = true) :
    (main_cycle_bus s b).2.i2c_error = 1 := by
  rw [main_cycle_bus_state]
  have h1 : (I2C_WriteByte (AHT10_ADDR <<< 1) (I2C_Start b)).2.i2c_error = 1 :=
    (I2C_WriteByte_high _ (I2C_Start b) h).2
  have h2 : (AHT10_Read_capture b).2.i2c_error = 1 := by
    unfold AHT10_Read_capture
    exact
      (I2C_Stop_sticky _ (I2C_ReadByte_sticky _ _ (I2C_ReadByte_sticky _ _ (I2C_ReadByte_sticky
      _ _ (I2C_ReadByte_sticky _ _ (I2C_ReadByte_sticky _ _ (I2C_ReadByte_sticky _ _
      (I2C_WriteByte_sticky _ _ (I2C_Start_sticky _ (delay_ms_sticky _ _ (I2C_Stop_sticky _
      (I2C_WriteByte_sticky _ _ (I2C_WriteByte_sticky _ _ (I2C_WriteByte_sticky _ _
      h1))))))))))))))
  exact ADS1115_ReadChannel_sticky _ _ (set_DUST_LED_sticky _ _ (ADS1115_ReadChannel_sticky _ _
    (delay_us_sticky _ _ (set_DUST_LED_sticky _ _ h2))))

/-- C34: if the data line reads the same level `v` at every sampling from the
start of an acquisition cycle on, the three sensor reads obtain bytes `0xFF`
(`v` high) or `0x00` (`v` low) only, and at the end of the cycle `err_aht10`,
`err_pm25` and `err_gas` are all 1; when the line is high, `i2c_error` is 1 as
well. -/
theorem stuck_bus_flags (v : Bool) (s : State) (b : Bus)
    (h : ∀ k, b.reads ≤ k → b.line k = v) :
    (main_cycle_bus s b).1.err_aht10 = 1 ∧ (main_cycle_bus s b).1.err_pm25 = 1 ∧
    (main_cycle_bus s b).1.err_gas = 1 ∧
    (v = true → (main_cycle_bus s b).2.i2c_error = 1) ∧
    (cycle_inputs b).capture
      = ⟨if v then 255 else 0, if v then 255 else 0, if v then 255 else 0,
         if v then 255 else 0, if v then 255 else 0, if v then 255 else 0⟩ ∧
    (cycle_inputs b).adc_ch1 = (if v then -1 else 0) ∧
    (cycle_inputs b).adc_ch0 = (if v then -1 else 0) ∧
    (main_cycle_bus s b).1.temperature_x10 = (if v then 1499 else -500) ∧
    (main_cycle_bus s b).1.humidity_x10 = (if v then 999 else 0) ∧
    (main_cycle_bus s b).1.pm25_raw = 0 := by
  have hi := cycle_inputs_stuck b v h
  have hb := main_cycle_bus_eq s b
  have ha := main_cycle_aht10 s (cycle_inputs b)
  have hg := main_cycle_analog s (cycle_inputs b)
  rw [← hb] at ha hg
  obtain ⟨a1, a2, a3⟩ := ha
  obtain ⟨g1, _, g3, g4, _, _⟩ := hg
  rw [a1, a2, a3, g1, g3, g4, hi]
  have c1 : AHT10_TEMP_MIN = -400 := rfl
  have c2 : AHT10_TEMP_MAX = 850 := rfl
  have c3 : AHT10_HUMID_MIN = 0 := rfl
  have c4 : AHT10_HUMID_MAX = 1000 := rfl
  have r1 : ADS1115_result 255 255 = -1 := by decide
  have r0 : ADS1115_result 0 0 = 0 := by decide
  have p1 : (GP2Y1014_Read (-1)).2 = 0 := by decide
  have p0 : (GP2Y1014_Read 0).2 = 0 := by decide
  have m1 : MQ2_Read (-1) = 0 := by decide
  have m0 : MQ2_Read 0 = 0 := by decide
  obtain ⟨t1, t0⟩ := AHT10_Read_stuck 255
  obtain ⟨_, t00⟩ := AHT10_Read_stuck 0
  cases v with
  | true =>
    simp only [if_true, r1, p1, m1, t1, c1, c2, c3, c4]
    refine ⟨by decide, by decide, by decide, fun _ => ?_, trivial, trivial, trivial, trivial,
      trivial, trivial⟩
    exact main_cycle_bus_timeout s b (fun k _ => h (b.reads + k) (by omega))
  | false =>
    simp only [Bool.false_eq_true, if_false, r0, p0, m0, t00, c1, c2, c3, c4]
    refine ⟨by decide, by decide, by decide, fun hv => absurd hv (by decide), trivial, trivial,
      trivial, trivial, trivial, trivial⟩

/-- Witness for C34: a bus on which nothing ever pulls the data line low. -/
theorem stuck_bus_flags_witness :
    (main_cycle_bus State.reset (Bus.idle fun _ => true)).1.err_aht10 = 1 ∧
    (main_cycle_bus State.reset (Bus.idle fun _ => true)).1.err_pm25 = 1 ∧
    (main_cycle_bus State.reset (Bus.idle fun _ => true)).1.err_gas = 1 ∧
    (main_cycle_bus State.reset (Bus.idle fun _ => true)).2.i2c_error = 1 :=
  have h := stuck_bus_flags true State.reset (Bus.idle fun _ => true) (fun _ _ => rfl)
  ⟨h.1, h.2.1, h.2.2.1, h.2.2.2.1 rfl⟩

/-! ## Data-validity rule: claim C35 -/

/-- Samplings are not writes to the data latch. -/
theorem sdaWritesHigh_samples (fn : Option Call) (sda scl : Bool) (line : Nat → Bool)
    (rest : List Ev) : ∀ (n r : Nat),
    sdaWritesHigh fn sda scl (samples line r n ++ rest) = sdaWritesHigh fn sda scl rest := by
  intro n
  induction n with
  | zero => intro r; simp [samples]
  | succ n ih =>
    intro r
    rw [samples_succ, List.cons_append]
    simp only [sdaWritesHigh]
    exact ih (r + 1)

/-- A clock pulse entered with the clock low holds no write to the data latch
while the clock latch is high. -/
theorem sdaWritesHigh_pulse (v : Bool) (fn : Option Call) (sda : Bool) (rest : List Ev) :
    sdaWritesHigh fn sda false (pulse v ++ rest) = sdaWritesHigh fn v false rest := rfl

/-- Entered with the clock low, `I2C_WriteByte` writes the data latch only
while the clock latch is low, and leaves the data latch released. -/
theorem sdaWritesHigh_write (dat n : Nat) (line : Nat → Bool) (r : Nat) (fn : Option Call)
    (sda : Bool) (rest : List Ev) :
    sdaWritesHigh fn sda false
      ((Ev.call (Call.write dat) :: dataPhase dat ++ [Ev.sda true, Ev.delay_us 2, Ev.scl true]
          ++ samples line r n ++ [Ev.delay_us 5, Ev.scl false]) ++ rest)
      = sdaWritesHigh (some (Call.write dat)) true false rest := by
  have e : (Ev.call (Call.write dat) :: dataPhase dat ++ [Ev.sda true, Ev.delay_us 2, Ev.scl true]
          ++ samples line r n ++ [Ev.delay_us 5, Ev.scl false]) ++ rest
      = Ev.call (Call.write dat) :: (pulse (dat.testBit 7) ++ (pulse (dat.testBit 6) ++
          (pulse (dat.testBit 5) ++ (pulse (dat.testBit 4) ++ (pulse (dat.testBit 3) ++
          (pulse (dat.testBit 2) ++ (pulse (dat.testBit 1) ++ (pulse (dat.testBit 0) ++
          (Ev.sda true :: Ev.delay_us 2 :: Ev.scl true ::
            (samples line r n ++ (Ev.delay_us 5 :: Ev.scl false :: rest))))))))))) := by
    simp only [dataPhase, List.append_assoc, List.cons_append, List.nil_append]
  rw [e]
  show sdaWritesHigh (some (Call.write dat)) sda false _ = _
  rw [sdaWritesHigh_pulse, sdaWritesHigh_pulse, sdaWritesHigh_pulse, sdaWritesHigh_pulse,
    sdaWritesHigh_pulse, sdaWritesHigh_pulse, sdaWritesHigh_pulse, sdaWritesHigh_pulse]
  show sdaWritesHigh (some (Call.write dat)) true true
    (samples line r n ++ (Ev.delay_us 5 :: Ev.scl false :: rest)) = _
  rw [sdaWritesHigh_samples]
  rfl

/-- Entered with the clock low, `I2C_ReadByte` writes the data latch only
while the clock latch is low, and leaves the data latch released. -/
theorem sdaWritesHigh_read (ack : Bool) (l0 l1 l2 l3 l4 l5 l6 l7 : Bool) (fn : Option Call)
    (sda : Bool) (rest : List Ev) :
    sdaWritesHigh fn sda false
      ([Ev.call (Call.read ack), Ev.sda true,
        Ev.delay_us 2, Ev.scl true, Ev.sample l0, Ev.delay_us 5, Ev.scl false,
        Ev.delay_us 2, Ev.scl true, Ev.sample l1, Ev.delay_us 5, Ev.scl false,
        Ev.delay_us 2, Ev.scl true, Ev.sample l2, Ev.delay_us 5, Ev.scl false,
        Ev.delay_us 2, Ev.scl true, Ev.sample l3, Ev.delay_us 5, Ev.scl false,
        Ev.delay_us 2, Ev.scl true, Ev.sample l4, Ev.delay_us 5, Ev.scl false,
        Ev.delay_us 2, Ev.scl true, Ev.sample l5, Ev.delay_us 5, Ev.scl false,
        Ev.delay_us 2, Ev.scl true, Ev.sample l6, Ev.delay_us 5, Ev.scl false,
        Ev.delay_us 2, Ev.scl true, Ev.sample l7, Ev.delay_us 5, Ev.scl false,
        Ev.sda ack, Ev.delay_us 2, Ev.scl true, Ev.delay_us 5, Ev.scl false, Ev.sda true]
        ++ rest)
      = sdaWritesHigh (some (Call.read ack)) true false rest := rfl

/-- Entered with both latches high, `I2C_Start` writes the data latch twice
while the clock latch is high: high again, then low. -/
theorem sdaWritesHigh_start (fn : Option Call) (rest : List Ev) :
    sdaWritesHigh fn true true
      ([Ev.call Call.start, Ev.sda true, Ev.scl true, Ev.delay_us 5, Ev.sda false,
        Ev.delay_us 5, Ev.scl false] ++ rest)
      = (some Call.start, true, true) :: (some Call.start, true, false)
          :: sdaWritesHigh (some Call.start) false false rest := rfl

/-- Entered with the clock low, `I2C_Stop` writes the data latch once while
the clock latch is high: from low to high. -/
theorem sdaWritesHigh_stop (fn : Option Call) (sda : Bool) (rest : List Ev) :
    sdaWritesHigh fn sda false
      ([Ev.call Call.stop, Ev.sda false, Ev.scl true, Ev.delay_us 5, Ev.sda true,
        Ev.delay_us 5] ++ rest)
      = (some Call.stop, false, true) :: sdaWritesHigh (some Call.stop) true true rest := rfl

/-- A byte transfer entered with the clock low appends a record without any
write to the data latch while the clock latch is high, and leaves the clock low. -/
theorem exec_byte_high (c : Call) (hc : c.isByte = true) (s : Bus) :
    ∃ evs, (exec c s).trace = s.trace ++ evs ∧ (exec c s).scl = false ∧
      ∀ fn sda rest,
        sdaWritesHigh fn sda false (evs ++ rest) = sdaWritesHigh (some c) true false rest := by
  cases c with
  | init => exact absurd hc (by decide)
  | start => exact absurd hc (by decide)
  | stop => exact absurd hc (by decide)
  | write dat =>
    have hd : dat < 256 := of_decide_eq_true hc
    exact ⟨_, I2C_WriteByte_trace dat hd s, (I2C_WriteByte_spec dat s).2.1,
      fun fn sda rest => sdaWritesHigh_write dat _ s.line s.reads fn sda rest⟩
  | read ack =>
    have e := I2C_ReadByte_eq ack s
    refine ⟨_, congrArg (fun r => r.2.trace) e, congrArg (fun r => r.2.scl) e,
      fun fn sda rest => sdaWritesHigh_read ack _ _ _ _ _ _ _ _ fn sda rest⟩

/-- A sequence of byte transfers entered with the clock low appends a record
without any write to the data latch while the clock latch is high, and leaves
the clock low. -/
theorem run_bytes_high : ∀ (bytes : List Call), (∀ c ∈ bytes, c.isByte = true) →
    ∀ (s : Bus), s.scl = false →
    ∃ evs, (run bytes s).trace = s.trace ++ evs ∧ (run bytes s).scl = false ∧
      ∀ fn sda rest, ∃ fn2 sda2,
        sdaWritesHigh fn sda false (evs ++ rest) = sdaWritesHigh fn2 sda2 false rest := by
  intro bytes
  induction bytes with
  | nil =>
    intro _ s hs
    exact ⟨[], by simp [run], hs, fun fn sda rest => ⟨fn, sda, rfl⟩⟩
  | cons c cs ih =>
    intro hb s _
    obtain ⟨e1, t1, c1, w1⟩ := exec_byte_high c (hb c (List.mem_cons_self _ _)) s
    obtain ⟨e2, t2, c2, w2⟩ := ih (fun x hx => hb x (List.mem_cons_of_mem _ hx)) (exec c s) c1
    refine ⟨e1 ++ e2, ?_, c2, fun fn sda rest => ?_⟩
    · show (run cs (exec c s)).trace = _
      rw [t2, t1, List.append_assoc]
    · rw [List.append_assoc, w1]
      exact w2 _ _ rest

/-- The calls of a transaction are executed as Start, the byte transfers, Stop. -/
theorem run_transaction (bytes : List Call) (s : Bus) :
    run (transaction bytes) s = I2C_Stop (run bytes (I2C_Start s)) := by
  simp [run, transaction, exec, List.foldl_append]

/-- Falling edges of the data latch while the clock latch is high, counted on
the list of writes made while the clock latch is high. -/
theorem startConditions_eq (es : List Ev) : ∀ (fn : Option Call) (sda scl : Bool),
    startConditions sda scl es
      = ((sdaWritesHigh fn sda scl es).filter fun e => e.2.1 && !e.2.2).length := by
  induction es with
  | nil => intro fn sda scl; rfl
  | cons e es ih =>
    intro fn sda scl
    cases e with
    | call c => simpa [startConditions, sdaWritesHigh] using ih (some c) sda scl
    | sda v =>
      have := ih fn v scl
      cases scl <;> cases sda <;> cases v <;> simp [startConditions, sdaWritesHigh, this, Nat.add_comm]
    | scl v => simpa [startConditions, sdaWritesHigh] using ih fn sda v
    | sample l => simpa [startConditions, sdaWritesHigh] using ih fn sda scl
    | delay_us n => simpa [startConditions, sdaWritesHigh] using ih fn sda scl
    | delay_ms n => simpa [startConditions, sdaWritesHigh] using ih fn sda scl
    | dust_led l => simpa [startConditions, sdaWritesHigh] using ih fn sda scl

/-- Rising edges of the data latch while the clock latch is high, counted on
the list of writes made while the clock latch is high. -/
theorem stopConditions_eq (es : List Ev) : ∀ (fn : Option Call) (sda scl : Bool),
    stopConditions sda scl es
      = ((sdaWritesHigh fn sda scl es).filter fun e => !e.2.1 && e.2.2).length := by
  induction es with
  | nil => intro fn sda scl; rfl
  | cons e es ih =>
    intro fn sda scl
    cases e with
    | call c => simpa [stopConditions, sdaWritesHigh] using ih (some c) sda scl
    | sda v =>
      have := ih fn v scl
      cases scl <;> cases sda <;> cases v <;> simp [stopConditions, sdaWritesHigh, this, Nat.add_comm]
    | scl v => simpa [stopConditions, sdaWritesHigh] using ih fn sda v
    | sample l => simpa [stopConditions, sdaWritesHigh] using ih fn sda scl
    | delay_us n => simpa [stopConditions, sdaWritesHigh] using ih fn sda scl
    | delay_ms n => simpa [stopConditions, sdaWritesHigh] using ih fn sda scl
    | dust_led l => simpa [stopConditions, sdaWritesHigh] using ih fn sda scl

/-- The writes to the data latch made while the clock latch is high in one
transaction entered with both latches high. -/
theorem transaction_writes (bytes : List Call) (hb : ∀ c ∈ bytes, c.isByte = true) (s : Bus)
    (fn : Option Call) :
    ∃ evs, (run (transaction bytes) s).trace = s.trace ++ evs ∧
      sdaWritesHigh fn true true evs
        = [(some Call.start, true, true), (some Call.start, true, false),
           (some Call.stop, false, true)] := by
  obtain ⟨e, t, c, w⟩ := run_bytes_high bytes hb (I2C_Start s) rfl
  refine ⟨[Ev.call Call.start, Ev.sda true, Ev.scl true, Ev.delay_us 5, Ev.sda false,
      Ev.delay_us 5, Ev.scl false] ++ (e ++ ([Ev.call Call.stop, Ev.sda false, Ev.scl true,
      Ev.delay_us 5, Ev.sda true, Ev.delay_us 5] ++ [])), ?_, ?_⟩
  · rw [run_transaction, I2C_Stop_eq]
    show (run bytes (I2C_Start s)).trace ++ _ = _
    rw [t, I2C_Start_eq]
    simp only [List.append_assoc, List.append_nil]
  · rw [sdaWritesHigh_start]
    obtain ⟨fn2, sda2, h2⟩ := w (some Call.start) false
      ([Ev.call Call.stop, Ev.sda false, Ev.scl true, Ev.delay_us 5, Ev.sda true,
        Ev.delay_us 5] ++ [])
    rw [h2, sdaWritesHigh_stop]
    rfl

/-- C35: data-validity rule.  In a transaction (Start, any byte transfers,
Stop) entered with both latches high, as `I2C_Init` and every transaction
leave them, the data latch is written while the clock latch is high exactly
three times: twice inside `I2C_Start` (high again, then the falling edge) and
once inside `I2C_Stop` (the rising edge).  So its level changes while the clock
is high only twice, there is one START and one STOP condition, and no write to
the data latch inside `I2C_WriteByte` or `I2C_ReadByte` happens while the clock
is high.  The transactions of `AHT10_Read` and `ADS1115_ReadChannel` are of
this form. -/
theorem transaction_data_validity (bytes : List Call) (hb : ∀ c ∈ bytes, c.isByte = true)
    (s : Bus) (hsda : s.sda = true) (hscl : s.scl = true) :
    sdaWritesHigh none s.sda s.scl ((run (transaction bytes) s).trace.drop s.trace.length)
      = [(some Call.start, true, true), (some Call.start, true, false),
         (some Call.stop, false, true)] ∧
    (sdaWritesHigh none s.sda s.scl
        ((run (transaction bytes) s).trace.drop s.trace.length)).filter (fun e => e.2.1 != e.2.2)
      = [(some Call.start, true, false), (some Call.stop, false, true)] ∧
    startConditions s.sda s.scl ((run (transaction bytes) s).trace.drop s.trace.length) = 1 ∧
    stopConditions s.sda s.scl ((run (transaction bytes) s).trace.drop s.trace.length) = 1 ∧
    ((run (transaction bytes) s).sda = true ∧ (run (transaction bytes) s).scl = true) ∧
    ((I2C_Init s).sda = true ∧ (I2C_Init s).scl = true) ∧
    (AHT10_Read_capture s).2
      = run (transaction [Call.write ((AHT10_ADDR <<< 1) ||| 0x01), Call.read false,
          Call.read false, Call.read false, Call.read false, Call.read false, Call.read true])
        (delay_ms 80 (run (transaction [Call.write (AHT10_ADDR <<< 1), Call.write 0xAC,
          Call.write 0x33, Call.write 0x00]) s)) ∧
    (∀ channel, (ADS1115_ReadChannel channel s).2
      = run (transaction [Call.write ((ADS1115_ADDR <<< 1) ||| 0x01), Call.read false,
          Call.read true])
        (run (transaction [Call.write (ADS1115_ADDR <<< 1), Call.write 0x00])
          (delay_ms 10 (run (transaction [Call.write (ADS1115_ADDR <<< 1), Call.write 0x01,
            Call.write (ADS1115_ReadChannel_config_high channel),
            Call.write ADS1115_ReadChannel_config_low]) s)))) := by
  obtain ⟨evs, ht, hw⟩ := transaction_writes bytes hb s none
  rw [ht, List.drop_left, hsda, hscl]
  refine ⟨hw, ?_, ?_, ?_, ?_, ⟨rfl, rfl⟩, ?_, ?_⟩
  · rw [hw]; rfl
  · rw [startConditions_eq evs none, hw]; rfl
  · rw [stopConditions_eq evs none, hw]; rfl
  · rw [run_transaction]; exact ⟨rfl, rfl⟩
  · simp only [run_transaction]
    rfl
  · intro channel
    simp only [run_transaction]
    rfl

/-- Witness for C35: an address byte followed by one byte read, on an idle bus. -/
theorem transaction_data_validity_witness :
    sdaWritesHigh none true true
      ((run (transaction [Call.write 0x71, Call.read true]) (Bus.idle fun _ => false)).trace.drop
        (Bus.idle fun _ => false).trace.length)
      = [(some Call.start, true, true), (some Call.start, true, false),
         (some Call.stop, false, true)] :=
  (transaction_data_validity [Call.write 0x71, Call.read true] (by decide)
    (Bus.idle fun _ => false) rfl rfl).1

end AirQuality
